import Mathlib

/-!
# Vortex: frame orchestration, the render loop, the swapchain and the descriptors

A shallow embedding of `CommandManager` (src/src/Core/Command.cpp), of
`SwapchainManager` (src/src/Core/Swapchain.cpp), of `DescriptorManager`
(src/src/Core/Descriptor.cpp) and of the `Renderer` functions that drive them
(src/src/Core/Renderer.cpp): the constructor, `render`,
`recreateSwapchainAndDependencies`, `createFramebuffers`, the uniform-buffer
creation, update and cleanup, the binding loop of the constructor, and the
destructor; of the device choice of `Context`
(src/src/Core/Context.cpp), of `PipelineManager::createGraphicsPipeline`
(src/src/Core/Pipeline.cpp) and of the attachment loop of
`RenderPassFactory::create` (src/src/Core/RenderPass.cpp).

The C++ code talks to the GPU through vulkan.hpp.  Every such call is recorded
as an `Event` carrying the arguments the code passed; what the driver answers
(result codes, the acquired image index) is supplied by an environment record.
A function of the program becomes a Lean function from the object state and the
environment to an `Outcome`: how the call completed (returned or threw), the
object state it left behind, and the calls it issued, in order.

vulkan.hpp is used with exceptions enabled (the code catches `vk::SystemError`):
a wrapper that returns a `vk::Result` throws whenever the raw result is not one
of the success codes of that call.  `uint32_t` values are natural numbers, with
the wrap-around written out where the code does arithmetic on them.
-/

namespace Vortex

/-! ## Values shared by all components -/

/-- The largest `uint32_t`; `beginFrame` returns it as the "not ready" sentinel. -/
def UINT32_MAX : Nat := 4294967295

/-- Result codes of the graphics API that the frame loop can observe. -/
inductive VkResult where
  | eSuccess
  | eNotReady
  | eTimeout
  | eSuboptimalKHR
  | ePipelineCompileRequiredEXT
  | eErrorOutOfHostMemory
  | eErrorOutOfDeviceMemory
  | eErrorDeviceLost
  | eErrorSurfaceLostKHR
  | eErrorOutOfDateKHR
  deriving DecidableEq, Repr

/-- Pipeline stages that can be named in a submission's wait mask. -/
inductive PipelineStage where
  | eTopOfPipe
  | eFragmentShader
  | eColorAttachmentOutput
  | eBottomOfPipe
  deriving DecidableEq, Repr

/-- A semaphore owned by a `CommandManager`, named by the vector that holds it
and its position: `m_imageAvailableSemaphores[slot]` or
`m_renderFinishedSemaphores[image]`. -/
inductive Semaphore where
  | imageAvailable (slot : Nat)
  | renderFinished (image : Nat)
  deriving DecidableEq, Repr

/-- The steps of `Renderer::recreateSwapchainAndDependencies` whose exception is
supplied by the environment: the idle wait and the four creations after
`m_swapchain->recreate()` (what `recreate()` throws is computed from its own
embedding). -/
inductive RecreateStage where
  | waitIdle
  | createDepthResources
  | createFramebuffers
  | createGraphicsPipeline
  | createCommandManager
  deriving DecidableEq, Repr

/-- What a C++ call can throw.  All of these derive from `std::exception`. -/
inductive Exception where
  | vkSystemError (r : VkResult)
  | failedToWaitForFence (frame : Nat)
  | failedToAcquireImage
  | failedToPresent
  | recreationFailed (stage : RecreateStage)
  | failedToCreateSwapchain
  | failedToCreateImageView (index : Nat)
  | layoutAlreadyCreated (setIndex : Nat)
  | layoutNotCreated (setIndex : Nat)
  | failedToCreateDescriptorPool
  | descriptorPoolNotCreated
  | setsNotAllocated (setIndex : Nat)
  | instanceOutOfBounds (setIndex : Nat) (index : Nat) (size : Nat)
  | layoutMissing (setIndex : Nat)
  | noVulkanDevices
  | noSuitableDevice
  | failedToOpenShaderFile (path : Nat)
  | shaderSizeNotMultipleOfFour (path : Nat)
  | failedToCreateShaderModule (path : Nat)
  | failedToCreateGraphicsPipeline
  | cameraNotSet
  deriving DecidableEq, Repr

/-- How a call completed: it returned a value, it threw, or it left the behaviour
C++ defines (a call through an empty `unique_ptr`). -/
inductive Completion (α : Type) where
  | returned (a : α)
  | thrown (e : Exception)
  | undefinedBehaviour
  deriving DecidableEq, Repr

/-- The descriptor types of the graphics API. -/
inductive DescriptorType where
  | eSampler
  | eCombinedImageSampler
  | eSampledImage
  | eStorageImage
  | eUniformBuffer
  | eStorageBuffer
  deriving DecidableEq, Repr

/-- A `vk::DescriptorSetLayoutBinding`; the stage flags are the bit mask of the
API (vertex 1, fragment 16). -/
structure LayoutBinding where
  binding : Nat
  descriptorType : DescriptorType
  descriptorCount : Nat
  stageFlags : Nat
  deriving DecidableEq, Repr

/-- The calls that create, query or destroy the driver objects of the components
(the chain and its image views, descriptor layouts and sets, fences, command
pools and buffers, semaphores, shader modules, pipelines), each with the handles
it names, and the resets of the `unique_ptr` members of the renderer. -/
inductive ResourceCall where
  | getSurfaceCapabilitiesKHR (result : VkResult)
  | getSurfaceFormatsKHR (result : VkResult)
  | getSurfacePresentModesKHR (result : VkResult)
  | createSwapchainKHR (minImageCount : Nat) (width height : Nat) (mailbox : Bool)
      (concurrent : Bool) (oldSwapchain : Nat) (result : VkResult)
  | destroySwapchainKHR (swapchain : Nat)
  | getSwapchainImagesKHR (swapchain : Nat) (result : VkResult)
  | createImageView (image : Nat) (result : VkResult)
  | destroyImageView (view : Nat)
  | createDescriptorSetLayout (bindings : List LayoutBinding) (result : VkResult)
  | allocateDescriptorSets (pool : Nat) (layout : Nat) (count : Nat) (result : VkResult)
  | writeImageDescriptor (dstSet : Nat) (dstBinding : Nat) (imageView : Nat) (sampler : Nat)
  | swapchainReset
  | descriptorManagerReset
  | renderPassReset
  | contextReset
  | destroyFence (fence : Nat)
  | freeCommandBuffers (commandPool : Nat) (commandBuffer : Nat)
  | destroyCommandPool (commandPool : Nat)
  | destroySemaphore (semaphore : Nat)
  | createShaderModule (codeSize : Nat) (result : VkResult) (shaderModule : Nat)
  | destroyShaderModule (shaderModule : Nat)
  | createPipelineLayout (setLayouts : List Nat) (result : VkResult)
  | createGraphicsPipelines (layout : Nat) (result : VkResult)
  deriving DecidableEq, Repr

/-- One call issued by the program, in the order the code issues it.  A fence or
a command buffer is named by the frame slot `i` of `m_perFrameData[i]` that
holds it. -/
inductive Event where
  | waitForFences (slot : Nat) (timeoutNs : Nat) (result : VkResult)
  | acquireNextImageKHR (semaphore : Semaphore) (result : VkResult)
  | resetFences (slot : Nat)
  | queueSubmit (waitSemaphore : Semaphore) (waitStage : PipelineStage)
      (commandBuffer : Nat) (signalSemaphore : Semaphore) (fence : Nat) (result : VkResult)
  | queuePresent (waitSemaphore : Semaphore) (imageIndex : Nat) (result : VkResult)
  | cameraSetViewportSize
  | updateFrameUBO (frame : Nat)
  | cmdReset (slot : Nat)
  | cmdBegin (slot : Nat)
  | cmdBeginRenderPass (slot : Nat) (framebuffer : Nat)
  | cmdSetViewport (slot : Nat)
  | cmdSetScissor (slot : Nat)
  | updateObjectUBO (objIdx : Nat)
  | cmdBindPipeline (slot : Nat)
  | cmdBindVertexBuffers (slot : Nat)
  | cmdBindIndexBuffer (slot : Nat)
  | cmdBindDescriptorSets (slot : Nat) (set0Instance : Nat) (set1Instance : Nat)
  | cmdDrawIndexed (slot : Nat)
  | cmdEndRenderPass (slot : Nat)
  | cmdEnd (slot : Nat)
  | deviceWaitIdle
  | destroyFramebuffers (count : Nat)
  | destroyDepthImageView
  | destroyDepthImage
  | freeDepthImageMemory
  | commandManagerReset
  | pipelineManagerReset
  | swapchainRecreate
  | createDepthResources
  | createFramebuffers (count : Nat)
  | createPipelineManager
  | createGraphicsPipeline
  | createCommandManager (framesInFlight : Nat) (swapchainImageCount : Nat)
  | createDescriptorPool (poolSizes : List (DescriptorType × Nat)) (maxSets : Nat)
      (result : VkResult)
  | writeBufferDescriptor (dstSet : Nat) (dstBinding : Nat) (buffer : Nat) (size : Nat)
  | vmaDestroyBuffer (buffer : Nat) (allocation : Nat)
  | resource (call : ResourceCall)
  deriving DecidableEq, Repr

/-- The result of running a member function: completion, the object afterwards,
and the calls issued. -/
structure Outcome (σ α : Type) where
  result : Completion α
  state : σ
  events : List Event

/-- The check vulkan.hpp performs on a raw result: it throws unless the result is
one of the success codes of the call. -/
def resultCheck (result : VkResult) (successCodes : List VkResult) : Bool :=
  successCodes.contains result

/-! ## CommandManager (src/src/Core/Command.cpp) -/

/-- The fields of `CommandManager`.  The three vectors hold driver handles; the
model keeps their sizes. -/
structure CommandManager where
  m_framesInFlight : Nat
  m_currentFrameIndex : Nat
  m_currentImageIndex : Nat
  perFrameDataSize : Nat
  imageAvailableSemaphoresSize : Nat
  renderFinishedSemaphoresSize : Nat
  deriving DecidableEq, Repr

/-- The state a successful constructor call leaves (Command.cpp 9-62): frame
index 0, image index 0 (its default member initialiser), vectors resized. -/
def CommandManager.create (framesInFlight swapchainImageCount : Nat) : CommandManager :=
  { m_framesInFlight := framesInFlight
    m_currentFrameIndex := 0
    m_currentImageIndex := 0
    perFrameDataSize := framesInFlight
    imageAvailableSemaphoresSize := framesInFlight
    renderFinishedSemaphoresSize := swapchainImageCount }

/-- What the driver answers during one `beginFrame` call.  `acquiredIndex` is the
value stored through the `pImageIndex` pointer by the acquisition, if it stores
one. -/
structure BeginFrameEnv where
  waitResult : VkResult
  acquireResult : VkResult
  acquiredIndex : Option Nat
  deriving DecidableEq, Repr

/-- What the driver answers during one `endFrame` call. -/
structure EndFrameEnv where
  submitResult : VkResult
  presentResult : VkResult
  deriving DecidableEq, Repr

/-- The fence wait timeout passed by `beginFrame`, in nanoseconds (one second). -/
def fenceTimeoutNs : Nat := 1000000000

/-- The method `CommandManager::beginFrame` (Command.cpp 101-126). -/
def CommandManager.beginFrame (s : CommandManager) (env : BeginFrameEnv) :
    Outcome CommandManager Nat :=
  let i := s.m_currentFrameIndex
  let waitEv := Event.waitForFences i fenceTimeoutNs env.waitResult
  -- device.waitForFences: success codes are eSuccess and eTimeout
  if resultCheck env.waitResult [.eSuccess, .eTimeout] = false then
    ⟨.thrown (.vkSystemError env.waitResult), s, [waitEv]⟩
  else if env.waitResult = .eTimeout then
    ⟨.returned UINT32_MAX, s, [waitEv]⟩
  else if env.waitResult ≠ .eSuccess then
    ⟨.thrown (.failedToWaitForFence i), s, [waitEv]⟩
  else
    -- the pointer overload of acquireNextImageKHR returns the raw result
    let acquireEv := Event.acquireNextImageKHR (.imageAvailable i) env.acquireResult
    let s1 := { s with m_currentImageIndex := env.acquiredIndex.getD s.m_currentImageIndex }
    if env.acquireResult ≠ .eSuccess then
      ⟨.thrown .failedToAcquireImage, s1, [waitEv, acquireEv]⟩
    else
      ⟨.returned s1.m_currentImageIndex, s1, [waitEv, acquireEv, .resetFences i]⟩

/-- The method `CommandManager::endFrame` (Command.cpp 128-160).  `commandBuffer`
is the frame slot whose primary buffer the caller passes in. -/
def CommandManager.endFrame (s : CommandManager) (commandBuffer : Nat) (env : EndFrameEnv) :
    Outcome CommandManager Unit :=
  let i := s.m_currentFrameIndex
  let k := s.m_currentImageIndex
  let submitEv := Event.queueSubmit (.imageAvailable i) .eColorAttachmentOutput commandBuffer
    (.renderFinished k) i env.submitResult
  -- graphicsQueue.submit: the only success code is eSuccess; it is outside the try block
  if resultCheck env.submitResult [.eSuccess] = false then
    ⟨.thrown (.vkSystemError env.submitResult), s, [submitEv]⟩
  else
    let presentEv := Event.queuePresent (.renderFinished k) k env.presentResult
    let advanced := { s with m_currentFrameIndex := (i + 1) % 4294967296 % s.m_framesInFlight }
    -- presentQueue.presentKHR: success codes are eSuccess and eSuboptimalKHR
    if resultCheck env.presentResult [.eSuccess, .eSuboptimalKHR] = false then
      ⟨.thrown .failedToPresent, advanced, [submitEv, presentEv]⟩
    else
      ⟨.returned (), advanced, [submitEv, presentEv]⟩

/-- The method `CommandManager::getCurrentCommandBuffer` (Command.cpp 162-164): the
primary buffer of the current slot, named by that slot. -/
def CommandManager.getCurrentCommandBuffer (s : CommandManager) : Nat :=
  s.m_currentFrameIndex

/-- The method `CommandManager::getCurrentFrameIndex` (Command.cpp 166-168). -/
def CommandManager.getCurrentFrameIndex (s : CommandManager) : Nat :=
  s.m_currentFrameIndex

/-! ## DescriptorManager (src/src/Core/Descriptor.cpp, src/include/Core/Descriptor.h) -/

/-- The types a layout is declared from (the template arguments of
`createLayout`). -/
inductive BindingKind where
  | CameraUBO
  | TransformUBO
  | LightUBO
  | MaterialUBO
  | TextureSampler
  deriving DecidableEq, Repr

/-- The constant `DescriptorTraits<T>::Type` (Descriptor.h 25-67). -/
def DescriptorTraits.type : BindingKind → DescriptorType
  | .TextureSampler => .eCombinedImageSampler
  | _ => .eUniformBuffer

/-- The constant `DescriptorTraits<T>::Stages` (Descriptor.h 25-67). -/
def DescriptorTraits.stages : BindingKind → Nat
  | .CameraUBO => 17
  | .TransformUBO => 1
  | .LightUBO => 16
  | .MaterialUBO => 16
  | .TextureSampler => 16

/-- The template function `generateBindings<T, Rest...>` (Descriptor.cpp 13-28); the
C++ template needs at least one type. -/
def generateBindings (binding : Nat) : List BindingKind → List LayoutBinding
  | [] => []
  | t :: rest =>
    { binding := binding
      descriptorType := DescriptorTraits.type t
      descriptorCount := 1
      stageFlags := DescriptorTraits.stages t } ::
    generateBindings ((binding + 1) % 4294967296) rest

/-- A descriptor set layout object: its handle, and the bindings it was created
from (kept by the driver behind the handle). -/
structure DescriptorSetLayout where
  handle : Nat
  bindings : List LayoutBinding
  deriving DecidableEq, Repr

/-- The fields of `DescriptorManager`.  An `unordered_map` is the list of its
entries, in iteration order; its keys are distinct.  A handle is a natural
number, 0 being the null handle. -/
structure DescriptorManager where
  m_descriptorPool : Nat
  m_layouts : List (Nat × DescriptorSetLayout)
  m_sets : List (Nat × List Nat)
  deriving DecidableEq, Repr

/-- The assignment `m[k] = v` on an `unordered_map`. -/
def umapAssign {β : Type} (m : List (Nat × β)) (k : Nat) (v : β) : List (Nat × β) :=
  if (m.lookup k).isSome then m.map (fun p => if p.1 = k then (k, v) else p)
  else m ++ [(k, v)]

/-- The state a `DescriptorManager` constructor call leaves (Descriptor.cpp 54-57). -/
def DescriptorManager.create : DescriptorManager :=
  { m_descriptorPool := 0, m_layouts := [], m_sets := [] }

/-- The template method `DescriptorManager::createLayout<Types...>` (Descriptor.cpp 32-49);
`result` and `handle` are what the driver answers to the layout creation. -/
def DescriptorManager.createLayout (d : DescriptorManager) (types : List BindingKind)
    (setIndex : Nat) (bindStart : Nat) (result : VkResult) (handle : Nat) :
    Outcome DescriptorManager Unit :=
  if (d.m_layouts.lookup setIndex).isSome then
    ⟨.thrown (.layoutAlreadyCreated setIndex), d, []⟩
  else
    let bindings := generateBindings bindStart types
    let ev := [Event.resource (.createDescriptorSetLayout bindings result)]
    if result ≠ .eSuccess then
      ⟨.thrown (.vkSystemError result), d, ev⟩
    else
      ⟨.returned (), { d with m_layouts := umapAssign d.m_layouts setIndex ⟨handle, bindings⟩ }, ev⟩

/-- The statement `poolSizeCounts[type] += x` on the local `unordered_map` of
`createPool`, in `uint32_t` arithmetic; the map is the function from a type to
its entry, if it has one. -/
def addCount (counts : DescriptorType → Option Nat) (t : DescriptorType) (x : Nat) :
    DescriptorType → Option Nat :=
  fun u => if u = t then some (((counts t).getD 0 + x) % 4294967296) else counts u

/-- The first loop of `createPool` (Descriptor.cpp 93-106) over the entries of the
capacity map, from the counts and the total reached so far: the exception it
throws, or the final counts and total. -/
def createPoolLoop (layouts : List (Nat × DescriptorSetLayout)) :
    List (Nat × Nat) → (DescriptorType → Option Nat) → Nat →
      Except Exception ((DescriptorType → Option Nat) × Nat)
  | [], counts, totalSets => .ok (counts, totalSets)
  | (setIndex, count) :: rest, counts, totalSets =>
    let totalSets := (totalSets + count) % 4294967296
    if (layouts.lookup setIndex).isNone then
      .error (.layoutNotCreated setIndex)
    else if setIndex = 0 then
      createPoolLoop layouts rest (addCount counts .eUniformBuffer count) totalSets
    else if setIndex = 1 then
      createPoolLoop layouts rest
        (addCount (addCount counts .eUniformBuffer (count * 3 % 4294967296))
          .eCombinedImageSampler (count * 4 % 4294967296))
        totalSets
    else
      createPoolLoop layouts rest counts totalSets

/-- All descriptor types, in the order in which the model iterates over
`poolSizeCounts` (the C++ iteration order is unspecified). -/
def allDescriptorTypes : List DescriptorType :=
  [.eSampler, .eCombinedImageSampler, .eSampledImage, .eStorageImage, .eUniformBuffer,
   .eStorageBuffer]

/-- The second loop of `createPool` (Descriptor.cpp 108-113): the entries of
`poolSizeCounts` with a positive count. -/
def poolSizesOf (counts : DescriptorType → Option Nat) : List (DescriptorType × Nat) :=
  allDescriptorTypes.filterMap (fun t =>
    match counts t with
    | some c => if c > 0 then some (t, c) else none
    | none => none)

/-- The method `DescriptorManager::createPool` (Descriptor.cpp 89-133); `result` and
`pool` are what the driver answers to the pool creation. -/
def DescriptorManager.createPool (d : DescriptorManager) (setCapacity : List (Nat × Nat))
    (result : VkResult) (pool : Nat) : Outcome DescriptorManager Unit :=
  match createPoolLoop d.m_layouts setCapacity (fun _ => none) 0 with
  | .error e => ⟨.thrown e, d, []⟩
  | .ok (counts, totalSets) =>
    let poolSizes := poolSizesOf counts
    if poolSizes.isEmpty then
      ⟨.returned (), d, []⟩
    else
      let ev := [Event.createDescriptorPool poolSizes totalSets result]
      if result ≠ .eSuccess then
        ⟨.thrown .failedToCreateDescriptorPool, d, ev⟩
      else
        ⟨.returned (), { d with m_descriptorPool := pool }, ev⟩

/-- The loop of `allocateAllSets` (Descriptor.cpp 144-159); `answer setIndex` is what
the driver answers to the allocation made for that set. -/
def allocateAllSetsLoop (answer : Nat → VkResult × List Nat) :
    List (Nat × Nat) → DescriptorManager → Outcome DescriptorManager Unit
  | [], d => ⟨.returned (), d, []⟩
  | (setIndex, count) :: rest, d =>
    match d.m_layouts.lookup setIndex with
    | none => allocateAllSetsLoop answer rest d
    | some layout =>
      let ev := Event.resource (.allocateDescriptorSets d.m_descriptorPool layout.handle count
        (answer setIndex).1)
      if (answer setIndex).1 ≠ .eSuccess then
        ⟨.thrown (.vkSystemError (answer setIndex).1), d, [ev]⟩
      else
        let o := allocateAllSetsLoop answer rest
          { d with m_sets := umapAssign d.m_sets setIndex (answer setIndex).2 }
        ⟨o.result, o.state, ev :: o.events⟩

/-- The method `DescriptorManager::allocateAllSets` (Descriptor.cpp 139-160). -/
def DescriptorManager.allocateAllSets (d : DescriptorManager) (setCapacity : List (Nat × Nat))
    (answer : Nat → VkResult × List Nat) : Outcome DescriptorManager Unit :=
  if d.m_descriptorPool = 0 then
    ⟨.thrown .descriptorPoolNotCreated, d, []⟩
  else
    allocateAllSetsLoop answer setCapacity d

/-- The method `DescriptorManager::getDescriptorSet` (Descriptor.cpp 223-233). -/
def DescriptorManager.getDescriptorSet (d : DescriptorManager) (setIndex index : Nat) :
    Completion Nat :=
  match d.m_sets.lookup setIndex with
  | none => .thrown (.setsNotAllocated setIndex)
  | some instances =>
    match instances[index]? with
    | none => .thrown (.instanceOutOfBounds setIndex index instances.length)
    | some h => .returned h

/-- The expression `m_sets[layoutIdx][setInstance]` of the two bind functions: the
`operator[]` of the map inserts an empty vector under a key it does not hold,
and the `operator[]` of the vector has no defined behaviour past its end
(`none`). -/
def DescriptorManager.setAt (d : DescriptorManager) (layoutIdx setInstance : Nat) :
    DescriptorManager × Option Nat :=
  match d.m_sets.lookup layoutIdx with
  | none => ({ d with m_sets := d.m_sets ++ [(layoutIdx, [])] }, none)
  | some instances => (d, instances[setInstance]?)

/-- The method `DescriptorManager::bindBufferToSet` (Descriptor.cpp 182-199). -/
def DescriptorManager.bindBufferToSet (d : DescriptorManager)
    (layoutIdx setInstance binding buffer size : Nat) : Outcome DescriptorManager Unit :=
  match (d.setAt layoutIdx setInstance).2 with
  | none => ⟨.undefinedBehaviour, (d.setAt layoutIdx setInstance).1, []⟩
  | some dstSet =>
    ⟨.returned (), (d.setAt layoutIdx setInstance).1,
     [.writeBufferDescriptor dstSet binding buffer size]⟩

/-- The method `DescriptorManager::bindImageToSet` (Descriptor.cpp 201-221). -/
def DescriptorManager.bindImageToSet (d : DescriptorManager)
    (layoutIdx setInstance binding imageView sampler : Nat) : Outcome DescriptorManager Unit :=
  match (d.setAt layoutIdx setInstance).2 with
  | none => ⟨.undefinedBehaviour, (d.setAt layoutIdx setInstance).1, []⟩
  | some dstSet =>
    ⟨.returned (), (d.setAt layoutIdx setInstance).1,
     [.resource (.writeImageDescriptor dstSet binding imageView sampler)]⟩

/-- The second loop of `getAllDescriptorSetLayouts` (Descriptor.cpp 247-249):
`layouts[kv.first] = kv.second` for each entry; a write past the end of the
vector has no defined behaviour (`none`). -/
def fillLayouts : List (Nat × DescriptorSetLayout) → List Nat → Option (List Nat)
  | [], layouts => some layouts
  | (k, l) :: rest, layouts =>
    if k < layouts.length then fillLayouts rest (layouts.set k l.handle) else none

/-- The method `DescriptorManager::getAllDescriptorSetLayouts` (Descriptor.cpp 235-257). -/
def DescriptorManager.getAllDescriptorSetLayouts (d : DescriptorManager) :
    Completion (List Nat) :=
  if d.m_layouts.isEmpty then
    .returned []
  else
    let maxSetIndex := d.m_layouts.foldl (fun m kv => max m kv.1) 0
    -- maxSetIndex + 1 is computed in uint32_t
    match fillLayouts d.m_layouts (List.replicate ((maxSetIndex + 1) % 4294967296) 0) with
    | none => .undefinedBehaviour
    | some layouts =>
      let i := layouts.findIdx (fun h => h = 0)
      if i < layouts.length then .thrown (.layoutMissing i) else .returned layouts

/-! ## SwapchainManager (src/src/Core/Swapchain.cpp) -/

/-- A `vk::Extent2D`. -/
structure Extent2D where
  width : Nat
  height : Nat
  deriving DecidableEq, Repr

/-- The present modes a surface can offer. -/
inductive PresentMode where
  | eImmediate
  | eMailbox
  | eFifo
  | eFifoRelaxed
  deriving DecidableEq, Repr

/-- The surface formats a surface can offer, as far as the choice tells them
apart: the preferred pair (B8G8R8A8 sRGB, sRGB non-linear) and any other pair,
named by a number. -/
inductive SurfaceFormat where
  | bgra8SrgbNonlinear
  | other (code : Nat)
  deriving DecidableEq, Repr

/-- The part of `vk::SurfaceCapabilitiesKHR` that `createSwapchain` reads. -/
structure SurfaceCapabilities where
  minImageCount : Nat
  maxImageCount : Nat
  currentExtent : Extent2D
  minImageExtent : Extent2D
  maxImageExtent : Extent2D
  deriving DecidableEq, Repr

/-- The fields of `SwapchainManager` its member functions read or write.  A handle
is a natural number, 0 being the null handle. -/
structure SwapchainManagerState where
  m_isValid : Bool
  m_swapchain : Nat
  m_swapchainImageFormat : SurfaceFormat
  m_swapchainExtent : Extent2D
  m_swapchainImages : List Nat
  m_swapchainImageViews : List Nat
  deriving DecidableEq, Repr

/-- What the surface, the window and the driver answer during one
`createSwapchain` / `createImageViews`: the results of the three surface
queries and what they report, the framebuffer size of the window (two `int`s),
the queue families of the context, the result of the chain creation and the new
chain handle, the result of the image query and the images of the new chain,
and for each image view creation its result and the handle it yields. -/
structure SwapchainEnv where
  capabilitiesResult : VkResult
  formatsResult : VkResult
  presentModesResult : VkResult
  capabilities : SurfaceCapabilities
  formats : List SurfaceFormat
  presentModes : List PresentMode
  framebufferWidth : Int
  framebufferHeight : Int
  graphicsQueueFamily : Nat
  presentQueueFamily : Nat
  createResult : VkResult
  newSwapchain : Nat
  imagesResult : VkResult
  newImages : List Nat
  imageViews : List (VkResult × Nat)
  deriving DecidableEq, Repr

/-- The function `std::clamp(v, lo, hi)` as the standard library computes it. -/
def stdClamp (v lo hi : Nat) : Nat :=
  if v < lo then lo else if hi < v then hi else v

/-- The conversion `static_cast<uint32_t>` of an `int`. -/
def toUint32 (x : Int) : Nat := (x % 4294967296).toNat

/-- The method `SwapchainManager::chooseSwapExtent` (Swapchain.cpp 6-22). -/
def chooseSwapExtent (capabilities : SurfaceCapabilities)
    (framebufferWidth framebufferHeight : Int) : Extent2D :=
  if capabilities.currentExtent.width ≠ UINT32_MAX then
    capabilities.currentExtent
  else
    { width := stdClamp (toUint32 framebufferWidth) capabilities.minImageExtent.width
        capabilities.maxImageExtent.width
      height := stdClamp (toUint32 framebufferHeight) capabilities.minImageExtent.height
        capabilities.maxImageExtent.height }

/-- The method `SwapchainManager::chooseSwapSurfaceFormat` (Swapchain.cpp 23-30):
the preferred format when it is offered, else the first one offered; reading
`availableFormats[0]` of an empty list has no defined behaviour (`none`). -/
def chooseSwapSurfaceFormat (availableFormats : List SurfaceFormat) : Option SurfaceFormat :=
  match availableFormats.find? (fun f => f = .bgra8SrgbNonlinear) with
  | some f => some f
  | none => availableFormats.head?

/-- The method `SwapchainManager::chooseSwapPresentMode` (Swapchain.cpp 100-107). -/
def chooseSwapPresentMode (availablePresentModes : List PresentMode) : PresentMode :=
  match availablePresentModes.find? (fun m => m = .eMailbox) with
  | some m => m
  | none => .eFifo

/-- The image count `createSwapchain` asks for (Swapchain.cpp 123-132). -/
def swapchainImageCount (presentMode : PresentMode) (capabilities : SurfaceCapabilities) : Nat :=
  let imageCount := if presentMode = .eMailbox then 3 else 2
  let imageCount := max imageCount capabilities.minImageCount
  if capabilities.maxImageCount > 0 then min imageCount capabilities.maxImageCount
  else imageCount

/-- The method `SwapchainManager::cleanup` (Swapchain.cpp 31-54). -/
def SwapchainManagerState.cleanup (s : SwapchainManagerState) :
    Outcome SwapchainManagerState Unit :=
  if s.m_isValid = false then
    ⟨.returned (), s, []⟩
  else
    ⟨.returned (),
     { s with
       m_swapchainImageViews := []
       m_swapchainImages := []
       m_swapchain := 0
       m_isValid := false },
     s.m_swapchainImageViews.map (fun v => Event.resource (.destroyImageView v)) ++
       (if s.m_swapchain ≠ 0 then [Event.resource (.destroySwapchainKHR s.m_swapchain)] else [])⟩

/-- The method `SwapchainManager::createSwapchain` (Swapchain.cpp 108-190). -/
def SwapchainManagerState.createSwapchain (s : SwapchainManagerState) (env : SwapchainEnv) :
    Outcome SwapchainManagerState Unit :=
  let ev1 := [Event.resource (.getSurfaceCapabilitiesKHR env.capabilitiesResult)]
  if env.capabilitiesResult ≠ .eSuccess then
    ⟨.thrown (.vkSystemError env.capabilitiesResult), s, ev1⟩
  else
  let ev2 := ev1 ++ [.resource (.getSurfaceFormatsKHR env.formatsResult)]
  if env.formatsResult ≠ .eSuccess then
    ⟨.thrown (.vkSystemError env.formatsResult), s, ev2⟩
  else
  let ev3 := ev2 ++ [.resource (.getSurfacePresentModesKHR env.presentModesResult)]
  if env.presentModesResult ≠ .eSuccess then
    ⟨.thrown (.vkSystemError env.presentModesResult), s, ev3⟩
  else
  match chooseSwapSurfaceFormat env.formats with
  | none => ⟨.undefinedBehaviour, s, ev3⟩
  | some surfaceFormat =>
    let presentMode := chooseSwapPresentMode env.presentModes
    let extent := chooseSwapExtent env.capabilities env.framebufferWidth env.framebufferHeight
    let imageCount := swapchainImageCount presentMode env.capabilities
    -- the old chain is read from the member just before the creation call
    let oldSwapchain := s.m_swapchain
    let ev4 := ev3 ++ [.resource (.createSwapchainKHR imageCount extent.width extent.height
      (decide (presentMode = .eMailbox))
      (decide (env.graphicsQueueFamily ≠ env.presentQueueFamily)) oldSwapchain
      env.createResult)]
    if env.createResult ≠ .eSuccess then
      ⟨.thrown .failedToCreateSwapchain, s, ev4⟩
    else
    let s1 := { s with m_swapchain := env.newSwapchain }
    let ev5 := ev4 ++
      (if oldSwapchain ≠ 0 then [.resource (.destroySwapchainKHR oldSwapchain)] else []) ++
      [.resource (.getSwapchainImagesKHR env.newSwapchain env.imagesResult)]
    if env.imagesResult ≠ .eSuccess then
      ⟨.thrown (.vkSystemError env.imagesResult), s1, ev5⟩
    else
      ⟨.returned (),
       { s1 with
         m_swapchainImages := env.newImages
         m_swapchainImageFormat := surfaceFormat
         m_swapchainExtent := extent
         m_isValid := true },
       ev5⟩

/-- The creation loop of `createImageViews` (Swapchain.cpp 70-90) from image
number `i` on: `views` is `m_swapchainImageViews`, already resized. -/
def createImageViewsLoop (env : SwapchainEnv) :
    List Nat → Nat → List Nat → Completion Unit × List Nat × List Event
  | [], _, views => (.returned (), views, [])
  | image :: images, i, views =>
    let answer := env.imageViews.getD i (.eSuccess, 0)
    if answer.1 ≠ .eSuccess then
      (.thrown (.failedToCreateImageView i), views,
       [.resource (.createImageView image answer.1)])
    else
      let rest := createImageViewsLoop env images (i + 1) (views.set i answer.2)
      (rest.1, rest.2.1, Event.resource (.createImageView image answer.1) :: rest.2.2)

/-- The method `SwapchainManager::createImageViews` (Swapchain.cpp 56-93). -/
def SwapchainManagerState.createImageViews (s : SwapchainManagerState) (env : SwapchainEnv) :
    Outcome SwapchainManagerState Unit :=
  let destroyed := (s.m_swapchainImageViews.filter (fun v => v ≠ 0)).map
    (fun v => Event.resource (.destroyImageView v))
  let loop := createImageViewsLoop env s.m_swapchainImages 0
    (List.replicate s.m_swapchainImages.length 0)
  ⟨loop.1, { s with m_swapchainImageViews := loop.2.1 }, destroyed ++ loop.2.2⟩

/-- The method `SwapchainManager::recreate` (Swapchain.cpp 94-98): `cleanup`, then
`createSwapchain`, then `createImageViews`; the first that does not return ends
the call. -/
def SwapchainManagerState.recreate (s : SwapchainManagerState) (env : SwapchainEnv) :
    Outcome SwapchainManagerState Unit :=
  let c := s.cleanup
  match c.result with
  | .thrown e => ⟨.thrown e, c.state, c.events⟩
  | .undefinedBehaviour => ⟨.undefinedBehaviour, c.state, c.events⟩
  | .returned _ =>
    let n := c.state.createSwapchain env
    match n.result with
    | .thrown e => ⟨.thrown e, n.state, c.events ++ n.events⟩
    | .undefinedBehaviour => ⟨.undefinedBehaviour, n.state, c.events ++ n.events⟩
    | .returned _ =>
      let v := n.state.createImageViews env
      ⟨v.result, v.state, c.events ++ n.events ++ v.events⟩

/-- The state the `SwapchainManager` constructor starts from (Swapchain.cpp 191-192):
the validity flag false, a null chain, empty vectors. -/
def SwapchainManagerState.initial : SwapchainManagerState :=
  { m_isValid := false
    m_swapchain := 0
    m_swapchainImageFormat := .other 0
    m_swapchainExtent := ⟨0, 0⟩
    m_swapchainImages := []
    m_swapchainImageViews := [] }

/-- The constructor `SwapchainManager::SwapchainManager` (Swapchain.cpp 191-197):
`createSwapchain`, then `createImageViews`. -/
def SwapchainManagerState.create (env : SwapchainEnv) : Outcome SwapchainManagerState Unit :=
  let n := SwapchainManagerState.initial.createSwapchain env
  match n.result with
  | .thrown e => ⟨.thrown e, n.state, n.events⟩
  | .undefinedBehaviour => ⟨.undefinedBehaviour, n.state, n.events⟩
  | .returned _ =>
    let v := n.state.createImageViews env
    ⟨v.result, v.state, n.events ++ v.events⟩

/-- The position of the first call of a sequence that satisfies `p`. -/
def firstIndex (p : Event → Bool) (evs : List Event) : Option Nat :=
  let i := evs.findIdx p
  if i < evs.length then some i else none

/-- Tells whether a call destroys the chain `h`. -/
def Event.destroysChain (h : Nat) : Event → Bool
  | .resource (.destroySwapchainKHR x) => x = h
  | _ => false

/-- Tells whether a call is a chain creation. -/
def Event.isChainCreation : Event → Bool
  | .resource (.createSwapchainKHR _ _ _ _ _ _ _) => true
  | _ => false

/-- The old-chain argument of a chain creation. -/
def Event.oldSwapchainArg : Event → Option Nat
  | .resource (.createSwapchainKHR _ _ _ _ _ old _) => some old
  | _ => none

/-- The image count asked for by a chain creation. -/
def Event.minImageCountArg : Event → Option Nat
  | .resource (.createSwapchainKHR n _ _ _ _ _ _) => some n
  | _ => none

/-- A valid swapchain of three images: chain handle 7, views 11, 12, 13. -/
def validSwapchain : SwapchainManagerState :=
  { m_isValid := true
    m_swapchain := 7
    m_swapchainImageFormat := .bgra8SrgbNonlinear
    m_swapchainExtent := ⟨800, 600⟩
    m_swapchainImages := [1, 2, 3]
    m_swapchainImageViews := [11, 12, 13] }

/-- A surface that offers FIFO and mailbox, between 2 and 8 images, a defined
current extent, and a driver that creates chain 8 with three images. -/
def resizedSurfaceEnv : SwapchainEnv :=
  { capabilitiesResult := .eSuccess
    formatsResult := .eSuccess
    presentModesResult := .eSuccess
    capabilities := ⟨2, 8, ⟨1024, 768⟩, ⟨1, 1⟩, ⟨4096, 4096⟩⟩
    formats := [.other 44, .bgra8SrgbNonlinear]
    presentModes := [.eFifo, .eMailbox]
    framebufferWidth := 1024
    framebufferHeight := 768
    graphicsQueueFamily := 0
    presentQueueFamily := 0
    createResult := .eSuccess
    newSwapchain := 8
    imagesResult := .eSuccess
    newImages := [4, 5, 6]
    imageViews := [(.eSuccess, 14), (.eSuccess, 15), (.eSuccess, 16)] }

/-! ## Renderer (src/src/Core/Renderer.cpp) -/

/-- The member `m_objectUBOs` of `Renderer`: three vectors of buffer handles. -/
structure ObjectUBOs where
  transform : List Nat
  light : List Nat
  material : List Nat
  deriving DecidableEq, Repr

/-- The fields of `Renderer`.  A `unique_ptr` to a component is an `Option` of it
(or a flag when nothing of the component is read, or its handle for the render
pass); `m_swapchain` is the `SwapchainManager` the pointer holds, which the
constructor creates and only the destructor gives up; the depth handles are
flags telling whether they are non-null; `m_swapchainFramebuffers` is kept by
its size; `m_frameUBOs` is the vector `m_frameUBOs.camera`; buffer and
allocation handles are natural numbers, 0 being the null handle. -/
structure Renderer where
  m_framebufferResized : Bool
  m_swapchain : SwapchainManagerState
  m_pipelineManager : Bool
  m_commandManager : Option CommandManager
  m_depthImage : Bool
  m_depthImageView : Bool
  m_depthImageMemory : Bool
  m_swapchainFramebuffers : Nat
  m_mainRenderPass : Nat
  m_descriptorManager : Option DescriptorManager
  m_frameUBOs : List Nat
  m_objectUBOs : ObjectUBOs
  m_frameAllocations : List Nat
  m_objectAllocations : List Nat
  deriving DecidableEq, Repr

/-- The constant `Renderer::MAX_FRAMES_IN_FLIGHT` (Renderer.h 47). -/
def MAX_FRAMES_IN_FLIGHT : Nat := 2

/-- A renderable of the scene, as far as `render` uses it: its object slot. -/
structure Renderable where
  objectIndex : Nat
  deriving DecidableEq, Repr

/-- The class `Scene` (Scene.h 14-91), as far as `render` uses it: whether the
pointer `m_camera` holds a camera, and the renderables. -/
structure Scene where
  m_camera : Bool
  m_renderables : List Renderable
  deriving DecidableEq, Repr

/-- What the environment answers during one recreation: which of the idle wait
and the four creations throws, if any, and what the surface, the window and the
driver answer to `m_swapchain->recreate()`. -/
structure RecreateEnv where
  failAt : Option RecreateStage
  swapchain : SwapchainEnv
  deriving DecidableEq, Repr

/-- What the environment answers during one `render` call: the answers to
`beginFrame`, the results of `commandBuffer.reset()`, `commandBuffer.begin()`
and `commandBuffer.end()`, the answers to `endFrame`, and the answers to a
recreation. -/
structure RenderEnv where
  beginFrame : BeginFrameEnv
  resetResult : VkResult
  beginResult : VkResult
  endResult : VkResult
  endFrame : EndFrameEnv
  recreate : RecreateEnv
  deriving DecidableEq, Repr

/-- The calls of `Renderer::cleanupDepthResources` (Renderer.cpp 423-437): each
handle is destroyed only when it is non-null. -/
def cleanupDepthEvents (r : Renderer) : List Event :=
  (if r.m_depthImageView then [Event.destroyDepthImageView] else []) ++
  (if r.m_depthImage then [Event.destroyDepthImage] else []) ++
  (if r.m_depthImageMemory then [Event.freeDepthImageMemory] else [])

/-- The method `Renderer::createFramebuffers` (Renderer.cpp 163-188) on the path on
which every framebuffer creation succeeds: the vector is resized to the number
of image views of the swapchain and filled. -/
def Renderer.createFramebuffers (r : Renderer) : Renderer :=
  { r with m_swapchainFramebuffers := r.m_swapchain.m_swapchainImageViews.length }

/-- The method `Renderer::recreateSwapchainAndDependencies` (Renderer.cpp 438-464).
The call `m_swapchain->recreate()` is the embedding of `SwapchainManager::recreate`
and what it throws leaves the function as it is thrown; another step that throws
is taken to throw at its first driver call. -/
def Renderer.recreateSwapchainAndDependencies (r : Renderer) (env : RecreateEnv) :
    Outcome Renderer Unit :=
  let ev0 := [Event.deviceWaitIdle]
  if env.failAt = some .waitIdle then
    ⟨.thrown (.recreationFailed .waitIdle), r, ev0⟩
  else
  -- cleanupFramebuffers, cleanupDepthResources, the two unique_ptr resets, recreate()
  let sw := r.m_swapchain.recreate env.swapchain
  let ev1 := ev0 ++ [.destroyFramebuffers r.m_swapchainFramebuffers] ++ cleanupDepthEvents r ++
    [.commandManagerReset, .pipelineManagerReset, .swapchainRecreate] ++ sw.events
  let r1 := { r with
    m_swapchainFramebuffers := 0
    m_depthImageView := false
    m_depthImage := false
    m_depthImageMemory := false
    m_commandManager := none
    m_pipelineManager := false
    m_swapchain := sw.state }
  match sw.result with
  | .undefinedBehaviour => ⟨.undefinedBehaviour, r1, ev1⟩
  | .thrown e => ⟨.thrown e, r1, ev1⟩
  | .returned _ =>
  let ev2 := ev1 ++ [.createDepthResources]
  if env.failAt = some .createDepthResources then
    ⟨.thrown (.recreationFailed .createDepthResources), r1, ev2⟩
  else
  let r3 := { r1 with m_depthImage := true, m_depthImageMemory := true, m_depthImageView := true }
  let ev3 := ev2 ++ [.createFramebuffers r3.m_swapchain.m_swapchainImageViews.length]
  let r4 := r3.createFramebuffers
  if env.failAt = some .createFramebuffers then
    ⟨.thrown (.recreationFailed .createFramebuffers), r4, ev3⟩
  else
  let ev4 := ev3 ++ [.createPipelineManager, .createGraphicsPipeline]
  let r5 := { r4 with m_pipelineManager := true }
  if env.failAt = some .createGraphicsPipeline then
    ⟨.thrown (.recreationFailed .createGraphicsPipeline), r5, ev4⟩
  else
  -- static_cast<uint32_t>(m_swapchain->getImageCount())
  let n := r5.m_swapchain.m_swapchainImages.length % 4294967296
  let ev5 := ev4 ++ [.createCommandManager MAX_FRAMES_IN_FLIGHT n]
  if env.failAt = some .createCommandManager then
    ⟨.thrown (.recreationFailed .createCommandManager), r5, ev5⟩
  else
    ⟨.returned (),
     { r5 with
       m_commandManager := some (CommandManager.create MAX_FRAMES_IN_FLIGHT n)
       m_framebufferResized := false },
     ev5⟩

/-- The sizes `sizeof(CameraUBO)`, `sizeof(TransformUBO)`, `sizeof(LightUBO)` and
`sizeof(MaterialUBO)`; the header that declares the four types is not part of
the sources at hand, so the sizes are parameters. -/
structure UboSizes where
  camera : Nat
  transform : Nat
  light : Nat
  material : Nat
  deriving DecidableEq, Repr

/-- The call `v.resize(n)` on a vector of handles: the first `n` elements are
kept, missing ones are null. -/
def vectorResize (v : List Nat) (n : Nat) : List Nat :=
  v.take n ++ List.replicate (n - v.length) 0

/-- One iteration of the loop of `createFrameUBOs` (Renderer.cpp 243-248); `vma i` is
the buffer and the allocation the allocator yields for the creation of
iteration `i`. -/
def createFrameUBOsStep (vma : Nat → Nat × Nat) (r : Renderer) (i : Nat) : Renderer :=
  { r with
    m_frameUBOs := r.m_frameUBOs.set i (vma i).1
    m_frameAllocations := r.m_frameAllocations.set i (vma i).2 }

/-- The method `Renderer::createFrameUBOs` (Renderer.cpp 240-249). -/
def Renderer.createFrameUBOs (r : Renderer) (vma : Nat → Nat × Nat) : Renderer :=
  (List.range MAX_FRAMES_IN_FLIGHT).foldl (createFrameUBOsStep vma)
    { r with
      m_frameUBOs := vectorResize r.m_frameUBOs MAX_FRAMES_IN_FLIGHT
      m_frameAllocations := vectorResize r.m_frameAllocations MAX_FRAMES_IN_FLIGHT }

/-- One iteration of the loop of `createObjectUBOs` (Renderer.cpp 257-270): three
calls of `createUniformBuffer`; `vma k` is the buffer and the allocation the
allocator yields, in one call of `vmaCreateBuffer`, for the creation whose
allocation goes to `m_objectAllocations[k]`. -/
def createObjectUBOsStep (vma : Nat → Nat × Nat) (r : Renderer) (i : Nat) : Renderer :=
  { r with
    m_objectUBOs :=
      { transform := r.m_objectUBOs.transform.set i (vma (i * 3)).1
        light := r.m_objectUBOs.light.set i (vma (i * 3 + 1)).1
        material := r.m_objectUBOs.material.set i (vma (i * 3 + 2)).1 }
    m_objectAllocations :=
      ((r.m_objectAllocations.set (i * 3) (vma (i * 3)).2).set (i * 3 + 1)
        (vma (i * 3 + 1)).2).set (i * 3 + 2) (vma (i * 3 + 2)).2 }

/-- The method `Renderer::createObjectUBOs` (Renderer.cpp 251-271). -/
def Renderer.createObjectUBOs (r : Renderer) (objectCount : Nat) (vma : Nat → Nat × Nat) :
    Renderer :=
  (List.range objectCount).foldl (createObjectUBOsStep vma)
    { r with
      m_objectUBOs :=
        { transform := vectorResize r.m_objectUBOs.transform objectCount
          light := vectorResize r.m_objectUBOs.light objectCount
          material := vectorResize r.m_objectUBOs.material objectCount }
      m_objectAllocations := vectorResize r.m_objectAllocations (objectCount * 3) }

/-- The method `Renderer::updateObjectUBO` (Renderer.cpp 221-239): the three
allocations it maps and overwrites, in order; reading `m_objectAllocations`
past its end has no defined behaviour (`none`). -/
def Renderer.updateObjectUBO (r : Renderer) (objIdx : Nat) : Option (List Nat) :=
  match r.m_objectAllocations[objIdx * 3]?, r.m_objectAllocations[objIdx * 3 + 1]?,
    r.m_objectAllocations[objIdx * 3 + 2]? with
  | some a, some b, some c => some [a, b, c]
  | _, _, _ => none

/-- Runs `next` on the state a call left when that call returned, and appends
the calls issued. -/
def Outcome.andThen {σ : Type} (o : Outcome σ Unit) (next : σ → Outcome σ Unit) :
    Outcome σ Unit :=
  match o.result with
  | .returned _ => ⟨(next o.state).result, (next o.state).state, o.events ++ (next o.state).events⟩
  | _ => o

/-- One iteration of the second binding loop of the `Renderer` constructor
(Renderer.cpp 45-49), on the descriptor manager `d`; reading one of the three
buffer vectors past its end has no defined behaviour. -/
def bindObjectUBOsAt (r : Renderer) (sizes : UboSizes) (d : DescriptorManager) (i : Nat) :
    Outcome DescriptorManager Unit :=
  match r.m_objectUBOs.transform[i]?, r.m_objectUBOs.light[i]?,
    r.m_objectUBOs.material[i]? with
  | some t, some l, some m =>
    ((d.bindBufferToSet 1 i 0 t sizes.transform).andThen
      (fun d1 => d1.bindBufferToSet 1 i 1 l sizes.light)).andThen
      (fun d2 => d2.bindBufferToSet 1 i 2 m sizes.material)
  | _, _, _ => ⟨.undefinedBehaviour, d, []⟩

/-- The second binding loop of the `Renderer` constructor (Renderer.cpp 45-49). -/
def Renderer.bindObjectUBOs (r : Renderer) (objectCount : Nat) (sizes : UboSizes)
    (d : DescriptorManager) : Outcome DescriptorManager Unit :=
  (List.range objectCount).foldl (fun o i => o.andThen (fun d1 => bindObjectUBOsAt r sizes d1 i))
    ⟨.returned (), d, []⟩

/-- One iteration of the second loop of `cleanupUBOs` (Renderer.cpp 200-211): the
buffer picked by `i / 3` and `i % 3` is destroyed together with allocation `i`;
reading a vector past its end has no defined behaviour (`none`). -/
def cleanupObjectUBOAt (r : Renderer) (i : Nat) : Option Event :=
  let objIdx := i / 3
  let typeIdx := i % 3
  let buf :=
    if typeIdx = 0 then r.m_objectUBOs.transform[objIdx]?
    else if typeIdx = 1 then r.m_objectUBOs.light[objIdx]?
    else r.m_objectUBOs.material[objIdx]?
  match buf, r.m_objectAllocations[i]? with
  | some b, some a => some (.vmaDestroyBuffer b a)
  | _, _ => none

/-- One iteration of the first loop of `cleanupUBOs` (Renderer.cpp 193-197). -/
def cleanupFrameUBOAt (r : Renderer) (i : Nat) : Option Event :=
  match r.m_frameUBOs[i]?, r.m_frameAllocations[i]? with
  | some b, some a => some (.vmaDestroyBuffer b a)
  | _, _ => none

/-- The method `Renderer::cleanupUBOs` (Renderer.cpp 189-212): the destructions of
its two loops, or `none` when a read has no defined behaviour. -/
def Renderer.cleanupUBOs (r : Renderer) : Option (List Event) :=
  match (List.range r.m_frameAllocations.length).mapM (cleanupFrameUBOAt r),
    (List.range r.m_objectAllocations.length).mapM (cleanupObjectUBOAt r) with
  | some frame, some object => some (frame ++ object)
  | _, _ => none

/-- Runs the recreation after the calls `before` were issued. -/
def recreateAfter (before : List Event) (r : Renderer) (env : RecreateEnv) :
    Outcome Renderer Unit :=
  let o := r.recreateSwapchainAndDependencies env
  ⟨o.result, o.state, before ++ o.events⟩

/-- The body of the draw loop of `render` (Renderer.cpp 368-406) for one
renderable: how it completes and the calls it issues.  `updateObjectUBO` reads
`m_objectAllocations` unchecked, and `m_pipelineManager` and
`m_descriptorManager` are called through: an allocation past the end and an
empty pointer have no defined behaviour.  The two `getDescriptorSet` calls are
evaluated in the order of the initialiser list, and what they throw leaves the
loop.  The getters of the renderable, of its mesh and of its material are taken
to return. -/
def drawRenderable (r : Renderer) (slot currentFrame : Nat) (rb : Renderable) :
    Completion Unit × List Event :=
  match r.updateObjectUBO rb.objectIndex with
  | none => (.undefinedBehaviour, [])
  | some _ =>
    let ev1 := [Event.updateObjectUBO rb.objectIndex]
    if r.m_pipelineManager = false then (.undefinedBehaviour, ev1)
    else
    let ev2 := ev1 ++ [.cmdBindPipeline slot, .cmdBindVertexBuffers slot, .cmdBindIndexBuffer slot]
    match r.m_descriptorManager with
    | none => (.undefinedBehaviour, ev2)
    | some d =>
      match d.getDescriptorSet 0 currentFrame with
      | .undefinedBehaviour => (.undefinedBehaviour, ev2)
      | .thrown e => (.thrown e, ev2)
      | .returned _ =>
        match d.getDescriptorSet 1 rb.objectIndex with
        | .undefinedBehaviour => (.undefinedBehaviour, ev2)
        | .thrown e => (.thrown e, ev2)
        | .returned _ =>
          (.returned (),
           ev2 ++ [.cmdBindDescriptorSets slot currentFrame rb.objectIndex, .cmdDrawIndexed slot])

/-- The draw loop of `render` (Renderer.cpp 368-406): the first renderable whose
iteration does not return ends the loop. -/
def drawRenderables (r : Renderer) (slot currentFrame : Nat) :
    List Renderable → Completion Unit × List Event
  | [] => (.returned (), [])
  | rb :: rest =>
    match (drawRenderable r slot currentFrame rb).1 with
    | .undefinedBehaviour => (.undefinedBehaviour, (drawRenderable r slot currentFrame rb).2)
    | .thrown e => (.thrown e, (drawRenderable r slot currentFrame rb).2)
    | .returned _ =>
      ((drawRenderables r slot currentFrame rest).1,
       (drawRenderable r slot currentFrame rb).2 ++ (drawRenderables r slot currentFrame rest).2)

/-- The method `Renderer::render` (Renderer.cpp 304-415).  Only the two calls of
`CommandManager` are inside a `try` block; what `Scene::getCamera`,
`commandBuffer.reset()`, `commandBuffer.begin()`, the draw loop and
`commandBuffer.end()` throw leaves `render`.  Calling through an empty
`m_commandManager` and reading `m_frameAllocations` past its end in
`updateFrameUBO` have no defined behaviour in C++ and are reported as such; the
pointer `scene` is taken to hold a scene, and the memory mapping of the
uniform-buffer copies is taken to succeed (its result is not read). -/
def Renderer.render (r : Renderer) (scene : Scene) (env : RenderEnv) :
    Outcome Renderer Unit :=
  if r.m_framebufferResized then
    r.recreateSwapchainAndDependencies env.recreate
  else
    match r.m_commandManager with
    | none => ⟨.undefinedBehaviour, r, []⟩
    | some cm =>
      let currentFrame := cm.getCurrentFrameIndex
      let b := cm.beginFrame env.beginFrame
      let r1 := { r with m_commandManager := some b.state }
      match b.result with
      | .undefinedBehaviour => ⟨.undefinedBehaviour, r1, b.events⟩
      | .thrown _ => recreateAfter b.events r1 env.recreate
      | .returned imageIndex =>
        -- scene->getCamera() throws when no camera is set
        if scene.m_camera = false then ⟨.thrown .cameraNotSet, r1, b.events⟩
        else
        let ev0 := b.events ++ [.cameraSetViewportSize]
        match r1.m_frameAllocations[currentFrame]? with
        | none => ⟨.undefinedBehaviour, r1, ev0⟩
        | some _ =>
        let slot := b.state.getCurrentCommandBuffer
        let ev1 := ev0 ++ [.updateFrameUBO currentFrame, .cmdReset slot]
        -- commandBuffer.reset(), begin() and end(): the only success code is eSuccess
        if resultCheck env.resetResult [.eSuccess] = false then
          ⟨.thrown (.vkSystemError env.resetResult), r1, ev1⟩
        else
        let ev2 := ev1 ++ [.cmdBegin slot]
        if resultCheck env.beginResult [.eSuccess] = false then
          ⟨.thrown (.vkSystemError env.beginResult), r1, ev2⟩
        else
        if imageIndex ≥ r1.m_swapchainFramebuffers then
          recreateAfter ev2 r1 env.recreate
        else
          let ev3 := ev2 ++
            [.cmdBeginRenderPass slot imageIndex, .cmdSetViewport slot, .cmdSetScissor slot]
          let d := drawRenderables r1 slot currentFrame scene.m_renderables
          match d.1 with
          | .undefinedBehaviour => ⟨.undefinedBehaviour, r1, ev3 ++ d.2⟩
          | .thrown e => ⟨.thrown e, r1, ev3 ++ d.2⟩
          | .returned _ =>
            let ev4 := ev3 ++ d.2 ++ [.cmdEndRenderPass slot, .cmdEnd slot]
            if resultCheck env.endResult [.eSuccess] = false then
              ⟨.thrown (.vkSystemError env.endResult), r1, ev4⟩
            else
            let e := b.state.endFrame slot env.endFrame
            let r2 := { r1 with m_commandManager := some e.state }
            match e.result with
            | .undefinedBehaviour => ⟨.undefinedBehaviour, r2, ev4 ++ e.events⟩
            | .thrown _ => recreateAfter (ev4 ++ e.events) r2 env.recreate
            | .returned _ => ⟨.returned (), r2, ev4 ++ e.events⟩

/-! ## Observations on a sequence of calls -/

/-- Checks the fence/slot discipline on a sequence of calls: every reset and
every begin of the command buffer of slot `i` comes after a fence wait on slot
`i` that returned success.  `waited` lists the slots already waited on with
success. -/
def resetsFollowWait (waited : List Nat) : List Event → Bool
  | [] => true
  | .waitForFences i _ r :: es =>
      resetsFollowWait (if r = .eSuccess then i :: waited else waited) es
  | .cmdReset i :: es => waited.contains i && resetsFollowWait waited es
  | .cmdBegin i :: es => waited.contains i && resetsFollowWait waited es
  | _ :: es => resetsFollowWait waited es

/-- The two operations on a semaphore. -/
inductive SemaphoreOp where
  | signal
  | wait
  deriving DecidableEq, Repr

/-- What a call does to the render-finished semaphore of image `k`: a submission
the queue accepted signals the semaphore it names, a presentation request waits
on the semaphore it names. -/
def renderFinishedOp (k : Nat) : Event → Option SemaphoreOp
  | .queueSubmit _ _ _ sig _ r =>
      if sig = .renderFinished k ∧ r = .eSuccess then some .signal else none
  | .queuePresent w _ _ => if w = .renderFinished k then some .wait else none
  | _ => none

/-- Strict alternation of signals and waits, given whether the semaphore is
currently signalled: a signal needs it unsignalled, a wait needs it signalled. -/
def alternatesFrom (signalled : Bool) : List SemaphoreOp → Bool
  | [] => true
  | .signal :: ops => !signalled && alternatesFrom true ops
  | .wait :: ops => signalled && alternatesFrom false ops

/-- A call made on a `CommandManager` by its user. -/
inductive FrameCall where
  | beginFrame (env : BeginFrameEnv)
  | endFrame (commandBuffer : Nat) (env : EndFrameEnv)
  deriving DecidableEq, Repr

/-- The state after one call and the calls it issued (an exception it throws is
left to the caller, who goes on with the next call). -/
def CommandManager.call (s : CommandManager) : FrameCall → CommandManager × List Event
  | .beginFrame env => ((s.beginFrame env).state, (s.beginFrame env).events)
  | .endFrame cb env => ((s.endFrame cb env).state, (s.endFrame cb env).events)

/-- Runs a sequence of calls, collecting what was issued. -/
def CommandManager.run (s : CommandManager) : List FrameCall → CommandManager × List Event
  | [] => (s, [])
  | c :: cs => (((s.call c).1.run cs).1, (s.call c).2 ++ ((s.call c).1.run cs).2)

/-- Tells whether a call is a presentation request. -/
def Event.isPresent : Event → Bool
  | .queuePresent _ _ _ => true
  | _ => false

/-- Tells whether a call begins a render pass, records a draw, or belongs to
`endFrame` (a submission or a presentation request). -/
def Event.isDrawOrSubmit : Event → Bool
  | .cmdBeginRenderPass _ _ => true
  | .cmdDrawIndexed _ => true
  | .queueSubmit _ _ _ _ _ _ => true
  | .queuePresent _ _ _ => true
  | _ => false

/-- The two layout declarations of the `Renderer` constructor (Renderer.cpp 24-27),
with the layout handles 21 and 22. -/
def rendererLayouts : DescriptorManager :=
  ((DescriptorManager.create.createLayout [.CameraUBO] 0 0 .eSuccess 21).state.createLayout
    [.TransformUBO, .LightUBO, .MaterialUBO, .TextureSampler, .TextureSampler,
     .TextureSampler, .TextureSampler] 1 0 .eSuccess 22).state

/-- The capacity map of the `Renderer` constructor (Renderer.cpp 28-31). -/
def rendererCapacities : List (Nat × Nat) := [(0, MAX_FRAMES_IN_FLIGHT), (1, 10)]

/-- The set handles a driver hands out: instance `j` of set `i` gets the handle
`1000 * (i + 1) + j`. -/
def setHandles (capacity : List (Nat × Nat)) (setIndex : Nat) : VkResult × List Nat :=
  (.eSuccess,
   (List.range ((capacity.lookup setIndex).getD 0)).map (fun j => 1000 * (setIndex + 1) + j))

/-- The `DescriptorManager` the `Renderer` constructor builds (Renderer.cpp 21-33):
the two layouts, the pool (handle 30), and the sets. -/
def rendererDescriptors : DescriptorManager :=
  ((rendererLayouts.createPool rendererCapacities .eSuccess 30).state.allocateAllSets
    rendererCapacities (setHandles rendererCapacities)).state

/-- The buffer and the allocation a driver hands out for its `k`-th creation, from
a base handle on. -/
def driverBuffers (base : Nat) (k : Nat) : Nat × Nat :=
  (base + 2 * k, base + 2 * k + 1)

/-- The steps 3 to 10 of the `Renderer` constructor (Renderer.cpp 10-67) on the path
on which none of them throws, on the swapchain `swapchain` that step 2 built:
the render pass (handle 40), `createDepthResources`, `createFramebuffers`, the
descriptor manager `rendererDescriptors`, `createFrameUBOs` and
`createObjectUBOs` for ten objects (the two binding loops that follow write
descriptors and leave the fields as they are), the pipeline manager, and the
`CommandManager` for `static_cast<uint32_t>(m_swapchain->getImageCount())`
images.  The resize flag has its default member initialiser `false`
(Renderer.h 24). -/
def Renderer.assemble (swapchain : SwapchainManagerState) : Renderer :=
  let r3 : Renderer :=
    { m_framebufferResized := false
      m_swapchain := swapchain
      m_pipelineManager := false
      m_commandManager := none
      m_depthImage := false
      m_depthImageView := false
      m_depthImageMemory := false
      m_swapchainFramebuffers := 0
      m_mainRenderPass := 40
      m_descriptorManager := none
      m_frameUBOs := []
      m_objectUBOs := ⟨[], [], []⟩
      m_frameAllocations := []
      m_objectAllocations := [] }
  let r4 := { r3 with m_depthImage := true, m_depthImageMemory := true, m_depthImageView := true }
  let r5 := r4.createFramebuffers
  let r6 := { r5 with m_descriptorManager := some rendererDescriptors }
  let r8 := (r6.createFrameUBOs (driverBuffers 100)).createObjectUBOs 10 (driverBuffers 200)
  let r9 := { r8 with m_pipelineManager := true }
  { r9 with
    m_commandManager := some (CommandManager.create MAX_FRAMES_IN_FLIGHT
      (r9.m_swapchain.m_swapchainImages.length % 4294967296)) }

/-- The constructor `Renderer::Renderer` (Renderer.cpp 3-68).  Step 2 is the
embedding of the `SwapchainManager` constructor on the answers `env`;
`contextFailure` is what step 1 (the `Context`) throws, if it throws, and
`laterFailure` what the first throwing step among 3 to 10 throws, if one does.
A constructor that throws leaves no renderer. -/
def Renderer.create (contextFailure : Option Exception) (env : SwapchainEnv)
    (laterFailure : Option Exception) : Completion Renderer :=
  match contextFailure with
  | some e => .thrown e
  | none =>
    match (SwapchainManagerState.create env).result with
    | .undefinedBehaviour => .undefinedBehaviour
    | .thrown e => .thrown e
    | .returned _ =>
      match laterFailure with
      | some e => .thrown e
      | none => .returned (Renderer.assemble (SwapchainManagerState.create env).state)

/-- A surface like `resizedSurfaceEnv` and a driver that creates the chain `h` with
the `n` images 1 to `n` and yields the view `10 + i` for image `i`. -/
def chainEnv (h n : Nat) : SwapchainEnv :=
  { resizedSurfaceEnv with
    newSwapchain := h
    newImages := (List.range n).map (fun i => i + 1)
    imageViews := (List.range n).map (fun i => (VkResult.eSuccess, i + 11)) }

/-- A renderer as the constructor (Renderer.cpp 3-68) leaves it when the driver
creates the chain 7 with `n` images (`chainEnv 7 n`) and no step throws, with
the resize flag as the window callback has left it since. -/
def Renderer.fresh (resized : Bool) (n : Nat) : Renderer :=
  { Renderer.assemble (SwapchainManagerState.create (chainEnv 7 n)).state with
    m_framebufferResized := resized }

/-- Tells whether a call matters to the fence/slot discipline: a fence wait, or
a reset or begin of a command buffer. -/
def Event.isWaitOrReset : Event → Bool
  | .waitForFences _ _ _ => true
  | .cmdReset _ => true
  | .cmdBegin _ => true
  | _ => false

/-! ## Inputs used to evaluate the program on concrete cases -/

/-- A `render` environment in which the fence wait of `beginFrame` times out and
the recreation succeeds with a chain of three images. -/
def timeoutEnv : RenderEnv :=
  { beginFrame := ⟨.eTimeout, .eSuccess, none⟩
    resetResult := .eSuccess
    beginResult := .eSuccess
    endResult := .eSuccess
    endFrame := ⟨.eSuccess, .eSuccess⟩
    recreate := ⟨none, chainEnv 8 3⟩ }

/-- An `endFrame` environment in which the queue rejects the submission. -/
def submitLostEnv : EndFrameEnv := ⟨.eErrorDeviceLost, .eSuccess⟩

/-- One frame on a `CommandManager`: a `beginFrame` that waits with success and
acquires image `k`, then an `endFrame` on command buffer `cb` whose submission
and presentation succeed. -/
def frameCalls (cb k : Nat) : List FrameCall :=
  [.beginFrame ⟨.eSuccess, .eSuccess, some k⟩, .endFrame cb ⟨.eSuccess, .eSuccess⟩]

/-- Six frames on two frame slots acquiring the images 0, 1, 0, 2, 1, 0. -/
def decouplingCalls : List FrameCall :=
  frameCalls 0 0 ++ frameCalls 1 1 ++ frameCalls 0 0 ++
  frameCalls 1 2 ++ frameCalls 0 1 ++ frameCalls 1 0

/-- A sequence of calls with a timed-out `beginFrame`, a frame whose presentation
is out of date, an `endFrame` whose submission is rejected, and a full frame. -/
def mixedCalls : List FrameCall :=
  [ .beginFrame ⟨.eTimeout, .eSuccess, none⟩
  , .beginFrame ⟨.eSuccess, .eSuccess, some 2⟩
  , .endFrame 0 ⟨.eSuccess, .eErrorOutOfDateKHR⟩
  , .beginFrame ⟨.eSuccess, .eSuccess, some 1⟩
  , .endFrame 1 ⟨.eErrorDeviceLost, .eSuccess⟩
  , .endFrame 1 ⟨.eSuccess, .eSuccess⟩
  , .beginFrame ⟨.eSuccess, .eErrorOutOfDateKHR, none⟩
  , .endFrame 0 ⟨.eSuccess, .eSuboptimalKHR⟩ ]

/-- A `render` environment in which the image acquisition reports the surface
out of date and the recreation succeeds with a chain of two images. -/
def acquireOutOfDateEnv : RenderEnv :=
  { beginFrame := ⟨.eSuccess, .eErrorOutOfDateKHR, none⟩
    resetResult := .eSuccess
    beginResult := .eSuccess
    endResult := .eSuccess
    endFrame := ⟨.eSuccess, .eSuccess⟩
    recreate := ⟨none, chainEnv 8 2⟩ }

/-- A `render` environment in which image 1 is acquired, the submission is
accepted, the presentation is out of date, and the recreation succeeds. -/
def presentOutOfDateEnv : RenderEnv :=
  { beginFrame := ⟨.eSuccess, .eSuccess, some 1⟩
    resetResult := .eSuccess
    beginResult := .eSuccess
    endResult := .eSuccess
    endFrame := ⟨.eSuccess, .eErrorOutOfDateKHR⟩
    recreate := ⟨none, chainEnv 8 3⟩ }

/-- A `render` environment in which every call succeeds and image 1 is
acquired. -/
def successEnv : RenderEnv :=
  { beginFrame := ⟨.eSuccess, .eSuccess, some 1⟩
    resetResult := .eSuccess
    beginResult := .eSuccess
    endResult := .eSuccess
    endFrame := ⟨.eSuccess, .eSuccess⟩
    recreate := ⟨none, chainEnv 8 3⟩ }

/-- A scene with a camera and two renderables on the object slots 0 and 1. -/
def twoRenderables : Scene := ⟨true, [⟨0⟩, ⟨1⟩]⟩

/-- A scene with a camera and no renderable. -/
def emptyScene : Scene := ⟨true, []⟩

/-- A scene without a camera, as `Scene()` leaves it before `setCamera`. -/
def sceneWithoutCamera : Scene := ⟨false, []⟩

/-- A `render` environment in which the fence wait of `beginFrame` times out and
`commandBuffer.reset()` reports that the device memory is exhausted. -/
def timeoutResetFailsEnv : RenderEnv :=
  { timeoutEnv with resetResult := .eErrorOutOfDeviceMemory }

/-- A `render` environment in which the fence wait of `beginFrame` times out and
`commandBuffer.begin()` reports that the host memory is exhausted. -/
def timeoutBeginFailsEnv : RenderEnv :=
  { timeoutEnv with beginResult := .eErrorOutOfHostMemory }

/-- Tells whether a call is one of the calls `SwapchainManager` issues: a surface
query, the creation or destruction of a chain, the image query, the creation or
destruction of an image view. -/
def Event.isSwapchainCall : Event → Bool
  | .resource (.getSurfaceCapabilitiesKHR _) => true
  | .resource (.getSurfaceFormatsKHR _) => true
  | .resource (.getSurfacePresentModesKHR _) => true
  | .resource (.createSwapchainKHR _ _ _ _ _ _ _) => true
  | .resource (.destroySwapchainKHR _) => true
  | .resource (.getSwapchainImagesKHR _ _) => true
  | .resource (.createImageView _ _) => true
  | .resource (.destroyImageView _) => true
  | _ => false

/-- What a pool creation asks for of descriptor type `t`: the sum of the
`descriptorCount` of its pool-size entries of that type. -/
def requestedCount (poolSizes : List (DescriptorType × Nat)) (t : DescriptorType) : Nat :=
  ((poolSizes.filter (fun p => p.1 = t)).map Prod.snd).sum

/-- The number of bindings of type `t` in a declared layout. -/
def bindingCount (l : DescriptorSetLayout) (t : DescriptorType) : Nat :=
  l.bindings.countP (fun b => b.descriptorType = t)

/-- The count the specification asks of a pool for type `t`: the sum over the sets of
the capacity map of (number of bindings of that type in the declared layout of
the set × requested instance count). -/
def requiredDescriptorCount (layouts : List (Nat × DescriptorSetLayout))
    (setCapacity : List (Nat × Nat)) (t : DescriptorType) : Nat :=
  (setCapacity.map (fun ic =>
    ((layouts.lookup ic.1).map (fun l => bindingCount l t)).getD 0 * ic.2)).sum

/-- What the first loop of `createPool` adds of type `t` for one instance of the set
`setIndex` (the branches of Descriptor.cpp 100-105). -/
def poolTable (setIndex : Nat) (t : DescriptorType) : Nat :=
  if setIndex = 0 then (if t = .eUniformBuffer then 1 else 0)
  else if setIndex = 1 then
    (if t = .eUniformBuffer then 3 else if t = .eCombinedImageSampler then 4 else 0)
  else 0

/-- The sum over the capacity map of (table entry × instance count). -/
def tableCount (setCapacity : List (Nat × Nat)) (t : DescriptorType) : Nat :=
  (setCapacity.map (fun ic => poolTable ic.1 t * ic.2)).sum

/-- The total instance count of a capacity map. -/
def totalInstances (setCapacity : List (Nat × Nat)) : Nat :=
  (setCapacity.map Prod.snd).sum

/-- A `DescriptorManager` on which set 0 was declared with the seven bindings of the
per-object layout (layout handle 23). -/
def objectLayoutAtSetZero : DescriptorManager :=
  (DescriptorManager.create.createLayout
    [.TransformUBO, .LightUBO, .MaterialUBO, .TextureSampler, .TextureSampler,
     .TextureSampler, .TextureSampler] 0 0 .eSuccess 23).state

/-- A `DescriptorManager` on which only the set index `UINT32_MAX` was declared. -/
def layoutAtLastIndex : DescriptorManager :=
  (DescriptorManager.create.createLayout [.CameraUBO] UINT32_MAX 0 .eSuccess 24).state

/-- What `createObjectUBOs` has established after its first `k` iterations: the four
vectors have their final sizes, and for every object `j < k` the three buffers of
`j` and the allocations 3j, 3j+1, 3j+2 are those of the creations 3j, 3j+1,
3j+2. -/
def ObjectUBOsFilled (vma : Nat → Nat × Nat) (n k : Nat) (r : Renderer) : Prop :=
  r.m_objectUBOs.transform.length = n ∧ r.m_objectUBOs.light.length = n ∧
  r.m_objectUBOs.material.length = n ∧ r.m_objectAllocations.length = n * 3 ∧
  ∀ j, j < k →
    r.m_objectUBOs.transform[j]? = some (vma (j * 3)).1 ∧
    r.m_objectUBOs.light[j]? = some (vma (j * 3 + 1)).1 ∧
    r.m_objectUBOs.material[j]? = some (vma (j * 3 + 2)).1 ∧
    r.m_objectAllocations[j * 3]? = some (vma (j * 3)).2 ∧
    r.m_objectAllocations[j * 3 + 1]? = some (vma (j * 3 + 1)).2 ∧
    r.m_objectAllocations[j * 3 + 2]? = some (vma (j * 3 + 2)).2

/-- Tells whether a call creates, allocates, writes or destroys a descriptor
object or a uniform buffer. -/
def Event.touchesDescriptorsOrUBOs : Event → Bool
  | .resource (.createDescriptorSetLayout _ _) => true
  | .createDescriptorPool _ _ _ => true
  | .resource (.allocateDescriptorSets _ _ _ _) => true
  | .writeBufferDescriptor _ _ _ _ => true
  | .resource (.writeImageDescriptor _ _ _ _) => true
  | .vmaDestroyBuffer _ _ => true
  | .updateFrameUBO _ => true
  | .updateObjectUBO _ => true
  | _ => false

/-! ## Context: the choice of the physical device (src/src/Core/Context.cpp) -/

/-- The values of `vk::PhysicalDeviceType`. -/
inductive PhysicalDeviceType where
  | eOther
  | eIntegratedGpu
  | eDiscreteGpu
  | eVirtualGpu
  | eCpu
  deriving DecidableEq, Repr

/-- What `pickPhysicalDevice` reads of one queue family: three bits of its
`queueFlags`, and the answer of `getSurfaceSupportKHR` for the family and the
surface. -/
structure QueueFamily where
  graphics : Bool
  compute : Bool
  transfer : Bool
  presentSupport : Bool
  deriving DecidableEq, Repr

/-- What `pickPhysicalDevice` reads of one enumerated device. -/
structure PhysicalDevice where
  deviceType : PhysicalDeviceType
  queueFamilies : List QueueFamily
  deriving DecidableEq, Repr

/-- The structure `QueueFamilyIndices` (Context.h 13-21). -/
structure QueueFamilyIndices where
  graphicsFamily : Option Nat
  presentFamily : Option Nat
  computeFamily : Option Nat
  transferFamily : Option Nat
  deriving DecidableEq, Repr

/-- The method `QueueFamilyIndices::isComplete` (Context.h 18-20). -/
def QueueFamilyIndices.isComplete (q : QueueFamilyIndices) : Bool :=
  q.graphicsFamily.isSome && q.presentFamily.isSome

/-- The body of the queue-family loop of `pickPhysicalDevice` (Context.cpp 130-158)
for the family `queueFamily` of number `i`: it returns the indices and the flag
`foundCombinedGraphicsPresent` after the iteration. -/
def scanQueueFamily (i : Nat) (queueFamily : QueueFamily)
    (currentIndices : QueueFamilyIndices) (foundCombinedGraphicsPresent : Bool) :
    QueueFamilyIndices × Bool :=
  let c1 :=
    if currentIndices.graphicsFamily.isNone && queueFamily.graphics then
      { currentIndices with graphicsFamily := some i }
    else currentIndices
  let c2 :=
    if c1.presentFamily.isNone && queueFamily.presentSupport then
      { c1 with presentFamily := some i }
    else c1
  let c3 :=
    if c2.computeFamily.isNone && queueFamily.compute then
      { c2 with computeFamily := some i }
    else c2
  let c4 :=
    if c3.transferFamily.isNone && queueFamily.transfer && !queueFamily.graphics then
      { c3 with transferFamily := some i }
    else if c3.transferFamily.isNone && queueFamily.transfer then
      { c3 with transferFamily := some i }
    else c3
  let found :=
    if c4.graphicsFamily.isSome && c4.presentFamily.isSome &&
        decide (c4.graphicsFamily = c4.presentFamily) then true
    else foundCombinedGraphicsPresent
  (c4, found)

/-- The queue-family loop of `pickPhysicalDevice` (Context.cpp 129-158) from family
number `i` on. -/
def scanQueueFamilies : List QueueFamily → Nat → QueueFamilyIndices → Bool →
    QueueFamilyIndices × Bool
  | [], _, currentIndices, found => (currentIndices, found)
  | queueFamily :: rest, i, currentIndices, found =>
    let next := scanQueueFamily i queueFamily currentIndices found
    scanQueueFamilies rest (i + 1) next.1 next.2

/-- The indices and the flag `foundCombinedGraphicsPresent` the loop leaves for a
device. -/
def PhysicalDevice.scan (device : PhysicalDevice) : QueueFamilyIndices × Bool :=
  scanQueueFamilies device.queueFamilies 0 ⟨none, none, none, none⟩ false

/-- The device-type part of the score (Context.cpp 171-181). -/
def deviceTypeScore : PhysicalDeviceType → Int
  | .eDiscreteGpu => 1000
  | .eIntegratedGpu => 500
  | .eVirtualGpu => 100
  | _ => 0

/-- The score `currentScore` the device loop computes for a device
(Context.cpp 124-181), or `none` when the loop skips the device by `continue`. -/
def PhysicalDevice.score (device : PhysicalDevice) : Option Int :=
  if device.scan.1.isComplete = false then none
  else some ((if device.scan.2 then 10000 else 0) + deviceTypeScore device.deviceType)

/-- The locals `bestScore`, `chosenDevice` and `bestIndices` of
`pickPhysicalDevice`; the chosen device is named by its position in the
enumeration, `none` being the null handle. -/
structure DeviceChoice where
  bestScore : Int
  chosenDevice : Option Nat
  bestIndices : QueueFamilyIndices
  deriving DecidableEq, Repr

/-- The device loop of `pickPhysicalDevice` (Context.cpp 123-192) from device number
`k` on. -/
def pickLoop : List PhysicalDevice → Nat → DeviceChoice → DeviceChoice
  | [], _, best => best
  | device :: rest, k, best =>
    match device.score with
    | none => pickLoop rest (k + 1) best
    | some currentScore =>
      if currentScore > best.bestScore then
        pickLoop rest (k + 1) ⟨currentScore, some k, device.scan.1⟩
      else pickLoop rest (k + 1) best

/-- The method `Context::pickPhysicalDevice` (Context.cpp 92-215): the position of
the device stored in `m_phyDevice` and the indices stored in `m_queuefamily`. -/
def pickPhysicalDevice (devices : List PhysicalDevice) :
    Completion (Nat × QueueFamilyIndices) :=
  if devices.isEmpty then .thrown .noVulkanDevices
  else
    let best := pickLoop devices 0 ⟨-1, none, ⟨none, none, none, none⟩⟩
    match best.chosenDevice with
    | some k => .returned (k, best.bestIndices)
    | none => .thrown .noSuitableDevice

/-- Tells whether a device exposes a graphics-capable queue family and a queue
family with present support for the surface. -/
def PhysicalDevice.exposesGraphicsAndPresent (device : PhysicalDevice) : Bool :=
  device.queueFamilies.any (fun q => q.graphics) &&
  device.queueFamilies.any (fun q => q.presentSupport)

/-- Tells whether a device has a single queue family that is graphics-capable and
supports present for the surface. -/
def PhysicalDevice.hasCombinedFamily (device : PhysicalDevice) : Bool :=
  device.queueFamilies.any (fun q => q.graphics && q.presentSupport)

/-- A discrete GPU whose family 0 is graphics-only and whose family 1 serves
graphics and present. -/
def splitFirstDevice : PhysicalDevice :=
  ⟨.eDiscreteGpu, [⟨true, true, true, false⟩, ⟨true, false, false, true⟩]⟩

/-- The same GPU with its two families enumerated in the other order. -/
def combinedFirstDevice : PhysicalDevice :=
  ⟨.eDiscreteGpu, [⟨true, false, false, true⟩, ⟨true, true, true, false⟩]⟩

/-- An integrated GPU with one family for everything, a discrete GPU with separate
graphics and present families, a CPU device without present support, and a
second integrated GPU like the first. -/
def fourDevices : List PhysicalDevice :=
  [ ⟨.eCpu, [⟨true, true, true, false⟩]⟩
  , ⟨.eDiscreteGpu, [⟨true, true, true, false⟩, ⟨false, false, true, true⟩]⟩
  , ⟨.eIntegratedGpu, [⟨true, true, true, true⟩]⟩
  , ⟨.eIntegratedGpu, [⟨true, true, true, true⟩]⟩ ]

/-! ## Renderer: construction order and teardown (src/src/Core/Renderer.cpp) -/

/-- The components of a renderer, as its lifecycle names them. -/
inductive Component where
  | context
  | swapchain
  | renderPass
  | depthFramebuffers
  | descriptorManager
  | uboBuffers
  | pipelineManager
  | frameOrchestrator
  deriving DecidableEq, Repr

/-- The order in which the `Renderer` constructor builds the components
(Renderer.cpp 3-68, its steps 1 to 10): `Context`, `SwapchainManager`, the main
render pass, the depth resources and the framebuffers, the `DescriptorManager`,
the frame and object uniform buffers, the `PipelineManager`, the
`CommandManager`. -/
def constructionOrder : List Component :=
  [.context, .swapchain, .renderPass, .depthFramebuffers, .descriptorManager, .uboBuffers,
   .pipelineManager, .frameOrchestrator]

/-- The destructor `Renderer::~Renderer` (Renderer.cpp 272-301).  `device` is the
handle `m_context->getDevice()`; the idle wait is taken to succeed; reading a
vector past its end in `cleanupUBOs` has no defined behaviour.  The reset of
`m_swapchain` runs `~SwapchainManager`, that is `cleanup` (Swapchain.h 13-15),
and is recorded as one call. -/
def Renderer.destructor (r : Renderer) (device : Nat) : Outcome Renderer Unit :=
  let ev0 := if device ≠ 0 then [Event.deviceWaitIdle] else []
  let ev1 := ev0 ++
    [.pipelineManagerReset, .commandManagerReset, .destroyFramebuffers r.m_swapchainFramebuffers] ++
    cleanupDepthEvents r ++
    [.resource .swapchainReset, .resource .descriptorManagerReset, .resource .renderPassReset]
  let r1 := { r with
    m_pipelineManager := false
    m_commandManager := none
    m_swapchainFramebuffers := 0
    m_depthImageView := false
    m_depthImage := false
    m_depthImageMemory := false
    m_swapchain := r.m_swapchain.cleanup.state
    m_descriptorManager := none
    m_mainRenderPass := 0 }
  match r.cleanupUBOs with
  | none => ⟨.undefinedBehaviour, r1, ev1⟩
  | some ubo => ⟨.returned (), r1, ev1 ++ ubo ++ [.resource .contextReset]⟩

/-- The component a teardown call destroys (or a part of which it destroys). -/
def Event.destroyedComponent : Event → Option Component
  | .pipelineManagerReset => some .pipelineManager
  | .commandManagerReset => some .frameOrchestrator
  | .destroyFramebuffers _ => some .depthFramebuffers
  | .destroyDepthImageView => some .depthFramebuffers
  | .destroyDepthImage => some .depthFramebuffers
  | .freeDepthImageMemory => some .depthFramebuffers
  | .resource .swapchainReset => some .swapchain
  | .resource .descriptorManagerReset => some .descriptorManager
  | .resource .renderPassReset => some .renderPass
  | .vmaDestroyBuffer _ _ => some .uboBuffers
  | .resource .contextReset => some .context
  | _ => none

/-- Merges each run of equal neighbours into one element. -/
def collapseRuns : List Component → List Component
  | [] => []
  | [c] => [c]
  | c :: d :: rest => if c = d then collapseRuns (d :: rest) else c :: collapseRuns (d :: rest)

/-- The order in which a sequence of calls destroys the components. -/
def teardownOrder (evs : List Event) : List Component :=
  collapseRuns (evs.filterMap Event.destroyedComponent)

/-! ## CommandManager and SwapchainManager: cleanup (Command.cpp 64-100) -/

/-- The structure `CommandManager::FrameData` (Command.h 13-17); a handle is a
natural number, 0 being the null handle. -/
structure FrameData where
  inFlightFence : Nat
  commandPool : Nat
  primaryBuffer : Nat
  deriving DecidableEq, Repr

/-- The three vectors of `CommandManager` with the handles they hold (the structure
`CommandManager` above keeps their sizes). -/
structure CommandManagerHandles where
  m_perFrameData : List FrameData
  m_imageAvailableSemaphores : List Nat
  m_renderFinishedSemaphores : List Nat
  deriving DecidableEq, Repr

/-- The body of the first loop of `CommandManager::cleanup` (Command.cpp 73-84) for
one frame. -/
def cleanupFrame (frame : FrameData) : List Event :=
  (if frame.inFlightFence ≠ 0 then
    [Event.resource (.destroyFence frame.inFlightFence)] else []) ++
  (if frame.primaryBuffer ≠ 0 then
    [Event.resource (.freeCommandBuffers frame.commandPool frame.primaryBuffer)] else []) ++
  (if frame.commandPool ≠ 0 then
    [Event.resource (.destroyCommandPool frame.commandPool)] else [])

/-- The body of the semaphore loops of `CommandManager::cleanup` (Command.cpp 87-98). -/
def cleanupSemaphore (sem : Nat) : List Event :=
  if sem ≠ 0 then [Event.resource (.destroySemaphore sem)] else []

/-- The method `CommandManager::cleanup` (Command.cpp 68-100); `waitIdleResult` is
what the idle wait answers. -/
def CommandManagerHandles.cleanup (s : CommandManagerHandles) (waitIdleResult : VkResult) :
    Outcome CommandManagerHandles Unit :=
  if waitIdleResult ≠ .eSuccess then
    ⟨.thrown (.vkSystemError waitIdleResult), s, [.deviceWaitIdle]⟩
  else
    ⟨.returned (),
     { m_perFrameData := [], m_imageAvailableSemaphores := [], m_renderFinishedSemaphores := [] },
     [Event.deviceWaitIdle] ++ s.m_perFrameData.flatMap cleanupFrame ++
       s.m_imageAvailableSemaphores.flatMap cleanupSemaphore ++
       s.m_renderFinishedSemaphores.flatMap cleanupSemaphore⟩

/-- A driver object named by its kind and its handle. -/
inductive OwnedHandle where
  | imageView (h : Nat)
  | swapchain (h : Nat)
  | fence (h : Nat)
  | commandBuffer (h : Nat)
  | commandPool (h : Nat)
  | semaphore (h : Nat)
  deriving DecidableEq, Repr

/-- The object a call destroys or frees, if it does. -/
def Event.destroyed : Event → Option OwnedHandle
  | .resource (.destroyImageView v) => some (.imageView v)
  | .resource (.destroySwapchainKHR h) => some (.swapchain h)
  | .resource (.destroyFence h) => some (.fence h)
  | .resource (.freeCommandBuffers _ b) => some (.commandBuffer b)
  | .resource (.destroyCommandPool h) => some (.commandPool h)
  | .resource (.destroySemaphore h) => some (.semaphore h)
  | _ => none

/-- What the file system and the driver answer for one shader path: whether the file
opens, its size in bytes, the result of the module creation and the handle it
yields. -/
structure ShaderFile where
  opens : Bool
  fileSize : Nat
  createResult : VkResult
  shaderModule : Nat
  deriving DecidableEq, Repr

/-- The two maps of `PipelineManager`, keyed by the pipeline type. -/
structure PipelineManager where
  m_pipelines : List (Nat × Nat)
  m_pipelinelayout : List (Nat × Nat)
  deriving DecidableEq, Repr

/-- What the driver answers to the layout creation and to the pipeline creation of
one `createGraphicsPipeline` call. -/
structure PipelineEnv where
  layoutResult : VkResult
  layout : Nat
  pipelineResult : VkResult
  pipeline : Nat
  deriving DecidableEq, Repr

/-- The method `PipelineManager::createShaderModule` (Pipeline.cpp 42-57) with
`Utils::readFile` (Pipeline.cpp 6-17), for the path of number `path`. -/
def createShaderModule (path : Nat) (file : ShaderFile) : Completion Nat × List Event :=
  if file.opens = false then
    (.thrown (.failedToOpenShaderFile path), [])
  else if file.fileSize % 4 ≠ 0 then
    (.thrown (.shaderSizeNotMultipleOfFour path), [])
  else if file.createResult ≠ .eSuccess then
    (.thrown (.failedToCreateShaderModule path),
     [.resource (.createShaderModule file.fileSize file.createResult 0)])
  else
    (.returned file.shaderModule,
     [.resource (.createShaderModule file.fileSize file.createResult file.shaderModule)])

/-- The handler `catch (...)` of `createGraphicsPipeline` (Pipeline.cpp 238-247),
before it throws again. -/
def destroyOnException (vertShaderModule fragShaderModule : Nat) : List Event :=
  (if vertShaderModule ≠ 0 then
    [Event.resource (.destroyShaderModule vertShaderModule)] else []) ++
  (if fragShaderModule ≠ 0 then
    [Event.resource (.destroyShaderModule fragShaderModule)] else [])

/-- The method `PipelineManager::createGraphicsPipeline` (Pipeline.cpp 59-248).
`spvPath` gives for each path what the file system and the driver answer for it;
reading `spvPath[0]` or `spvPath[1]` past the end has no defined behaviour.  The
pipeline creation of vulkan.hpp throws unless the result is `eSuccess` or
`ePipelineCompileRequiredEXT`. -/
def PipelineManager.createGraphicsPipeline (p : PipelineManager) (type : Nat)
    (spvPath : List ShaderFile) (setLayouts : List Nat) (env : PipelineEnv) :
    Outcome PipelineManager Unit :=
  match spvPath[0]? with
  | none => ⟨.undefinedBehaviour, p, []⟩
  | some vertFile =>
    let v := createShaderModule 0 vertFile
    match v.1 with
    | .undefinedBehaviour => ⟨.undefinedBehaviour, p, v.2⟩
    | .thrown e => ⟨.thrown e, p, v.2 ++ destroyOnException 0 0⟩
    | .returned vertShaderModule =>
      match spvPath[1]? with
      | none => ⟨.undefinedBehaviour, p, v.2⟩
      | some fragFile =>
        let f := createShaderModule 1 fragFile
        match f.1 with
        | .undefinedBehaviour => ⟨.undefinedBehaviour, p, v.2 ++ f.2⟩
        | .thrown e => ⟨.thrown e, p, v.2 ++ f.2 ++ destroyOnException vertShaderModule 0⟩
        | .returned fragShaderModule =>
          let ev1 := v.2 ++ f.2 ++
            [.resource (.createPipelineLayout setLayouts env.layoutResult)]
          if env.layoutResult ≠ .eSuccess then
            ⟨.thrown (.vkSystemError env.layoutResult), p,
             ev1 ++ destroyOnException vertShaderModule fragShaderModule⟩
          else
          let p1 := { p with m_pipelinelayout := umapAssign p.m_pipelinelayout type env.layout }
          let ev2 := ev1 ++
            [.resource (.createGraphicsPipelines env.layout env.pipelineResult)]
          if resultCheck env.pipelineResult [.eSuccess, .ePipelineCompileRequiredEXT] = false then
            ⟨.thrown (.vkSystemError env.pipelineResult), p1,
             ev2 ++ destroyOnException vertShaderModule fragShaderModule⟩
          else if env.pipelineResult ≠ .eSuccess then
            ⟨.thrown .failedToCreateGraphicsPipeline, p1,
             ev2 ++ destroyOnException vertShaderModule fragShaderModule⟩
          else
            ⟨.returned (),
             { p1 with m_pipelines := umapAssign p1.m_pipelines type env.pipeline },
             ev2 ++ [.resource (.destroyShaderModule vertShaderModule),
               .resource (.destroyShaderModule fragShaderModule)]⟩

/-- The values of `vk::Format` the render passes of the program can name: colour
formats, the seven formats with a depth or a stencil component, and any other
format by its number. -/
inductive Format where
  | eUndefined
  | eR8G8B8A8Unorm
  | eR8G8B8A8Srgb
  | eB8G8R8A8Unorm
  | eB8G8R8A8Srgb
  | eD16Unorm
  | eX8D24UnormPack32
  | eD32Sfloat
  | eS8Uint
  | eD16UnormS8Uint
  | eD24UnormS8Uint
  | eD32SfloatS8Uint
  | other (code : Nat)
  deriving DecidableEq, Repr

/-- The values of `vk::AttachmentLoadOp`. -/
inductive AttachmentLoadOp where
  | eLoad
  | eClear
  | eDontCare
  deriving DecidableEq, Repr

/-- The values of `vk::AttachmentStoreOp`. -/
inductive AttachmentStoreOp where
  | eStore
  | eDontCare
  | eNone
  deriving DecidableEq, Repr

/-- The values of `vk::ImageLayout` the render passes of the program name, and any
other layout by its number. -/
inductive ImageLayout where
  | eUndefined
  | eColorAttachmentOptimal
  | eDepthStencilAttachmentOptimal
  | ePresentSrcKHR
  | other (code : Nat)
  deriving DecidableEq, Repr

/-- The enumeration `AttachmentType` (RenderPass.h 11-16). -/
inductive AttachmentType where
  | Color
  | Depth
  | Resolve
  | Preserve
  deriving DecidableEq, Repr

/-- The structure `AttachmentConfig` (RenderPass.h 19-27); `samples` is the sample
count. -/
structure AttachmentConfig where
  type : AttachmentType
  format : Format
  samples : Nat
  loadOp : AttachmentLoadOp
  storeOp : AttachmentStoreOp
  initialLayout : ImageLayout
  finalLayout : ImageLayout
  deriving DecidableEq, Repr

/-- The fields of `vk::AttachmentDescription` that `create` sets. -/
structure AttachmentDescription where
  format : Format
  samples : Nat
  loadOp : AttachmentLoadOp
  storeOp : AttachmentStoreOp
  stencilLoadOp : AttachmentLoadOp
  stencilStoreOp : AttachmentStoreOp
  initialLayout : ImageLayout
  finalLayout : ImageLayout
  deriving DecidableEq, Repr

/-- The lambda `isDepthStencilFormat` of `create` (RenderPass.cpp 12-26). -/
def isDepthStencilFormat : Format → Bool
  | .eD16UnormS8Uint => true
  | .eD24UnormS8Uint => true
  | .eD32SfloatS8Uint => true
  | .eD16Unorm => true
  | .eD32Sfloat => true
  | .eX8D24UnormPack32 => true
  | _ => false

/-- The body of the attachment loop of `create` (RenderPass.cpp 29-45): the
description pushed for one configured attachment. -/
def attachmentDescription (att : AttachmentConfig) : AttachmentDescription :=
  { format := att.format
    samples := att.samples
    loadOp := att.loadOp
    storeOp := att.storeOp
    initialLayout := att.initialLayout
    finalLayout := att.finalLayout
    stencilLoadOp := if isDepthStencilFormat att.format then att.loadOp else .eDontCare
    stencilStoreOp := if isDepthStencilFormat att.format then att.storeOp else .eDontCare }

/-- The attachment loop of `RenderPassFactory::create` (RenderPass.cpp 8-46): the
vector `descriptions` it builds. -/
def RenderPassFactory.attachmentDescriptions (attachments : List AttachmentConfig) :
    List AttachmentDescription :=
  attachments.foldl (fun descriptions att => descriptions ++ [attachmentDescription att]) []

/-- The formats the graphics API classes as depth/stencil formats: those with a
depth component, a stencil component, or both. -/
def Format.hasDepthOrStencil : Format → Bool
  | .eD16Unorm => true
  | .eX8D24UnormPack32 => true
  | .eD32Sfloat => true
  | .eS8Uint => true
  | .eD16UnormS8Uint => true
  | .eD24UnormS8Uint => true
  | .eD32SfloatS8Uint => true
  | _ => false

/-- A stencil-only attachment that is cleared on load and stored. -/
def stencilOnlyAttachment : AttachmentConfig :=
  { type := .Depth
    format := .eS8Uint
    samples := 1
    loadOp := .eClear
    storeOp := .eStore
    initialLayout := .eUndefined
    finalLayout := .eDepthStencilAttachmentOptimal }

/-- The two attachments of a forward pass: the colour image of the chain and a
32-bit depth image. -/
def forwardAttachments : List AttachmentConfig :=
  [ ⟨.Color, .eB8G8R8A8Srgb, 1, .eClear, .eStore, .eUndefined, .ePresentSrcKHR⟩
  , ⟨.Depth, .eD32Sfloat, 1, .eClear, .eDontCare, .eUndefined,
      .eDepthStencilAttachmentOptimal⟩ ]

/-! ## Index safety of the CommandManager, and the counts the renderer keeps equal -/

/-- Tells whether a semaphore is named by a position inside the vector that holds
it. -/
def Semaphore.withinBounds (s : CommandManager) : Semaphore → Bool
  | .imageAvailable slot => decide (slot < s.imageAvailableSemaphoresSize)
  | .renderFinished image => decide (image < s.renderFinishedSemaphoresSize)

/-- Tells whether the positions a call of `beginFrame` or `endFrame` reads in
`m_perFrameData`, `m_imageAvailableSemaphores` and `m_renderFinishedSemaphores`
lie inside these vectors (the command buffer of a submission is passed in by the
caller). -/
def Event.withinBounds (s : CommandManager) : Event → Bool
  | .waitForFences slot _ _ => decide (slot < s.perFrameDataSize)
  | .acquireNextImageKHR sem _ => sem.withinBounds s
  | .resetFences slot => decide (slot < s.perFrameDataSize)
  | .queueSubmit waitSem _ _ signalSem fence _ =>
      waitSem.withinBounds s && signalSem.withinBounds s && decide (fence < s.perFrameDataSize)
  | .queuePresent waitSem _ _ => waitSem.withinBounds s
  | _ => true

/-- Tells whether the image index the acquisition of a call stores, if the call is a
`beginFrame` whose acquisition stores one, is below `n`. -/
def FrameCall.acquiresBelow (n : Nat) : FrameCall → Bool
  | .beginFrame env =>
    match env.acquiredIndex with
    | some k => decide (k < n)
    | none => true
  | .endFrame _ _ => true

/-- Tells whether every image index an acquisition of the sequence stores is below
`n`. -/
def acquiredBelow (n : Nat) (calls : List FrameCall) : Bool :=
  calls.all (FrameCall.acquiresBelow n)

/-- Index safety of a sequence of calls on a `CommandManager` of `f` frames in flight
and `n` swapchain images: every call issued reads inside the three vectors, and
so does `getCurrentCommandBuffer` after the sequence (hence after each of its
beginnings). -/
def indexSafe (f n : Nat) (calls : List FrameCall) : Bool :=
  ((CommandManager.create f n).run calls).2.all
    (Event.withinBounds (CommandManager.create f n)) &&
  decide (((CommandManager.create f n).run calls).1.getCurrentCommandBuffer <
    ((CommandManager.create f n).run calls).1.perFrameDataSize)

/-- What the calls of a `CommandManager` of `f` frames in flight and `n` images keep
true: the sizes of the three vectors, and the two indices inside them. -/
def CommandManager.indicesWithin (s : CommandManager) (f n : Nat) : Prop :=
  s.m_framesInFlight = f ∧ s.perFrameDataSize = f ∧ s.imageAvailableSemaphoresSize = f ∧
  s.renderFinishedSemaphoresSize = n ∧ s.m_currentFrameIndex < f ∧ s.m_currentImageIndex < n

/-- The position in `m_renderFinishedSemaphores` a submission signals or a
presentation request waits on. -/
def Event.renderFinishedIndex : Event → Option Nat
  | .queueSubmit _ _ _ (.renderFinished k) _ _ => some k
  | .queuePresent (.renderFinished k) _ _ => some k
  | _ => none

/-- The counts the frame loop relies on: as many framebuffers as image views, as
many image views as images, and as many render-finished semaphores in the
`CommandManager` as images. -/
def Renderer.countsAgree (r : Renderer) : Prop :=
  r.m_swapchainFramebuffers = r.m_swapchain.m_swapchainImageViews.length ∧
  r.m_swapchain.m_swapchainImageViews.length = r.m_swapchain.m_swapchainImages.length ∧
  ∃ cm, r.m_commandManager = some cm ∧
    cm.renderFinishedSemaphoresSize = r.m_swapchain.m_swapchainImages.length

/-! ## CommandManager: single calls -/

/-- No `beginFrame` changes the frame-slot index. -/
theorem beginFrame_keeps_frame_index (s : CommandManager) (env : BeginFrameEnv) :
    (s.beginFrame env).state.m_currentFrameIndex = s.m_currentFrameIndex := by
  simp only [CommandManager.beginFrame]
  split_ifs <;> rfl

/-- No `beginFrame` changes the number of frame slots. -/
theorem beginFrame_keeps_framesInFlight (s : CommandManager) (env : BeginFrameEnv) :
    (s.beginFrame env).state.m_framesInFlight = s.m_framesInFlight := by
  simp only [CommandManager.beginFrame]
  split_ifs <;> rfl

/-- No `endFrame` changes the number of frame slots. -/
theorem endFrame_keeps_framesInFlight (s : CommandManager) (cb : Nat) (env : EndFrameEnv) :
    (s.endFrame cb env).state.m_framesInFlight = s.m_framesInFlight := by
  simp only [CommandManager.endFrame]
  split_ifs <;> rfl

/-- The calls of `endFrame`: the submission, followed by the presentation request
when the queue accepted the submission. -/
theorem endFrame_events (s : CommandManager) (cb : Nat) (env : EndFrameEnv) :
    (s.endFrame cb env).events =
      Event.queueSubmit (.imageAvailable s.m_currentFrameIndex) .eColorAttachmentOutput cb
        (.renderFinished s.m_currentImageIndex) s.m_currentFrameIndex env.submitResult ::
      (if env.submitResult = .eSuccess then
        [Event.queuePresent (.renderFinished s.m_currentImageIndex) s.m_currentImageIndex
          env.presentResult]
       else []) := by
  simp only [CommandManager.endFrame, resultCheck]
  by_cases h : env.submitResult = .eSuccess
  · simp only [h]
    split_ifs <;> simp_all
  · simp [h]

/-- Claim C2: when the wait on the current slot's fence times out, `beginFrame`
returns the sentinel `UINT32_MAX` (it does not throw), the fence wait is the only
call it issues (no image acquisition, no fence reset), and the object is left as
it was, frame-slot index and current image index included. -/
theorem beginFrame_timeout_returns_sentinel (s : CommandManager) (env : BeginFrameEnv)
    (h : env.waitResult = .eTimeout) :
    (s.beginFrame env).result = .returned UINT32_MAX ∧
    (s.beginFrame env).events =
      [.waitForFences s.m_currentFrameIndex fenceTimeoutNs .eTimeout] ∧
    (∀ sem r, Event.acquireNextImageKHR sem r ∉ (s.beginFrame env).events) ∧
    (∀ j, Event.resetFences j ∉ (s.beginFrame env).events) ∧
    (s.beginFrame env).state = s := by
  simp [CommandManager.beginFrame, resultCheck, h]

/-- Witness of C2 on a fresh manager with two frame slots and three images. -/
theorem beginFrame_timeout_returns_sentinel_witness :
    ((CommandManager.create 2 3).beginFrame ⟨.eTimeout, .eSuccess, none⟩).result =
        .returned UINT32_MAX ∧
    ((CommandManager.create 2 3).beginFrame ⟨.eTimeout, .eSuccess, none⟩).state =
        CommandManager.create 2 3 :=
  have h := beginFrame_timeout_returns_sentinel (CommandManager.create 2 3)
    ⟨.eTimeout, .eSuccess, none⟩ rfl
  ⟨h.1, h.2.2.2.2⟩

/-- Claim C3: `beginFrame` resets a fence exactly when both the fence wait and the
image acquisition returned success, and then it is the fence of the current slot,
reset after the acquisition; when the wait succeeded and the acquisition returned
anything else (the out-of-date code included) it throws the acquisition error
and no fence reset is issued. -/
theorem beginFrame_resets_fence_iff (s : CommandManager) (env : BeginFrameEnv) :
    ((∃ j, Event.resetFences j ∈ (s.beginFrame env).events) ↔
      (env.waitResult = .eSuccess ∧ env.acquireResult = .eSuccess)) ∧
    (env.waitResult = .eSuccess → env.acquireResult = .eSuccess →
      (s.beginFrame env).events =
        [.waitForFences s.m_currentFrameIndex fenceTimeoutNs .eSuccess,
         .acquireNextImageKHR (.imageAvailable s.m_currentFrameIndex) .eSuccess,
         .resetFences s.m_currentFrameIndex]) ∧
    (env.waitResult = .eSuccess → env.acquireResult ≠ .eSuccess →
      (s.beginFrame env).result = .thrown .failedToAcquireImage ∧
      ∀ j, Event.resetFences j ∉ (s.beginFrame env).events) := by
  rcases env with ⟨w, a, k⟩
  cases w <;> cases a <;> simp [CommandManager.beginFrame, resultCheck]

/-- Witness of C3: an out-of-date acquisition after a successful wait throws and
resets nothing. -/
theorem beginFrame_resets_fence_iff_witness :
    ((CommandManager.create 2 3).beginFrame ⟨.eSuccess, .eErrorOutOfDateKHR, none⟩).result =
        .thrown .failedToAcquireImage ∧
    ∀ j, Event.resetFences j ∉
      ((CommandManager.create 2 3).beginFrame ⟨.eSuccess, .eErrorOutOfDateKHR, none⟩).events :=
  (beginFrame_resets_fence_iff (CommandManager.create 2 3)
    ⟨.eSuccess, .eErrorOutOfDateKHR, none⟩).2.2 rfl (by decide)

/-- Claim C4, evaluated where it fails: on a fresh manager with two frame slots,
an `endFrame` whose submission is rejected by the queue throws out of the submit
call and leaves the frame-slot index at 0, while (0 + 1) mod 2 is 1. -/
theorem endFrame_submit_failure_keeps_index :
    ((CommandManager.create 2 3).endFrame 0 submitLostEnv).result =
        .thrown (.vkSystemError .eErrorDeviceLost) ∧
    ((CommandManager.create 2 3).endFrame 0 submitLostEnv).state.m_currentFrameIndex = 0 ∧
    ((CommandManager.create 2 3).m_currentFrameIndex + 1) %
        (CommandManager.create 2 3).m_framesInFlight = 1 := by
  decide

/-- Claim C5: with at least one frame slot, when the submission succeeds and the
presentation throws, `endFrame` leaves the frame-slot index at (i+1) mod F and
throws to its caller.  The index `i` is a `uint32_t` below `UINT32_MAX`, as it is
whenever i < F. -/
theorem endFrame_present_failure_advances (s : CommandManager) (cb : Nat) (env : EndFrameEnv)
    (_hF : 1 ≤ s.m_framesInFlight) (hi : s.m_currentFrameIndex < UINT32_MAX)
    (hsub : env.submitResult = .eSuccess)
    (hpres : resultCheck env.presentResult [.eSuccess, .eSuboptimalKHR] = false) :
    (s.endFrame cb env).result = .thrown .failedToPresent ∧
    (s.endFrame cb env).state.m_currentFrameIndex =
      (s.m_currentFrameIndex + 1) % s.m_framesInFlight := by
  have h32 : (s.m_currentFrameIndex + 1) % 4294967296 = s.m_currentFrameIndex + 1 := by
    apply Nat.mod_eq_of_lt
    unfold UINT32_MAX at hi
    omega
  simp [CommandManager.endFrame, resultCheck, hsub, h32] at hpres ⊢
  simp [hpres]

/-- Witness of C5: two frame slots, index 0, presentation out of date. -/
theorem endFrame_present_failure_advances_witness :
    ((CommandManager.create 2 3).endFrame 0 ⟨.eSuccess, .eErrorOutOfDateKHR⟩).result =
        .thrown .failedToPresent ∧
    ((CommandManager.create 2 3).endFrame 0
        ⟨.eSuccess, .eErrorOutOfDateKHR⟩).state.m_currentFrameIndex = (0 + 1) % 2 :=
  endFrame_present_failure_advances (CommandManager.create 2 3) 0
    ⟨.eSuccess, .eErrorOutOfDateKHR⟩ (by decide) (by decide) rfl (by decide)

/-- Claim C7: after a `beginFrame` whose wait and acquisition succeeded on slot i
(it waited on the fence of slot i, acquired with the image-available semaphore of
slot i, and reset the fence of slot i), the submission of the following `endFrame`
waits on the image-available semaphore of slot i at the color-attachment-output
stage and signals the fence of slot i; no `beginFrame` changes the slot index. -/
theorem endFrame_submits_on_slot_of_beginFrame (s : CommandManager) (benv : BeginFrameEnv)
    (cb : Nat) (eenv : EndFrameEnv)
    (hw : benv.waitResult = .eSuccess) (ha : benv.acquireResult = .eSuccess) :
    (s.beginFrame benv).events =
      [.waitForFences s.m_currentFrameIndex fenceTimeoutNs .eSuccess,
       .acquireNextImageKHR (.imageAvailable s.m_currentFrameIndex) .eSuccess,
       .resetFences s.m_currentFrameIndex] ∧
    ((s.beginFrame benv).state.endFrame cb eenv).events.head? =
      some (.queueSubmit (.imageAvailable s.m_currentFrameIndex) .eColorAttachmentOutput cb
        (.renderFinished (s.beginFrame benv).state.m_currentImageIndex)
        s.m_currentFrameIndex eenv.submitResult) ∧
    (∀ env, (s.beginFrame env).state.m_currentFrameIndex = s.m_currentFrameIndex) := by
  refine ⟨?_, ?_, ?_⟩
  · simp [CommandManager.beginFrame, resultCheck, hw, ha]
  · rw [endFrame_events, beginFrame_keeps_frame_index]
    rfl
  · intro env
    exact beginFrame_keeps_frame_index s env

/-- Witness of C7 on a manager whose current slot is 1. -/
theorem endFrame_submits_on_slot_of_beginFrame_witness :
    ((({ CommandManager.create 2 3 with m_currentFrameIndex := 1 }).beginFrame
        ⟨.eSuccess, .eSuccess, some 2⟩).state.endFrame 1 ⟨.eSuccess, .eSuccess⟩).events.head? =
      some (.queueSubmit (.imageAvailable 1) .eColorAttachmentOutput 1
        (.renderFinished 2) 1 .eSuccess) :=
  (endFrame_submits_on_slot_of_beginFrame { CommandManager.create 2 3 with m_currentFrameIndex := 1 }
    ⟨.eSuccess, .eSuccess, some 2⟩ 1 ⟨.eSuccess, .eSuccess⟩ rfl rfl).2.1

/-! ## CommandManager: sequences of calls -/

/-- The frame-slot index after `endFrame`: advanced when the submission was
accepted (so that the present step ran), untouched otherwise. -/
theorem endFrame_frame_index (s : CommandManager) (cb : Nat) (env : EndFrameEnv) :
    (s.endFrame cb env).state.m_currentFrameIndex =
      if env.submitResult = .eSuccess then
        (s.m_currentFrameIndex + 1) % 4294967296 % s.m_framesInFlight
      else s.m_currentFrameIndex := by
  simp only [CommandManager.endFrame, resultCheck]
  by_cases h : env.submitResult = .eSuccess
  · simp only [h]
    split_ifs <;> simp_all
  · simp [h]

/-- A `beginFrame` issues no presentation request. -/
theorem beginFrame_no_present (s : CommandManager) (env : BeginFrameEnv) :
    (s.beginFrame env).events.countP Event.isPresent = 0 := by
  simp only [CommandManager.beginFrame]
  split_ifs <;> simp [Event.isPresent]

/-- An `endFrame` issues one presentation request when the submission was
accepted and none otherwise. -/
theorem endFrame_present_count (s : CommandManager) (cb : Nat) (env : EndFrameEnv) :
    (s.endFrame cb env).events.countP Event.isPresent =
      if env.submitResult = .eSuccess then 1 else 0 := by
  rw [endFrame_events]
  split_ifs <;> simp [Event.isPresent]

/-- Along any sequence of calls the number of frame slots stays the same and the
frame-slot index moves by the number of presentation requests, modulo the number
of slots. -/
theorem run_frame_index (calls : List FrameCall) :
    ∀ s : CommandManager, s.m_framesInFlight ≤ UINT32_MAX →
      s.m_currentFrameIndex < s.m_framesInFlight →
      (s.run calls).1.m_framesInFlight = s.m_framesInFlight ∧
      (s.run calls).1.m_currentFrameIndex =
        (s.m_currentFrameIndex + (s.run calls).2.countP Event.isPresent) %
          s.m_framesInFlight := by
  induction calls with
  | nil =>
    intro s _ hi
    simp [CommandManager.run, Nat.mod_eq_of_lt hi]
  | cons c cs ih =>
    intro s h32 hi
    have hpos : 0 < s.m_framesInFlight := by omega
    cases c with
    | beginFrame env =>
      have hF := beginFrame_keeps_framesInFlight s env
      have hI := beginFrame_keeps_frame_index s env
      have := ih (s.beginFrame env).state (by rw [hF]; exact h32) (by rw [hF, hI]; exact hi)
      simp only [CommandManager.run, CommandManager.call, List.countP_append,
        beginFrame_no_present, Nat.zero_add]
      rw [this.1, this.2, hF, hI]
      exact ⟨rfl, rfl⟩
    | endFrame cb env =>
      have hF := endFrame_keeps_framesInFlight s cb env
      have hI := endFrame_frame_index s cb env
      have hwrap : (s.m_currentFrameIndex + 1) % 4294967296 = s.m_currentFrameIndex + 1 := by
        apply Nat.mod_eq_of_lt
        unfold UINT32_MAX at h32
        omega
      have hlt : (s.endFrame cb env).state.m_currentFrameIndex < s.m_framesInFlight := by
        rw [hI]
        split_ifs
        · exact Nat.mod_lt _ hpos
        · exact hi
      have := ih (s.endFrame cb env).state (by rw [hF]; exact h32) (by rw [hF]; exact hlt)
      simp only [CommandManager.run, CommandManager.call, List.countP_append,
        endFrame_present_count]
      rw [this.1, this.2, hF, hI]
      refine ⟨rfl, ?_⟩
      split_ifs
      · rw [hwrap, Nat.mod_add_mod]
        congr 1
        omega
      · simp

/-- What one call does to the render-finished semaphore of image `k`: nothing, or
a signal immediately followed by a wait. -/
theorem call_renderFinishedOps (s : CommandManager) (c : FrameCall) (k : Nat) :
    (s.call c).2.filterMap (renderFinishedOp k) = [] ∨
    (s.call c).2.filterMap (renderFinishedOp k) = [.signal, .wait] := by
  cases c with
  | beginFrame env =>
    left
    simp only [CommandManager.call, CommandManager.beginFrame]
    split_ifs <;> simp [renderFinishedOp]
  | endFrame cb env =>
    simp only [CommandManager.call, endFrame_events]
    by_cases hs : env.submitResult = .eSuccess
    · by_cases hk : s.m_currentImageIndex = k
      · right
        simp [renderFinishedOp, hs, hk]
      · left
        simp [renderFinishedOp, hs, hk]
    · left
      simp [renderFinishedOp, hs]

/-- Along any sequence of calls, signals and waits on the render-finished
semaphore of image `k` alternate strictly, starting from an unsignalled
semaphore. -/
theorem run_renderFinished_alternates (calls : List FrameCall) (k : Nat) :
    ∀ s : CommandManager,
      alternatesFrom false ((s.run calls).2.filterMap (renderFinishedOp k)) = true := by
  induction calls with
  | nil =>
    intro s
    simp [CommandManager.run, alternatesFrom]
  | cons c cs ih =>
    intro s
    simp only [CommandManager.run, List.filterMap_append]
    rcases call_renderFinishedOps s c k with h | h
    · rw [h]
      exact ih _
    · rw [h]
      simpa [alternatesFrom] using ih (s.call c).1

/-- Claim C6: whatever images are acquired, in whatever order, the `endFrame`
that follows a `beginFrame` returning image index k signals the render-finished
semaphore k in its submission and, once the queue accepted it, requests the
presentation of image k waiting on that same semaphore; hence along every
sequence of `beginFrame` / `endFrame` calls, under every answer of the driver,
the signals and waits requested on render-finished semaphore k strictly
alternate, starting with a signal: it is never signalled twice without a wait in
between. -/
theorem renderFinished_signal_wait_alternate (s : CommandManager) (benv : BeginFrameEnv)
    (cb : Nat) (eenv : EndFrameEnv) (calls : List FrameCall) (k : Nat) :
    (∀ j, benv.waitResult = .eSuccess → (s.beginFrame benv).result = .returned j →
      ((s.beginFrame benv).state.endFrame cb eenv).events =
        Event.queueSubmit (.imageAvailable s.m_currentFrameIndex) .eColorAttachmentOutput cb
          (.renderFinished j) s.m_currentFrameIndex eenv.submitResult ::
        (if eenv.submitResult = .eSuccess then
          [Event.queuePresent (.renderFinished j) j eenv.presentResult]
         else [])) ∧
    alternatesFrom false ((s.run calls).2.filterMap (renderFinishedOp k)) = true := by
  refine ⟨?_, run_renderFinished_alternates calls k s⟩
  intro j hw hret
  have hj : (s.beginFrame benv).state.m_currentImageIndex = j := by
    simp only [CommandManager.beginFrame, resultCheck, hw] at hret ⊢
    split_ifs at hret ⊢ <;> simp_all
  rw [endFrame_events, beginFrame_keeps_frame_index, hj]

/-- Witness of C6: two frame slots and the acquired images 0, 1, 0, 2, 1, 0.  The
operations on render-finished semaphore 0 are signal, wait, three times over. -/
theorem renderFinished_signal_wait_alternate_witness :
    ((CommandManager.create 2 3).run decouplingCalls).2.filterMap (renderFinishedOp 0) =
      [.signal, .wait, .signal, .wait, .signal, .wait] ∧
    ((((CommandManager.create 2 3).beginFrame ⟨.eSuccess, .eSuccess, some 2⟩).state.endFrame 0
        ⟨.eSuccess, .eSuccess⟩).events =
      [.queueSubmit (.imageAvailable 0) .eColorAttachmentOutput 0 (.renderFinished 2) 0 .eSuccess,
       .queuePresent (.renderFinished 2) 2 .eSuccess]) ∧
    alternatesFrom false
      (((CommandManager.create 2 3).run decouplingCalls).2.filterMap (renderFinishedOp 0)) = true :=
  have h := renderFinished_signal_wait_alternate (CommandManager.create 2 3)
    ⟨.eSuccess, .eSuccess, some 2⟩ 0 ⟨.eSuccess, .eSuccess⟩ decouplingCalls 0
  ⟨by decide, h.1 2 rfl rfl, h.2⟩

/-- Claim C8: on a manager constructed with F ≥ 1 frame slots (F a `uint32_t`),
after any sequence of `beginFrame` / `endFrame` calls the frame-slot index equals
n mod F, where n is the number of presentation requests issued (the number of
`endFrame` calls that reached their present step, whether it then returned or
threw); the index is below F, and no `beginFrame` changes it. -/
theorem frame_index_counts_presents (F N : Nat) (hF : 1 ≤ F) (h32 : F ≤ UINT32_MAX)
    (calls : List FrameCall) :
    ((CommandManager.create F N).run calls).1.getCurrentFrameIndex =
      ((CommandManager.create F N).run calls).2.countP Event.isPresent % F ∧
    ((CommandManager.create F N).run calls).1.getCurrentFrameIndex < F ∧
    (∀ (s : CommandManager) (env : BeginFrameEnv),
      (s.beginFrame env).state.getCurrentFrameIndex = s.getCurrentFrameIndex) := by
  have h := run_frame_index calls (CommandManager.create F N) h32 (by
    show 0 < F
    omega)
  have hidx : ((CommandManager.create F N).run calls).1.getCurrentFrameIndex =
      ((CommandManager.create F N).run calls).2.countP Event.isPresent % F := by
    have h2 := h.2
    simp only [CommandManager.create, Nat.zero_add] at h2
    exact h2
  refine ⟨hidx, ?_, fun s env => beginFrame_keeps_frame_index s env⟩
  rw [hidx]
  exact Nat.mod_lt _ (by omega)

/-- Witness of C8: two frame slots; of the four `endFrame` calls of `mixedCalls`
three reach the present step, and the index ends at 3 mod 2 = 1. -/
theorem frame_index_counts_presents_witness :
    ((CommandManager.create 2 3).run mixedCalls).2.countP Event.isPresent = 3 ∧
    ((CommandManager.create 2 3).run mixedCalls).1.getCurrentFrameIndex = 1 ∧
    ((CommandManager.create 2 3).run mixedCalls).1.getCurrentFrameIndex =
      ((CommandManager.create 2 3).run mixedCalls).2.countP Event.isPresent % 2 :=
  ⟨by decide, by decide,
   (frame_index_counts_presents 2 3 (by decide) (by decide) mixedCalls).1⟩

/-! ## SwapchainManager: the calls it issues and the counts it leaves -/

/-- The calls of `cleanup` are calls of `SwapchainManager`. -/
theorem cleanup_isSwapchainCall (s : SwapchainManagerState) :
    ∀ e ∈ s.cleanup.events, e.isSwapchainCall = true := by
  intro e he
  unfold SwapchainManagerState.cleanup at he
  split at he
  · simp at he
  · simp only [List.mem_append, List.mem_map] at he
    rcases he with ⟨v, _, rfl⟩ | he
    · rfl
    · split_ifs at he
      · simp only [List.mem_singleton] at he
        subst he; rfl
      · simp at he

/-- The calls of `createSwapchain` are calls of `SwapchainManager`. -/
theorem createSwapchain_isSwapchainCall (s : SwapchainManagerState) (env : SwapchainEnv) :
    ∀ e ∈ (s.createSwapchain env).events, e.isSwapchainCall = true := by
  intro e he
  unfold SwapchainManagerState.createSwapchain at he
  dsimp only at he
  split at he
  · simp only [List.mem_singleton] at he
    subst he; rfl
  split at he
  · simp only [List.mem_append, List.mem_singleton] at he
    rcases he with rfl | rfl <;> rfl
  split at he
  · simp only [List.mem_append, List.mem_singleton] at he
    rcases he with (rfl | rfl) | rfl <;> rfl
  split at he
  · simp only [List.mem_append, List.mem_singleton] at he
    rcases he with (rfl | rfl) | rfl <;> rfl
  split at he
  · simp only [List.mem_append, List.mem_singleton] at he
    rcases he with ((rfl | rfl) | rfl) | rfl <;> rfl
  have hold : ∀ e ∈ (if s.m_swapchain ≠ 0 then
      [Event.resource (.destroySwapchainKHR s.m_swapchain)] else []),
      e.isSwapchainCall = true := by
    intro e he
    split_ifs at he
    · simp only [List.mem_singleton] at he
      subst he; rfl
    · simp at he
  split at he
  all_goals
    simp only [List.mem_append, List.mem_singleton] at he
    rcases he with ((((rfl | rfl) | rfl) | rfl) | he) | rfl
    all_goals first
      | rfl
      | exact hold _ he

/-- The calls of the creation loop of `createImageViews` are calls of
`SwapchainManager`. -/
theorem createImageViewsLoop_isSwapchainCall (env : SwapchainEnv) (images : List Nat) (i : Nat)
    (views : List Nat) :
    ∀ e ∈ (createImageViewsLoop env images i views).2.2, e.isSwapchainCall = true := by
  induction images generalizing i views with
  | nil => intro e he; simp [createImageViewsLoop] at he
  | cons image images ih =>
    intro e he
    simp only [createImageViewsLoop] at he
    split_ifs at he
    · simp only [List.mem_singleton] at he
      subst he; rfl
    · simp only [List.mem_cons] at he
      rcases he with rfl | he
      · rfl
      · exact ih _ _ e he

/-- The calls of `createImageViews` are calls of `SwapchainManager`. -/
theorem createImageViews_isSwapchainCall (s : SwapchainManagerState) (env : SwapchainEnv) :
    ∀ e ∈ (s.createImageViews env).events, e.isSwapchainCall = true := by
  intro e he
  simp only [SwapchainManagerState.createImageViews, List.mem_append, List.mem_map] at he
  rcases he with ⟨v, _, rfl⟩ | he
  · rfl
  · exact createImageViewsLoop_isSwapchainCall env _ _ _ e he

/-- The calls of `SwapchainManager::recreate` and of the constructor are calls of
`SwapchainManager`. -/
theorem swapchain_isSwapchainCall (s : SwapchainManagerState) (env : SwapchainEnv) :
    (∀ e ∈ (s.recreate env).events, e.isSwapchainCall = true) ∧
    (∀ e ∈ (SwapchainManagerState.create env).events, e.isSwapchainCall = true) := by
  constructor
  · intro e he
    have h1 := cleanup_isSwapchainCall s
    have h2 := createSwapchain_isSwapchainCall s.cleanup.state env
    have h3 := createImageViews_isSwapchainCall (s.cleanup.state.createSwapchain env).state env
    unfold SwapchainManagerState.recreate at he
    dsimp only at he
    split at he
    · exact h1 e he
    · exact h1 e he
    · split at he
      all_goals
        simp only [List.mem_append] at he
        aesop
  · intro e he
    have h2 := createSwapchain_isSwapchainCall SwapchainManagerState.initial env
    have h3 := createImageViews_isSwapchainCall
      (SwapchainManagerState.initial.createSwapchain env).state env
    unfold SwapchainManagerState.create at he
    dsimp only at he
    split at he
    · exact h2 e he
    · exact h2 e he
    · simp only [List.mem_append] at he
      aesop

/-- A call of `SwapchainManager` begins no render pass, records no draw, submits and
presents nothing, waits on no fence, resets and begins no command buffer, touches
no descriptor object and no uniform buffer, and names no render-finished
semaphore. -/
theorem isSwapchainCall_spec (e : Event) (h : e.isSwapchainCall = true) :
    e.isDrawOrSubmit = false ∧ e.isWaitOrReset = false ∧
    e.touchesDescriptorsOrUBOs = false ∧ e.renderFinishedIndex = none := by
  cases e with
  | resource c => cases c <;> first | exact ⟨rfl, rfl, rfl, rfl⟩ | cases h
  | _ => cases h

/-- The creation loop of `createImageViews` keeps the size of the vector of views. -/
theorem createImageViewsLoop_length (env : SwapchainEnv) (images : List Nat) (i : Nat)
    (views : List Nat) :
    (createImageViewsLoop env images i views).2.1.length = views.length := by
  induction images generalizing i views with
  | nil => rfl
  | cons image images ih =>
    simp only [createImageViewsLoop]
    split_ifs
    · rfl
    · simp only [ih, List.length_set]

/-- After `createImageViews`, however it ends, there are as many image views as
images, and the images are those it found. -/
theorem createImageViews_counts (s : SwapchainManagerState) (env : SwapchainEnv) :
    (s.createImageViews env).state.m_swapchainImageViews.length = s.m_swapchainImages.length ∧
    (s.createImageViews env).state.m_swapchainImages = s.m_swapchainImages := by
  simp [SwapchainManagerState.createImageViews, createImageViewsLoop_length]

/-- When `createSwapchain` returns, the images are those of the new chain. -/
theorem createSwapchain_images (s : SwapchainManagerState) (env : SwapchainEnv)
    (h : (s.createSwapchain env).result = .returned ()) :
    (s.createSwapchain env).state.m_swapchainImages = env.newImages := by
  unfold SwapchainManagerState.createSwapchain at h ⊢
  by_cases h1 : env.capabilitiesResult = .eSuccess
  · by_cases h2 : env.formatsResult = .eSuccess
    · by_cases h3 : env.presentModesResult = .eSuccess
      · cases h4 : chooseSwapSurfaceFormat env.formats with
        | none => simp [h1, h2, h3, h4] at h
        | some sf =>
          by_cases h5 : env.createResult = .eSuccess
          · by_cases h6 : env.imagesResult = .eSuccess
            · simp [h1, h2, h3, h4, h5, h6]
            · simp [h1, h2, h3, h4, h5, h6] at h
          · simp [h1, h2, h3, h4, h5] at h
      · simp [h1, h2, h3] at h
    · simp [h1, h2] at h
  · simp [h1] at h

/-- When the constructor of `SwapchainManager` or `recreate` returns, the chain has
as many image views as images, the images of the new chain. -/
theorem swapchain_counts (s : SwapchainManagerState) (env : SwapchainEnv) :
    ((SwapchainManagerState.create env).result = .returned () →
      (SwapchainManagerState.create env).state.m_swapchainImageViews.length =
        env.newImages.length ∧
      (SwapchainManagerState.create env).state.m_swapchainImages = env.newImages) ∧
    ((s.recreate env).result = .returned () →
      (s.recreate env).state.m_swapchainImageViews.length = env.newImages.length ∧
      (s.recreate env).state.m_swapchainImages = env.newImages) := by
  constructor
  · intro h
    unfold SwapchainManagerState.create at h ⊢
    cases hn : (SwapchainManagerState.initial.createSwapchain env).result with
    | thrown e => simp [hn] at h
    | undefinedBehaviour => simp [hn] at h
    | returned u =>
      have hi := createSwapchain_images _ env hn
      have hc := createImageViews_counts (SwapchainManagerState.initial.createSwapchain env).state env
      simp only [hn]
      rw [hc.1, hc.2, hi]
      exact ⟨rfl, rfl⟩
  · intro h
    unfold SwapchainManagerState.recreate at h ⊢
    cases hcl : s.cleanup.result with
    | thrown e => simp [hcl] at h
    | undefinedBehaviour => simp [hcl] at h
    | returned u =>
      cases hn : (s.cleanup.state.createSwapchain env).result with
      | thrown e => simp [hcl, hn] at h
      | undefinedBehaviour => simp [hcl, hn] at h
      | returned u =>
        have hi := createSwapchain_images _ env hn
        have hc := createImageViews_counts (s.cleanup.state.createSwapchain env).state env
        simp only [hcl, hn]
        rw [hc.1, hc.2, hi]
        exact ⟨rfl, rfl⟩

/-! ## Renderer: the recreation -/

/-- The calls and the completion of the recreation do not depend on which
`CommandManager` the renderer holds. -/
theorem recreate_ignores_commandManager (r : Renderer) (c : Option CommandManager)
    (env : RecreateEnv) :
    (({ r with m_commandManager := c }).recreateSwapchainAndDependencies env).events =
      (r.recreateSwapchainAndDependencies env).events ∧
    (({ r with m_commandManager := c }).recreateSwapchainAndDependencies env).result =
      (r.recreateSwapchainAndDependencies env).result := by
  rcases env with ⟨f, senv⟩
  unfold Renderer.recreateSwapchainAndDependencies
  dsimp only
  generalize r.m_swapchain.recreate senv = sw
  rcases sw with ⟨res, st, evs⟩
  rcases f with _ | st2
  · cases res <;> exact ⟨rfl, rfl⟩
  · cases st2 <;> cases res <;> exact ⟨rfl, rfl⟩

/-- A recreation that gets past the idle-wait leaves a state that does not depend
on which `CommandManager` the renderer held. -/
theorem recreate_state_ignores_commandManager (r : Renderer) (c : Option CommandManager)
    (env : RecreateEnv) (h : env.failAt ≠ some .waitIdle) :
    (({ r with m_commandManager := c }).recreateSwapchainAndDependencies env).state =
      (r.recreateSwapchainAndDependencies env).state := by
  rcases env with ⟨f, senv⟩
  unfold Renderer.recreateSwapchainAndDependencies
  dsimp only
  generalize r.m_swapchain.recreate senv = sw
  rcases sw with ⟨res, st, evs⟩
  rcases f with _ | st2
  · cases res <;> rfl
  · cases st2 <;> cases res <;> first | rfl | exact absurd rfl h

/-- A recreation in which no step throws returns. -/
theorem recreate_returns (r : Renderer) (env : RecreateEnv) (h : env.failAt = none)
    (hsw : (r.m_swapchain.recreate env.swapchain).result = .returned ()) :
    (r.recreateSwapchainAndDependencies env).result = .returned () := by
  rcases env with ⟨f, senv⟩
  simp only at h hsw
  subst h
  unfold Renderer.recreateSwapchainAndDependencies
  dsimp only
  rw [hsw]
  rfl

/-- What a recreation that returns leaves: no step threw, the swapchain is the one
`SwapchainManager::recreate` left, there is one framebuffer per image view, the
`CommandManager` is a new one for the image count of the chain, and the resize
flag is clear. -/
theorem recreate_of_returned (r : Renderer) (env : RecreateEnv)
    (h : (r.recreateSwapchainAndDependencies env).result = .returned ()) :
    env.failAt = none ∧
    (r.m_swapchain.recreate env.swapchain).result = .returned () ∧
    (r.recreateSwapchainAndDependencies env).state.m_swapchain =
      (r.m_swapchain.recreate env.swapchain).state ∧
    (r.recreateSwapchainAndDependencies env).state.m_swapchainFramebuffers =
      (r.m_swapchain.recreate env.swapchain).state.m_swapchainImageViews.length ∧
    (r.recreateSwapchainAndDependencies env).state.m_commandManager =
      some (CommandManager.create MAX_FRAMES_IN_FLIGHT
        ((r.m_swapchain.recreate env.swapchain).state.m_swapchainImages.length % 4294967296)) ∧
    (r.recreateSwapchainAndDependencies env).state.m_framebufferResized = false := by
  rcases env with ⟨f, senv⟩
  unfold Renderer.recreateSwapchainAndDependencies at h ⊢
  dsimp only at h ⊢
  generalize r.m_swapchain.recreate senv = sw at h ⊢
  rcases sw with ⟨res, st, evs⟩
  rcases f with _ | st2
  · cases res
    · exact ⟨rfl, rfl, rfl, rfl, rfl, rfl⟩
    · simp at h
    · simp at h
  · cases st2 <;> cases res <;> simp at h

/-- A recreation that does not return leaves the resize flag as it was. -/
theorem recreate_keeps_flag_unless_returned (r : Renderer) (env : RecreateEnv)
    (h : (r.recreateSwapchainAndDependencies env).result ≠ .returned ()) :
    (r.recreateSwapchainAndDependencies env).state.m_framebufferResized =
      r.m_framebufferResized := by
  rcases env with ⟨f, senv⟩
  unfold Renderer.recreateSwapchainAndDependencies at h ⊢
  dsimp only at h ⊢
  generalize r.m_swapchain.recreate senv = sw at h ⊢
  rcases sw with ⟨res, st, evs⟩
  rcases f with _ | st2
  · cases res
    · exact absurd rfl h
    · rfl
    · rfl
  · cases st2 <;> cases res <;> rfl

/-- Every call of a recreation is a destruction of `cleanupDepthResources`, a call of
`SwapchainManager::recreate`, the idle wait, the destruction of the framebuffers,
a reset, or a creation. -/
theorem recreate_events_mem (r : Renderer) (env : RecreateEnv) :
    ∀ e ∈ (r.recreateSwapchainAndDependencies env).events,
      e ∈ cleanupDepthEvents r ∨ e ∈ (r.m_swapchain.recreate env.swapchain).events ∨
      e = .deviceWaitIdle ∨ e = .destroyFramebuffers r.m_swapchainFramebuffers ∨
      e = .commandManagerReset ∨ e = .pipelineManagerReset ∨ e = .swapchainRecreate ∨
      e = .createDepthResources ∨ (∃ n, e = .createFramebuffers n) ∨
      e = .createPipelineManager ∨ e = .createGraphicsPipeline ∨
      ∃ f n, e = .createCommandManager f n := by
  rcases env with ⟨f, senv⟩
  unfold Renderer.recreateSwapchainAndDependencies
  dsimp only
  generalize r.m_swapchain.recreate senv = sw
  rcases sw with ⟨res, st, evs⟩
  rcases f with _ | st2
  · cases res <;> (intro e he; simp at he; aesop)
  · cases st2 <;> cases res <;> (intro e he; simp at he; aesop)

/-- The calls of `cleanupDepthResources` are the three destructions of the depth
handles. -/
theorem cleanupDepth_mem (r : Renderer) :
    ∀ e ∈ cleanupDepthEvents r,
      e = .destroyDepthImageView ∨ e = .destroyDepthImage ∨ e = .freeDepthImageMemory := by
  simp only [cleanupDepthEvents]
  split_ifs <;> simp

/-- The calls of `cleanupDepthResources` are not draws or submissions. -/
theorem cleanupDepth_no_draw (r : Renderer) :
    ∀ e ∈ cleanupDepthEvents r, e.isDrawOrSubmit = false := by
  intro e he
  rcases cleanupDepth_mem r e he with rfl | rfl | rfl <;> rfl

/-- What holds of every call of `cleanupDepthResources`, of every call of
`SwapchainManager` and of the other steps of the recreation holds of every call
of the recreation. -/
theorem recreate_events_all (P : Event → Prop) (r : Renderer) (env : RecreateEnv)
    (hsw : ∀ e, e.isSwapchainCall = true → P e)
    (h1 : P .destroyDepthImageView) (h2 : P .destroyDepthImage) (h3 : P .freeDepthImageMemory)
    (h4 : P .deviceWaitIdle) (h5 : ∀ n, P (.destroyFramebuffers n))
    (h6 : P .commandManagerReset) (h7 : P .pipelineManagerReset) (h8 : P .swapchainRecreate)
    (h9 : P .createDepthResources) (h10 : ∀ n, P (.createFramebuffers n))
    (h11 : P .createPipelineManager) (h12 : P .createGraphicsPipeline)
    (h13 : ∀ f n, P (.createCommandManager f n)) :
    ∀ e ∈ (r.recreateSwapchainAndDependencies env).events, P e := by
  intro e he
  rcases recreate_events_mem r env e he with
    h | h | rfl | rfl | rfl | rfl | rfl | rfl | ⟨n, rfl⟩ | rfl | rfl | ⟨f, n, rfl⟩
  · rcases cleanupDepth_mem r e h with rfl | rfl | rfl <;> assumption
  · exact hsw e ((swapchain_isSwapchainCall r.m_swapchain env.swapchain).1 e h)
  · exact h4
  · exact h5 _
  · exact h6
  · exact h7
  · exact h8
  · exact h9
  · exact h10 n
  · exact h11
  · exact h12
  · exact h13 f n

/-- The recreation begins no render pass, records no draw, submits and presents
nothing. -/
theorem recreate_no_draw (r : Renderer) (env : RecreateEnv) :
    ∀ e ∈ (r.recreateSwapchainAndDependencies env).events, e.isDrawOrSubmit = false :=
  recreate_events_all (fun e => e.isDrawOrSubmit = false) r env
    (fun e h => (isSwapchainCall_spec e h).1) rfl rfl rfl rfl (fun _ => rfl) rfl rfl rfl rfl
    (fun _ => rfl) rfl rfl (fun _ _ => rfl)

/-- A `beginFrame` begins no render pass, records no draw, submits and presents
nothing. -/
theorem beginFrame_no_draw (s : CommandManager) (env : BeginFrameEnv) :
    ∀ e ∈ (s.beginFrame env).events, e.isDrawOrSubmit = false := by
  simp only [CommandManager.beginFrame]
  split_ifs <;> simp [Event.isDrawOrSubmit]

/-! ## Renderer: the draw loop -/

/-- The draw of one renderable does not depend on which `CommandManager` the
renderer holds. -/
theorem drawRenderable_ignores_commandManager (r : Renderer) (c : Option CommandManager)
    (slot currentFrame : Nat) (rb : Renderable) :
    drawRenderable { r with m_commandManager := c } slot currentFrame rb =
      drawRenderable r slot currentFrame rb := rfl

/-- The draw loop does not depend on which `CommandManager` the renderer holds. -/
theorem drawRenderables_ignores_commandManager (r : Renderer) (c : Option CommandManager)
    (slot currentFrame : Nat) (rbs : List Renderable) :
    drawRenderables { r with m_commandManager := c } slot currentFrame rbs =
      drawRenderables r slot currentFrame rbs := by
  induction rbs with
  | nil => rfl
  | cons rb rest ih =>
    simp only [drawRenderables, drawRenderable_ignores_commandManager, ih]

/-- Every call of the draw of one renderable is the update of its object slot, a
bind on the command buffer of the slot, or the draw call. -/
theorem drawRenderable_events_mem (r : Renderer) (slot currentFrame : Nat) (rb : Renderable) :
    ∀ e ∈ (drawRenderable r slot currentFrame rb).2,
      e = .updateObjectUBO rb.objectIndex ∨ e = .cmdBindPipeline slot ∨
      e = .cmdBindVertexBuffers slot ∨ e = .cmdBindIndexBuffer slot ∨
      e = .cmdBindDescriptorSets slot currentFrame rb.objectIndex ∨ e = .cmdDrawIndexed slot := by
  intro e he
  unfold drawRenderable at he
  dsimp only at he
  repeat' split at he
  all_goals
    simp only [List.mem_append, List.mem_cons, List.mem_singleton, List.not_mem_nil,
      or_false, false_or] at he <;> aesop

/-- Every call of the draw loop is the update of an object slot, a bind on the
command buffer of the slot, or a draw call. -/
theorem drawRenderables_events_mem (r : Renderer) (slot currentFrame : Nat)
    (rbs : List Renderable) :
    ∀ e ∈ (drawRenderables r slot currentFrame rbs).2,
      (∃ j, e = .updateObjectUBO j) ∨ e = .cmdBindPipeline slot ∨
      e = .cmdBindVertexBuffers slot ∨ e = .cmdBindIndexBuffer slot ∨
      (∃ j, e = .cmdBindDescriptorSets slot currentFrame j) ∨ e = .cmdDrawIndexed slot := by
  induction rbs with
  | nil => intro e he; simp [drawRenderables] at he
  | cons rb rest ih =>
    intro e he
    have h1 : ∀ e ∈ (drawRenderable r slot currentFrame rb).2,
        (∃ j, e = .updateObjectUBO j) ∨ e = .cmdBindPipeline slot ∨
        e = .cmdBindVertexBuffers slot ∨ e = .cmdBindIndexBuffer slot ∨
        (∃ j, e = .cmdBindDescriptorSets slot currentFrame j) ∨ e = .cmdDrawIndexed slot := by
      intro e he
      rcases drawRenderable_events_mem r slot currentFrame rb e he with h | h | h | h | h | h
      · exact Or.inl ⟨_, h⟩
      · exact Or.inr (Or.inl h)
      · exact Or.inr (Or.inr (Or.inl h))
      · exact Or.inr (Or.inr (Or.inr (Or.inl h)))
      · exact Or.inr (Or.inr (Or.inr (Or.inr (Or.inl ⟨_, h⟩))))
      · exact Or.inr (Or.inr (Or.inr (Or.inr (Or.inr h))))
    unfold drawRenderables at he
    split at he
    · exact h1 e he
    · exact h1 e he
    · rw [List.mem_append] at he
      rcases he with he | he
      · exact h1 e he
      · exact ih e he

/-- The draw loop waits on no fence, resets and begins no command buffer, and names
no render-finished semaphore. -/
theorem drawRenderables_spec (r : Renderer) (slot currentFrame : Nat) (rbs : List Renderable) :
    ∀ e ∈ (drawRenderables r slot currentFrame rbs).2,
      e.isWaitOrReset = false ∧ e.renderFinishedIndex = none := by
  intro e he
  rcases drawRenderables_events_mem r slot currentFrame rbs e he with
    ⟨j, rfl⟩ | rfl | rfl | rfl | ⟨j, rfl⟩ | rfl <;> exact ⟨rfl, rfl⟩

/-- The draw of a renderable whose object slot has its three allocations and its
instance of set 1, on a renderer that holds a pipeline manager and a descriptor
manager with the instance of set 0 of the frame: it returns after the six
calls. -/
theorem drawRenderable_of_slot (r : Renderer) (d : DescriptorManager) (slot currentFrame : Nat)
    (rb : Renderable) (allocations : List Nat) (h0 h1 : Nat)
    (hu : r.updateObjectUBO rb.objectIndex = some allocations)
    (hp : r.m_pipelineManager = true) (hd : r.m_descriptorManager = some d)
    (hs0 : d.getDescriptorSet 0 currentFrame = .returned h0)
    (hs1 : d.getDescriptorSet 1 rb.objectIndex = .returned h1) :
    drawRenderable r slot currentFrame rb =
      (.returned (),
       [.updateObjectUBO rb.objectIndex, .cmdBindPipeline slot, .cmdBindVertexBuffers slot,
        .cmdBindIndexBuffer slot, .cmdBindDescriptorSets slot currentFrame rb.objectIndex,
        .cmdDrawIndexed slot]) := by
  simp [drawRenderable, hu, hp, hd, hs0, hs1]

/-- The draw of a renderable whose object slot has no instance of set 1 (a slot
at or past the capacity of the set): `getDescriptorSet` throws, after the slot's
uniform buffers were written and before any draw is recorded. -/
theorem drawRenderable_of_slot_out_of_range (r : Renderer) (d : DescriptorManager)
    (slot currentFrame : Nat) (rb : Renderable) (allocations : List Nat) (h0 : Nat)
    (e : Exception)
    (hu : r.updateObjectUBO rb.objectIndex = some allocations)
    (hp : r.m_pipelineManager = true) (hd : r.m_descriptorManager = some d)
    (hs0 : d.getDescriptorSet 0 currentFrame = .returned h0)
    (hs1 : d.getDescriptorSet 1 rb.objectIndex = .thrown e) :
    drawRenderable r slot currentFrame rb =
      (.thrown e,
       [.updateObjectUBO rb.objectIndex, .cmdBindPipeline slot, .cmdBindVertexBuffers slot,
        .cmdBindIndexBuffer slot]) := by
  simp [drawRenderable, hu, hp, hd, hs0, hs1]

/-! ## Renderer: the paths of `render` -/

/-- With the resize flag set, `render` is the recreation. -/
theorem render_of_resized (r : Renderer) (scene : Scene) (env : RenderEnv)
    (h : r.m_framebufferResized = true) :
    r.render scene env = r.recreateSwapchainAndDependencies env.recreate := by
  simp [Renderer.render, h]

/-- When `beginFrame` throws, `render` goes straight to the recreation. -/
theorem render_of_beginFrame_thrown (r : Renderer) (cm : CommandManager)
    (scene : Scene) (env : RenderEnv) (e : Exception)
    (hflag : r.m_framebufferResized = false) (hcm : r.m_commandManager = some cm)
    (hb : (cm.beginFrame env.beginFrame).result = .thrown e) :
    r.render scene env =
      recreateAfter (cm.beginFrame env.beginFrame).events
        { r with m_commandManager := some (cm.beginFrame env.beginFrame).state } env.recreate := by
  simp [Renderer.render, hflag, hcm, hb]

/-- When `beginFrame` returns, `render` goes on outside any `try` block: an
exception of `Scene::getCamera`, of `commandBuffer.reset()` or of
`commandBuffer.begin()` leaves `render` before the bounds check on the image
index is reached, and no recreation is run.  This holds of every index
`beginFrame` returns, the not-ready sentinel included. -/
theorem render_of_exception_before_bounds_check (r : Renderer) (cm : CommandManager)
    (scene : Scene) (env : RenderEnv) (k : Nat)
    (hflag : r.m_framebufferResized = false) (hcm : r.m_commandManager = some cm)
    (hb : (cm.beginFrame env.beginFrame).result = .returned k) :
    (scene.m_camera = false →
      r.render scene env =
        ⟨.thrown .cameraNotSet,
         { r with m_commandManager := some (cm.beginFrame env.beginFrame).state },
         (cm.beginFrame env.beginFrame).events⟩) ∧
    (∀ a, scene.m_camera = true → r.m_frameAllocations[cm.getCurrentFrameIndex]? = some a →
      env.resetResult ≠ .eSuccess →
      r.render scene env =
        ⟨.thrown (.vkSystemError env.resetResult),
         { r with m_commandManager := some (cm.beginFrame env.beginFrame).state },
         (cm.beginFrame env.beginFrame).events ++
           [.cameraSetViewportSize, .updateFrameUBO cm.getCurrentFrameIndex,
            .cmdReset (cm.beginFrame env.beginFrame).state.getCurrentCommandBuffer]⟩) ∧
    (∀ a, scene.m_camera = true → r.m_frameAllocations[cm.getCurrentFrameIndex]? = some a →
      env.resetResult = .eSuccess → env.beginResult ≠ .eSuccess →
      r.render scene env =
        ⟨.thrown (.vkSystemError env.beginResult),
         { r with m_commandManager := some (cm.beginFrame env.beginFrame).state },
         (cm.beginFrame env.beginFrame).events ++
           [.cameraSetViewportSize, .updateFrameUBO cm.getCurrentFrameIndex,
            .cmdReset (cm.beginFrame env.beginFrame).state.getCurrentCommandBuffer,
            .cmdBegin (cm.beginFrame env.beginFrame).state.getCurrentCommandBuffer]⟩) := by
  refine ⟨?_, ?_, ?_⟩
  · intro hcam
    simp [Renderer.render, hflag, hcm, hb, hcam]
  · intro a hcam hal hreset
    simp [Renderer.render, hflag, hcm, hb, hcam, hal, hreset, resultCheck]
  · intro a hcam hal hreset hbegin
    simp [Renderer.render, hflag, hcm, hb, hcam, hal, hreset, hbegin, resultCheck]

/-- When `beginFrame` returns an index that is not below the number of
framebuffers, the scene has a camera and the command buffer of the current slot
is reset and begun with success, `render` then goes to the recreation. -/
theorem render_of_index_out_of_range (r : Renderer) (cm : CommandManager)
    (scene : Scene) (env : RenderEnv) (k a : Nat)
    (hflag : r.m_framebufferResized = false) (hcm : r.m_commandManager = some cm)
    (hb : (cm.beginFrame env.beginFrame).result = .returned k)
    (hcam : scene.m_camera = true)
    (hal : r.m_frameAllocations[cm.getCurrentFrameIndex]? = some a)
    (hreset : env.resetResult = .eSuccess) (hbegin : env.beginResult = .eSuccess)
    (hk : r.m_swapchainFramebuffers ≤ k) :
    r.render scene env =
      recreateAfter
        ((cm.beginFrame env.beginFrame).events ++
          [.cameraSetViewportSize, .updateFrameUBO cm.getCurrentFrameIndex,
           .cmdReset (cm.beginFrame env.beginFrame).state.getCurrentCommandBuffer,
           .cmdBegin (cm.beginFrame env.beginFrame).state.getCurrentCommandBuffer])
        { r with m_commandManager := some (cm.beginFrame env.beginFrame).state } env.recreate := by
  simp [Renderer.render, hflag, hcm, hb, hcam, hal, hreset, hbegin, resultCheck, hk]

/-- When `beginFrame` returns an index below the number of framebuffers, the
frame is recorded without an exception, and `endFrame` throws, `render` goes to
the recreation after the calls of `endFrame`. -/
theorem render_of_endFrame_thrown (r : Renderer) (cm : CommandManager)
    (scene : Scene) (env : RenderEnv) (k a : Nat) (e : Exception)
    (hflag : r.m_framebufferResized = false) (hcm : r.m_commandManager = some cm)
    (hb : (cm.beginFrame env.beginFrame).result = .returned k)
    (hcam : scene.m_camera = true)
    (hal : r.m_frameAllocations[cm.getCurrentFrameIndex]? = some a)
    (hreset : env.resetResult = .eSuccess) (hbegin : env.beginResult = .eSuccess)
    (hk : k < r.m_swapchainFramebuffers)
    (hdraw : (drawRenderables r (cm.beginFrame env.beginFrame).state.getCurrentCommandBuffer
      cm.getCurrentFrameIndex scene.m_renderables).1 = .returned ())
    (hend : env.endResult = .eSuccess)
    (he : ((cm.beginFrame env.beginFrame).state.endFrame
      (cm.beginFrame env.beginFrame).state.getCurrentCommandBuffer env.endFrame).result =
        .thrown e) :
    r.render scene env =
      recreateAfter
        ((cm.beginFrame env.beginFrame).events ++
          [.cameraSetViewportSize, .updateFrameUBO cm.getCurrentFrameIndex,
           .cmdReset (cm.beginFrame env.beginFrame).state.getCurrentCommandBuffer,
           .cmdBegin (cm.beginFrame env.beginFrame).state.getCurrentCommandBuffer] ++
          [.cmdBeginRenderPass (cm.beginFrame env.beginFrame).state.getCurrentCommandBuffer k,
           .cmdSetViewport (cm.beginFrame env.beginFrame).state.getCurrentCommandBuffer,
           .cmdSetScissor (cm.beginFrame env.beginFrame).state.getCurrentCommandBuffer] ++
          (drawRenderables r (cm.beginFrame env.beginFrame).state.getCurrentCommandBuffer
            cm.getCurrentFrameIndex scene.m_renderables).2 ++
          [.cmdEndRenderPass (cm.beginFrame env.beginFrame).state.getCurrentCommandBuffer,
           .cmdEnd (cm.beginFrame env.beginFrame).state.getCurrentCommandBuffer] ++
          ((cm.beginFrame env.beginFrame).state.endFrame
            (cm.beginFrame env.beginFrame).state.getCurrentCommandBuffer env.endFrame).events)
        { r with m_commandManager := some ((cm.beginFrame env.beginFrame).state.endFrame
            (cm.beginFrame env.beginFrame).state.getCurrentCommandBuffer env.endFrame).state }
        env.recreate := by
  have hge : ¬ (k ≥ r.m_swapchainFramebuffers) := by omega
  have hf : ¬ (r.m_framebufferResized = true) := by simp [hflag]
  unfold Renderer.render
  rw [if_neg hf]
  simp only [hcm, hb, drawRenderables_ignores_commandManager, hdraw, he, hcam, hal, hreset,
    hbegin, hend, hge, resultCheck, List.contains_cons, beq_self_eq_true, Bool.true_or,
    Bool.true_eq_false, if_false]
  simp only [List.append_assoc, List.cons_append, List.nil_append]

/-- A recreation run after the calls `before`, on a renderer holding any
`CommandManager`: the calls are `before` followed by those of the recreation, the
completion is that of the recreation, and so is the state once the idle-wait is
passed. -/
theorem recreateAfter_spec (before : List Event) (r : Renderer) (c : Option CommandManager)
    (env : RecreateEnv) :
    (recreateAfter before { r with m_commandManager := c } env).events =
      before ++ (r.recreateSwapchainAndDependencies env).events ∧
    (recreateAfter before { r with m_commandManager := c } env).result =
      (r.recreateSwapchainAndDependencies env).result ∧
    (env.failAt ≠ some .waitIdle →
      (recreateAfter before { r with m_commandManager := c } env).state =
        (r.recreateSwapchainAndDependencies env).state) := by
  refine ⟨?_, ?_, ?_⟩
  · show before ++ _ = before ++ _
    rw [(recreate_ignores_commandManager r c env).1]
  · exact (recreate_ignores_commandManager r c env).2
  · exact recreate_state_ignores_commandManager r c env

/-- A list that starts with `b` is `b` followed by a rest. -/
theorem exists_rest (b l : List Event) (P : Event → Prop) (h : ∀ e ∈ l, P e) :
    ∃ rest, b ++ l = b ++ rest ∧ ∀ e ∈ rest, P e := ⟨l, rfl, h⟩

set_option maxHeartbeats 1000000 in
/-- The calls of `render` on a renderer whose resize flag is clear: those of
`beginFrame`, then calls each of which is a call of the recreation, or, only
when `beginFrame` returned, one of the four calls before the bounds check, or,
only when `beginFrame` returned an index below the number of framebuffers, a call
that records the frame or a call of `endFrame`. -/
theorem render_events_split (r : Renderer) (cm : CommandManager) (scene : Scene)
    (env : RenderEnv) (hflag : r.m_framebufferResized = false)
    (hcm : r.m_commandManager = some cm) :
    ∃ rest, (r.render scene env).events = (cm.beginFrame env.beginFrame).events ++ rest ∧
      ∀ e ∈ rest,
        e ∈ (r.recreateSwapchainAndDependencies env.recreate).events ∨
        ((∃ k, (cm.beginFrame env.beginFrame).result = .returned k) ∧
          (e = .cameraSetViewportSize ∨ e = .updateFrameUBO cm.getCurrentFrameIndex ∨
           e = .cmdReset (cm.beginFrame env.beginFrame).state.getCurrentCommandBuffer ∨
           e = .cmdBegin (cm.beginFrame env.beginFrame).state.getCurrentCommandBuffer)) ∨
        ((∃ k, (cm.beginFrame env.beginFrame).result = .returned k ∧
            k < r.m_swapchainFramebuffers) ∧
          (e ∈ (drawRenderables r
              (cm.beginFrame env.beginFrame).state.getCurrentCommandBuffer
              cm.getCurrentFrameIndex scene.m_renderables).2 ∨
           e ∈ ((cm.beginFrame env.beginFrame).state.endFrame
              (cm.beginFrame env.beginFrame).state.getCurrentCommandBuffer env.endFrame).events ∨
           (∃ k, e = .cmdBeginRenderPass
              (cm.beginFrame env.beginFrame).state.getCurrentCommandBuffer k) ∨
           e = .cmdSetViewport (cm.beginFrame env.beginFrame).state.getCurrentCommandBuffer ∨
           e = .cmdSetScissor (cm.beginFrame env.beginFrame).state.getCurrentCommandBuffer ∨
           e = .cmdEndRenderPass (cm.beginFrame env.beginFrame).state.getCurrentCommandBuffer ∨
           e = .cmdEnd (cm.beginFrame env.beginFrame).state.getCurrentCommandBuffer)) := by
  have hf : ¬ (r.m_framebufferResized = true) := by simp [hflag]
  have hrec : ∀ (before : List Event) (c : Option CommandManager),
      (recreateAfter before { r with m_commandManager := c } env.recreate).events =
        before ++ (r.recreateSwapchainAndDependencies env.recreate).events :=
    fun before c => (recreateAfter_spec before r c env.recreate).1
  unfold Renderer.render
  rw [if_neg hf]
  simp only [hcm, drawRenderables_ignores_commandManager]
  split
  · exact ⟨[], by simp, by simp⟩
  · rw [hrec]
    exact ⟨_, rfl, fun e he => Or.inl he⟩
  · rename_i k hb
    have hk1 : ∃ k, (cm.beginFrame env.beginFrame).result = .returned k := ⟨k, hb⟩
    split
    · exact ⟨[], by simp, by simp⟩
    split
    · exact ⟨[_], rfl, by simp [hk1]⟩
    split
    · exact ⟨_, List.append_assoc _ _ _, by simp [hk1]⟩
    split
    · simp only [List.append_assoc]
      apply exists_rest
      simp [hk1]
    split
    · rw [hrec]
      simp only [List.append_assoc]
      apply exists_rest
      intro e he
      simp only [List.mem_append, List.mem_cons, List.mem_singleton, List.not_mem_nil,
        or_false, List.cons_append, List.nil_append] at he
      simp only [hk1, true_and]
      rcases he with he | he | he | he | he
      · exact Or.inr (Or.inl (Or.inl he))
      · exact Or.inr (Or.inl (Or.inr (Or.inl he)))
      · exact Or.inr (Or.inl (Or.inr (Or.inr (Or.inl he))))
      · exact Or.inr (Or.inl (Or.inr (Or.inr (Or.inr he))))
      · exact Or.inl he
    rename_i hk
    have hk2 : ∃ k, (cm.beginFrame env.beginFrame).result = .returned k ∧
        k < r.m_swapchainFramebuffers := ⟨k, hb, by simpa using hk⟩
    split
    · simp only [List.append_assoc]
      apply exists_rest
      intro e he
      simp only [List.mem_append, List.mem_cons, List.mem_singleton, List.not_mem_nil,
        or_false, List.cons_append, List.nil_append] at he
      simp only [hk1, hk2, true_and]
      aesop
    · simp only [List.append_assoc]
      apply exists_rest
      intro e he
      simp only [List.mem_append, List.mem_cons, List.mem_singleton, List.not_mem_nil,
        or_false, List.cons_append, List.nil_append] at he
      simp only [hk1, hk2, true_and]
      aesop
    split
    · simp only [List.append_assoc]
      apply exists_rest
      intro e he
      simp only [List.mem_append, List.mem_cons, List.mem_singleton, List.not_mem_nil,
        or_false, List.cons_append, List.nil_append] at he
      simp only [hk1, hk2, true_and]
      aesop
    split
    · simp only [List.append_assoc]
      apply exists_rest
      intro e he
      simp only [List.mem_append, List.mem_cons, List.mem_singleton, List.not_mem_nil,
        or_false, List.cons_append, List.nil_append] at he
      simp only [hk1, hk2, true_and]
      aesop
    · rw [hrec]
      simp only [List.append_assoc]
      apply exists_rest
      intro e he
      simp only [List.mem_append, List.mem_cons, List.mem_singleton, List.not_mem_nil,
        or_false, List.cons_append, List.nil_append] at he
      simp only [hk1, hk2, true_and]
      aesop
    · simp only [List.append_assoc]
      apply exists_rest
      intro e he
      simp only [List.mem_append, List.mem_cons, List.mem_singleton, List.not_mem_nil,
        or_false, List.cons_append, List.nil_append] at he
      simp only [hk1, hk2, true_and]
      aesop

/-- How a `render` call on a renderer whose resize flag is clear ends: in a
recreation, or without returning, or, when `beginFrame` returned an index below
the number of framebuffers, after `endFrame` with the renderer changed only in
its `CommandManager`. -/
theorem render_outcome_cases (r : Renderer) (cm : CommandManager) (scene : Scene)
    (env : RenderEnv) (hflag : r.m_framebufferResized = false)
    (hcm : r.m_commandManager = some cm) :
    (∃ before c, r.render scene env =
      recreateAfter before { r with m_commandManager := c } env.recreate) ∨
    (r.render scene env).result ≠ .returned () ∨
    (∃ k, (cm.beginFrame env.beginFrame).result = .returned k ∧
      k < r.m_swapchainFramebuffers ∧
      (r.render scene env).state =
        { r with m_commandManager := some ((cm.beginFrame env.beginFrame).state.endFrame
          (cm.beginFrame env.beginFrame).state.getCurrentCommandBuffer env.endFrame).state }) := by
  have hf : ¬ (r.m_framebufferResized = true) := by simp [hflag]
  unfold Renderer.render
  rw [if_neg hf]
  simp only [hcm]
  split
  · exact Or.inr (Or.inl (by simp))
  · exact Or.inl ⟨_, _, rfl⟩
  · rename_i k hb
    split
    · exact Or.inr (Or.inl (by simp))
    split
    · exact Or.inr (Or.inl (by simp))
    split
    · exact Or.inr (Or.inl (by simp))
    split
    · exact Or.inr (Or.inl (by simp))
    split
    · exact Or.inl ⟨_, _, rfl⟩
    rename_i hk
    split
    · exact Or.inr (Or.inl (by simp))
    · exact Or.inr (Or.inl (by simp))
    split
    · exact Or.inr (Or.inl (by simp))
    split
    · exact Or.inr (Or.inl (by simp))
    · exact Or.inl ⟨_, _, rfl⟩
    · exact Or.inr (Or.inr ⟨k, hb, by simpa using hk, rfl⟩)

/-! ## Renderer: claims on `render` -/

/-- Claim C1, evaluated where it fails: on a freshly constructed renderer, a
`render` call whose fence wait times out goes on to reset and begin the command
buffer of slot 0 before the bounds check on the image index sends it to the
recreation; the only fence wait of the call returned a timeout, so the
wait-then-reset discipline is broken. -/
theorem render_resets_command_buffer_after_timeout :
    ((Renderer.fresh false 3).render emptyScene timeoutEnv).events.take 5 =
      [.waitForFences 0 fenceTimeoutNs .eTimeout, .cameraSetViewportSize, .updateFrameUBO 0,
       .cmdReset 0, .cmdBegin 0] ∧
    resetsFollowWait [] ((Renderer.fresh false 3).render emptyScene timeoutEnv).events = false := by
  decide

/-- Claim C9, evaluated where it fails: on a freshly constructed renderer, in a
`render` call whose fence wait times out, so that `beginFrame` returns the
not-ready sentinel, and whose `commandBuffer.reset()` reports an error, the
exception of the reset leaves `render`: the call ends by that exception after
the fence wait, the camera update, the copy of the frame uniform buffer and the
reset, none of which belongs to the recreation, and the renderer keeps the
chain, the framebuffers and the `CommandManager` it had.  The recreation, had it
been run, would have returned. -/
theorem render_throws_after_timeout_when_reset_fails :
    ((Renderer.fresh false 3).render twoRenderables timeoutResetFailsEnv).result =
      .thrown (.vkSystemError .eErrorOutOfDeviceMemory) ∧
    ((Renderer.fresh false 3).render twoRenderables timeoutResetFailsEnv).events =
      [.waitForFences 0 fenceTimeoutNs .eTimeout, .cameraSetViewportSize, .updateFrameUBO 0,
       .cmdReset 0] ∧
    ((Renderer.fresh false 3).render twoRenderables timeoutResetFailsEnv).state.m_swapchain =
      (Renderer.fresh false 3).m_swapchain ∧
    ((Renderer.fresh false 3).render twoRenderables
      timeoutResetFailsEnv).state.m_swapchainFramebuffers = 3 ∧
    ((Renderer.fresh false 3).render twoRenderables
      timeoutResetFailsEnv).state.m_commandManager =
        some (CommandManager.create MAX_FRAMES_IN_FLIGHT 3) ∧
    ((Renderer.fresh false 3).recreateSwapchainAndDependencies
      timeoutResetFailsEnv.recreate).result = .returned () := by
  decide

/-- Claim C10, evaluated where it fails: on a freshly constructed renderer, in a
`render` call whose fence wait times out, so that `beginFrame` yields the
not-ready sentinel, and whose `commandBuffer.begin()` reports an error, `render`
neither performs the recreation nor returns: it ends by the exception of
`begin()` after five calls, none of them the idle wait that opens the
recreation, and the renderer keeps the chain, the framebuffers and the
`CommandManager` it had.  It begins no render pass, records no draw and issues
neither call of `endFrame`. -/
theorem render_skips_recreation_when_begin_fails_after_timeout :
    ((Renderer.fresh false 3).render twoRenderables timeoutBeginFailsEnv).result =
      .thrown (.vkSystemError .eErrorOutOfHostMemory) ∧
    ((Renderer.fresh false 3).render twoRenderables timeoutBeginFailsEnv).events =
      [.waitForFences 0 fenceTimeoutNs .eTimeout, .cameraSetViewportSize, .updateFrameUBO 0,
       .cmdReset 0, .cmdBegin 0] ∧
    Event.deviceWaitIdle ∉
      ((Renderer.fresh false 3).render twoRenderables timeoutBeginFailsEnv).events ∧
    ((Renderer.fresh false 3).render twoRenderables timeoutBeginFailsEnv).state.m_swapchain =
      (Renderer.fresh false 3).m_swapchain ∧
    ((Renderer.fresh false 3).render twoRenderables
      timeoutBeginFailsEnv).state.m_swapchainFramebuffers = 3 ∧
    ((Renderer.fresh false 3).render twoRenderables
      timeoutBeginFailsEnv).state.m_commandManager =
        some (CommandManager.create MAX_FRAMES_IN_FLIGHT 3) ∧
    (∀ e ∈ ((Renderer.fresh false 3).render twoRenderables timeoutBeginFailsEnv).events,
      e.isDrawOrSubmit = false) := by
  decide

/-- A scene without a camera on a freshly constructed renderer, in a `render` call
in which every driver call succeeds: `Scene::getCamera` throws right after
`beginFrame`, and the exception leaves `render` with the acquired image neither
drawn to nor presented. -/
theorem render_without_camera_throws :
    ((Renderer.fresh false 3).render sceneWithoutCamera successEnv).result =
      .thrown .cameraNotSet ∧
    ((Renderer.fresh false 3).render sceneWithoutCamera successEnv).events =
      [.waitForFences 0 fenceTimeoutNs .eSuccess,
       .acquireNextImageKHR (.imageAvailable 0) .eSuccess, .resetFences 0] := by
  decide

/-! ## Renderer: what holds of the transient errors -/

/-- A transient frame error does not leave `render` once the scene has a camera
and the command buffer is reset and begun with success.  On a renderer whose
resize flag is clear and whose recreation returns, if (a) `beginFrame` returns
the not-ready sentinel, the scene has a camera, the frame allocation is there
and `reset()` and `begin()` succeed, or (b) `beginFrame` throws (on an
acquisition failure or otherwise), or (c) `beginFrame` returns a valid image
index, the frame is recorded without an exception and `endFrame` throws (in
submit or in present), then `render` runs the recreation as its last step, ends
in the state the recreation leaves, and returns normally.  The number of
framebuffers is that of the images of a swapchain, a `uint32_t`. -/
theorem render_recovers_when_recording_succeeds (r : Renderer) (cm : CommandManager)
    (scene : Scene) (env : RenderEnv)
    (hflag : r.m_framebufferResized = false) (hcm : r.m_commandManager = some cm)
    (hfb : r.m_swapchainFramebuffers ≤ UINT32_MAX)
    (hrec : (r.recreateSwapchainAndDependencies env.recreate).result = .returned ())
    (herr :
      ((cm.beginFrame env.beginFrame).result = .returned UINT32_MAX ∧
        scene.m_camera = true ∧ (∃ a, r.m_frameAllocations[cm.getCurrentFrameIndex]? = some a) ∧
        env.resetResult = .eSuccess ∧ env.beginResult = .eSuccess) ∨
      (∃ e, (cm.beginFrame env.beginFrame).result = .thrown e) ∨
      (∃ k e, (cm.beginFrame env.beginFrame).result = .returned k ∧
        k < r.m_swapchainFramebuffers ∧
        scene.m_camera = true ∧ (∃ a, r.m_frameAllocations[cm.getCurrentFrameIndex]? = some a) ∧
        env.resetResult = .eSuccess ∧ env.beginResult = .eSuccess ∧
        (drawRenderables r (cm.beginFrame env.beginFrame).state.getCurrentCommandBuffer
          cm.getCurrentFrameIndex scene.m_renderables).1 = .returned () ∧
        env.endResult = .eSuccess ∧
        ((cm.beginFrame env.beginFrame).state.endFrame
          (cm.beginFrame env.beginFrame).state.getCurrentCommandBuffer env.endFrame).result =
            .thrown e)) :
    (r.render scene env).result = .returned () ∧
    (∃ before, (r.render scene env).events =
      before ++ (r.recreateSwapchainAndDependencies env.recreate).events) ∧
    (r.render scene env).state = (r.recreateSwapchainAndDependencies env.recreate).state := by
  have hw : env.recreate.failAt ≠ some .waitIdle := by
    rw [(recreate_of_returned r env.recreate hrec).1]
    simp
  have key : ∀ before c,
      r.render scene env = recreateAfter before { r with m_commandManager := c } env.recreate →
      (r.render scene env).result = .returned () ∧
      (∃ before, (r.render scene env).events =
        before ++ (r.recreateSwapchainAndDependencies env.recreate).events) ∧
      (r.render scene env).state =
        (r.recreateSwapchainAndDependencies env.recreate).state := by
    intro before c h
    have hs := recreateAfter_spec before r c env.recreate
    rw [h]
    exact ⟨hs.2.1.trans hrec, ⟨before, hs.1⟩, hs.2.2 hw⟩
  rcases herr with ⟨ha, hcam, ⟨a, hal⟩, hreset, hbegin⟩ | ⟨e, hb⟩ |
    ⟨k, e, hk, hlt, hcam, ⟨a, hal⟩, hreset, hbegin, hdraw, hend, he⟩
  · exact key _ _ (render_of_index_out_of_range r cm scene env UINT32_MAX a hflag hcm ha hcam
      hal hreset hbegin hfb)
  · exact key _ _ (render_of_beginFrame_thrown r cm scene env e hflag hcm hb)
  · exact key _ _ (render_of_endFrame_thrown r cm scene env k a e hflag hcm hk hcam hal hreset
      hbegin hlt hdraw hend he)

/-- The three transient errors on a freshly constructed renderer and a scene of
two renderables, when the command buffer is reset and begun with success: a
fence-wait timeout, an out-of-date acquisition and an out-of-date presentation
each end in a normal return. -/
theorem render_recovers_when_recording_succeeds_on_fresh :
    ((Renderer.fresh false 3).render twoRenderables timeoutEnv).result = .returned () ∧
    ((Renderer.fresh false 3).render twoRenderables acquireOutOfDateEnv).result =
      .returned () ∧
    ((Renderer.fresh false 3).render twoRenderables presentOutOfDateEnv).result =
      .returned () := by
  decide

/-- No drawing on stale resources: if the resize flag is set when `render` is
called, or `beginFrame` yields the not-ready sentinel, or `beginFrame` fails to
acquire an image, then that `render` call begins no render pass, records no
draw, and issues neither the submission nor the presentation request of
`endFrame`, however it ends.  With the flag set or the acquisition failing it
ends with the recreation and completes as the recreation completes; on the
sentinel it does so when the scene has a camera, the frame allocation is there
and `reset()` and `begin()` succeed.  The number of framebuffers is that of the
images of a swapchain, a `uint32_t`. -/
theorem render_draws_nothing_on_stale_resources (r : Renderer) (scene : Scene)
    (env : RenderEnv) (hfb : r.m_swapchainFramebuffers ≤ UINT32_MAX)
    (h : r.m_framebufferResized = true ∨
      ∃ cm, r.m_commandManager = some cm ∧
        ((cm.beginFrame env.beginFrame).result = .returned UINT32_MAX ∨
         (cm.beginFrame env.beginFrame).result = .thrown .failedToAcquireImage)) :
    (∀ e ∈ (r.render scene env).events, e.isDrawOrSubmit = false) ∧
    ((r.m_framebufferResized = true ∨
      (∃ cm, r.m_commandManager = some cm ∧
        ((cm.beginFrame env.beginFrame).result = .thrown .failedToAcquireImage ∨
         ((cm.beginFrame env.beginFrame).result = .returned UINT32_MAX ∧
          scene.m_camera = true ∧
          (∃ a, r.m_frameAllocations[cm.getCurrentFrameIndex]? = some a) ∧
          env.resetResult = .eSuccess ∧ env.beginResult = .eSuccess)))) →
      (∃ before, (r.render scene env).events =
        before ++ (r.recreateSwapchainAndDependencies env.recreate).events) ∧
      (r.render scene env).result =
        (r.recreateSwapchainAndDependencies env.recreate).result) := by
  have hnd := recreate_no_draw r env.recreate
  by_cases hflag : r.m_framebufferResized = true
  · rw [render_of_resized r scene env hflag]
    exact ⟨hnd, fun _ => ⟨⟨[], rfl⟩, rfl⟩⟩
  · have hflag2 : r.m_framebufferResized = false := by simpa using hflag
    constructor
    · rcases h with h | ⟨cm, hcm, hb⟩
      · exact absurd h hflag
      · obtain ⟨rest, hev, hrest⟩ := render_events_split r cm scene env hflag2 hcm
        have hno : ¬ ∃ k, (cm.beginFrame env.beginFrame).result = .returned k ∧
            k < r.m_swapchainFramebuffers := by
          rintro ⟨k, hk, hlt⟩
          rcases hb with hb | hb
          · rw [hb] at hk
            cases hk
            omega
          · rw [hb] at hk
            cases hk
        intro e he
        rw [hev, List.mem_append] at he
        rcases he with he | he
        · exact beginFrame_no_draw cm env.beginFrame e he
        · rcases hrest e he with h1 | ⟨_, rfl | rfl | rfl | rfl⟩ | ⟨h3, _⟩
          · exact hnd e h1
          · rfl
          · rfl
          · rfl
          · rfl
          · exact absurd h3 hno
    · intro h2
      have key : ∀ before c,
          r.render scene env =
            recreateAfter before { r with m_commandManager := c } env.recreate →
          (∃ before, (r.render scene env).events =
            before ++ (r.recreateSwapchainAndDependencies env.recreate).events) ∧
          (r.render scene env).result =
            (r.recreateSwapchainAndDependencies env.recreate).result := by
        intro before c h
        have hs := recreateAfter_spec before r c env.recreate
        rw [h]
        exact ⟨⟨before, hs.1⟩, hs.2.1⟩
      rcases h2 with h2 | ⟨cm, hcm, hb | ⟨ha, hcam, ⟨a, hal⟩, hreset, hbegin⟩⟩
      · exact absurd h2 hflag
      · exact key _ _ (render_of_beginFrame_thrown r cm scene env _ hflag2 hcm hb)
      · exact key _ _ (render_of_index_out_of_range r cm scene env UINT32_MAX a hflag2 hcm ha
          hcam hal hreset hbegin hfb)

/-- The resize flag set on a freshly constructed renderer with a scene of two
renderables, and a fence-wait timeout with the flag clear: no draw is recorded
and nothing is submitted; a frame in which every call succeeds records two
draws and a render pass and submits and presents. -/
theorem render_draws_nothing_on_stale_resources_on_fresh :
    (∀ e ∈ ((Renderer.fresh true 3).render twoRenderables successEnv).events,
      e.isDrawOrSubmit = false) ∧
    (∀ e ∈ ((Renderer.fresh false 3).render twoRenderables timeoutEnv).events,
      e.isDrawOrSubmit = false) ∧
    ((Renderer.fresh false 3).render twoRenderables successEnv).events.countP
      Event.isDrawOrSubmit = 5 :=
  ⟨(render_draws_nothing_on_stale_resources (Renderer.fresh true 3) twoRenderables successEnv
      (by decide) (Or.inl rfl)).1,
   (render_draws_nothing_on_stale_resources (Renderer.fresh false 3) twoRenderables timeoutEnv
      (by decide) (Or.inr ⟨CommandManager.create MAX_FRAMES_IN_FLIGHT 3, rfl, Or.inl rfl⟩)).1,
   by decide⟩

/-! ## Renderer: the fence/slot discipline outside the timeout path -/

/-- Calls that are neither fence waits nor command-buffer resets or begins do not
matter to the discipline. -/
theorem resetsFollowWait_append (l l2 : List Event) (h : ∀ e ∈ l, e.isWaitOrReset = false) :
    ∀ w, resetsFollowWait w (l ++ l2) = resetsFollowWait w l2 := by
  induction l with
  | nil => intro w; rfl
  | cons e es ih =>
    intro w
    have he : e.isWaitOrReset = false := h e (List.mem_cons_self _ _)
    have ih2 := ih (fun x hx => h x (List.mem_cons_of_mem _ hx)) w
    cases e <;> first
      | (simp [Event.isWaitOrReset] at he; done)
      | simpa [resetsFollowWait] using ih2

/-- The discipline holds of calls none of which is a wait, a reset or a begin. -/
theorem resetsFollowWait_of_none (l : List Event) (h : ∀ e ∈ l, e.isWaitOrReset = false)
    (w : List Nat) : resetsFollowWait w l = true := by
  have := resetsFollowWait_append l [] h w
  rw [List.append_nil] at this
  rw [this]
  rfl

/-- The discipline holds of calls each of which is neither a wait nor a reset nor a
begin, or is the reset or the begin of the command buffer of a slot already
waited on. -/
theorem resetsFollowWait_of_waited (i : Nat) (w : List Nat) (hi : i ∈ w) (l : List Event)
    (h : ∀ e ∈ l, e.isWaitOrReset = false ∨ e = .cmdReset i ∨ e = .cmdBegin i) :
    resetsFollowWait w l = true := by
  induction l with
  | nil => rfl
  | cons e es ih =>
    have ih2 := ih (fun x hx => h x (List.mem_cons_of_mem _ hx))
    rcases h e (List.mem_cons_self _ _) with he | rfl | rfl
    · have := resetsFollowWait_append [e] es (by simpa using he) w
      simpa [ih2] using this
    · simp [resetsFollowWait, ih2, hi]
    · simp [resetsFollowWait, ih2, hi]

/-- The recreation waits on no fence and resets or begins no command buffer. -/
theorem recreate_no_wait_or_reset (r : Renderer) (env : RecreateEnv) :
    ∀ e ∈ (r.recreateSwapchainAndDependencies env).events, e.isWaitOrReset = false :=
  recreate_events_all (fun e => e.isWaitOrReset = false) r env
    (fun e h => (isSwapchainCall_spec e h).2.1) rfl rfl rfl rfl (fun _ => rfl) rfl rfl rfl rfl
    (fun _ => rfl) rfl rfl (fun _ _ => rfl)

/-- The calls of `endFrame` wait on no fence and reset or begin no command buffer. -/
theorem endFrame_no_wait_or_reset (s : CommandManager) (cb : Nat) (env : EndFrameEnv) :
    ∀ e ∈ (s.endFrame cb env).events, e.isWaitOrReset = false := by
  rw [endFrame_events]
  split_ifs <;> simp [Event.isWaitOrReset]

/-- The calls of a `beginFrame`, seen by the discipline: its fence wait counts for
the current slot when it returned success. -/
theorem beginFrame_resetsFollowWait (s : CommandManager) (env : BeginFrameEnv) (l : List Event)
    (w : List Nat) :
    resetsFollowWait w ((s.beginFrame env).events ++ l) =
      resetsFollowWait
        (if env.waitResult = .eSuccess then s.m_currentFrameIndex :: w else w) l := by
  simp only [CommandManager.beginFrame]
  split_ifs <;> simp_all [resetsFollowWait]

/-- A `beginFrame` returns only after a wait that succeeded or timed out. -/
theorem beginFrame_returned_wait (s : CommandManager) (env : BeginFrameEnv) (k : Nat)
    (h : (s.beginFrame env).result = .returned k) :
    env.waitResult = .eSuccess ∨ env.waitResult = .eTimeout := by
  simp only [CommandManager.beginFrame] at h
  split_ifs at h <;> simp_all

/-- On every path of `render` on which the fence wait does not time out, however
the call ends, each reset and begin of a command buffer follows a successful
wait on the fence of the same slot. -/
theorem render_resets_follow_wait_unless_timeout (r : Renderer) (scene : Scene)
    (env : RenderEnv) (h : env.beginFrame.waitResult ≠ .eTimeout) :
    resetsFollowWait [] (r.render scene env).events = true := by
  by_cases hflag : r.m_framebufferResized = true
  · rw [render_of_resized r scene env hflag]
    exact resetsFollowWait_of_none _ (recreate_no_wait_or_reset r _) _
  · have hflag2 : r.m_framebufferResized = false := by simpa using hflag
    cases hcm : r.m_commandManager with
    | none => simp [Renderer.render, hflag2, hcm, resetsFollowWait]
    | some cm =>
      have hslot : (cm.beginFrame env.beginFrame).state.getCurrentCommandBuffer =
          cm.m_currentFrameIndex := beginFrame_keeps_frame_index cm env.beginFrame
      obtain ⟨rest, hev, hrest⟩ := render_events_split r cm scene env hflag2 hcm
      rw [hev, beginFrame_resetsFollowWait]
      have hother : ∀ e ∈ rest, (¬ ∃ k, (cm.beginFrame env.beginFrame).result = .returned k) →
          e.isWaitOrReset = false := by
        intro e he hno
        rcases hrest e he with h1 | ⟨h2, _⟩ | ⟨⟨k, hk, _⟩, _⟩
        · exact recreate_no_wait_or_reset r _ e h1
        · exact absurd h2 hno
        · exact absurd ⟨k, hk⟩ hno
      by_cases hret : ∃ k, (cm.beginFrame env.beginFrame).result = .returned k
      · obtain ⟨k, hk⟩ := hret
        have hw : env.beginFrame.waitResult = .eSuccess := by
          rcases beginFrame_returned_wait cm env.beginFrame k hk with hw | hw
          · exact hw
          · exact absurd hw h
        rw [if_pos hw]
        apply resetsFollowWait_of_waited cm.m_currentFrameIndex _ (List.mem_singleton.mpr rfl)
        intro e he
        rw [hslot] at hrest
        rcases hrest e he with h1 | ⟨_, h2 | h2 | h2 | h2⟩ | ⟨_, h3⟩
        · exact Or.inl (recreate_no_wait_or_reset r _ e h1)
        · subst h2; exact Or.inl rfl
        · subst h2; exact Or.inl rfl
        · exact Or.inr (Or.inl h2)
        · exact Or.inr (Or.inr h2)
        · rcases h3 with h3 | h3 | ⟨j, rfl⟩ | rfl | rfl | rfl | rfl
          · exact Or.inl (drawRenderables_spec r _ _ _ e h3).1
          · exact Or.inl (endFrame_no_wait_or_reset _ _ _ e h3)
          all_goals exact Or.inl rfl
      · exact resetsFollowWait_of_none rest (fun e he => hother e he hret) _

/-! ## The two places where the code leaves the stated discipline, in general -/

/-- Whenever the queue rejects the submission, `endFrame` throws out of the
submit call with the object untouched: the frame-slot index is not advanced. -/
theorem endFrame_submit_failure_state (s : CommandManager) (cb : Nat) (env : EndFrameEnv)
    (h : env.submitResult ≠ .eSuccess) :
    (s.endFrame cb env).result = .thrown (.vkSystemError env.submitResult) ∧
    (s.endFrame cb env).state = s := by
  simp [CommandManager.endFrame, resultCheck, h]

/-- Whenever the fence wait times out on a renderer whose resize flag is clear,
`render` goes on to `Scene::getCamera`, to the copy of the frame uniform buffer
and to the reset of the command buffer of the current slot right after the
timed-out wait; when these and the begin of the command buffer succeed, it only
then runs the recreation. -/
theorem render_after_timeout_events (r : Renderer) (cm : CommandManager)
    (scene : Scene) (env : RenderEnv) (a : Nat)
    (hflag : r.m_framebufferResized = false) (hcm : r.m_commandManager = some cm)
    (hfb : r.m_swapchainFramebuffers ≤ UINT32_MAX)
    (hw : env.beginFrame.waitResult = .eTimeout)
    (hcam : scene.m_camera = true)
    (hal : r.m_frameAllocations[cm.getCurrentFrameIndex]? = some a)
    (hreset : env.resetResult = .eSuccess) (hbegin : env.beginResult = .eSuccess) :
    (r.render scene env).events =
      [.waitForFences cm.m_currentFrameIndex fenceTimeoutNs .eTimeout, .cameraSetViewportSize,
       .updateFrameUBO cm.m_currentFrameIndex, .cmdReset cm.m_currentFrameIndex,
       .cmdBegin cm.m_currentFrameIndex] ++
      (r.recreateSwapchainAndDependencies env.recreate).events := by
  have hb : (cm.beginFrame env.beginFrame).result = .returned UINT32_MAX := by
    simp [CommandManager.beginFrame, resultCheck, hw]
  have hev : (cm.beginFrame env.beginFrame).events =
      [.waitForFences cm.m_currentFrameIndex fenceTimeoutNs .eTimeout] := by
    simp [CommandManager.beginFrame, resultCheck, hw]
  rw [render_of_index_out_of_range r cm scene env UINT32_MAX a hflag hcm hb hcam hal hreset
      hbegin hfb,
    (recreateAfter_spec _ r _ env.recreate).1, hev]
  have hslot : (cm.beginFrame env.beginFrame).state.getCurrentCommandBuffer =
      cm.m_currentFrameIndex := beginFrame_keeps_frame_index cm env.beginFrame
  rw [hslot]
  rfl

/-- Whenever the fence wait times out on a renderer whose resize flag is clear and
the reset of the command buffer reports an error, `render` ends by the exception
of the reset, with the calls of the recreation not issued. -/
theorem render_after_timeout_reset_failure (r : Renderer) (cm : CommandManager)
    (scene : Scene) (env : RenderEnv) (a : Nat)
    (hflag : r.m_framebufferResized = false) (hcm : r.m_commandManager = some cm)
    (hw : env.beginFrame.waitResult = .eTimeout)
    (hcam : scene.m_camera = true)
    (hal : r.m_frameAllocations[cm.getCurrentFrameIndex]? = some a)
    (hreset : env.resetResult ≠ .eSuccess) :
    (r.render scene env).result = .thrown (.vkSystemError env.resetResult) ∧
    (r.render scene env).events =
      [.waitForFences cm.m_currentFrameIndex fenceTimeoutNs .eTimeout, .cameraSetViewportSize,
       .updateFrameUBO cm.m_currentFrameIndex, .cmdReset cm.m_currentFrameIndex] := by
  have hb : (cm.beginFrame env.beginFrame).result = .returned UINT32_MAX := by
    simp [CommandManager.beginFrame, resultCheck, hw]
  have hev : (cm.beginFrame env.beginFrame).events =
      [.waitForFences cm.m_currentFrameIndex fenceTimeoutNs .eTimeout] := by
    simp [CommandManager.beginFrame, resultCheck, hw]
  have hslot : (cm.beginFrame env.beginFrame).state.getCurrentCommandBuffer =
      cm.m_currentFrameIndex := beginFrame_keeps_frame_index cm env.beginFrame
  rw [(render_of_exception_before_bounds_check r cm scene env UINT32_MAX hflag hcm hb).2.1 a
    hcam hal hreset]
  refine ⟨rfl, ?_⟩
  show (cm.beginFrame env.beginFrame).events ++ _ = _
  rw [hev, hslot]
  rfl

/-! ## Renderer: the order of the recreation -/

/-- Claim C11: a recreation in which no step throws performs, in this order: the
device idle-wait, the destruction of the framebuffers, the destruction of the
depth view, image and memory (each handle that is non-null, all three on a
renderer that holds them), the reset of the Frame Orchestrator and of the
Pipeline Manager, the swapchain `recreate()` with the calls it issues, the
creation of the depth resources and of one framebuffer per image view of the new
chain, the creation of a new Pipeline Manager and of its pipeline, and the
creation of a new Frame Orchestrator for `MAX_FRAMES_IN_FLIGHT` slots and the
image count of the new chain; it then clears the resize flag and returns.  The
flag is cleared last: a recreation that does not return, whichever step throws,
leaves it as it was. -/
theorem recreate_performs_sequence (r : Renderer) (env : RecreateEnv)
    (hok : env.failAt = none)
    (hsw : (r.m_swapchain.recreate env.swapchain).result = .returned ())
    (hn : env.swapchain.newImages.length ≤ UINT32_MAX) :
    (r.recreateSwapchainAndDependencies env).events =
      [.deviceWaitIdle, .destroyFramebuffers r.m_swapchainFramebuffers] ++
      cleanupDepthEvents r ++
      [.commandManagerReset, .pipelineManagerReset, .swapchainRecreate] ++
      (r.m_swapchain.recreate env.swapchain).events ++
      [.createDepthResources, .createFramebuffers env.swapchain.newImages.length,
       .createPipelineManager, .createGraphicsPipeline,
       .createCommandManager MAX_FRAMES_IN_FLIGHT env.swapchain.newImages.length] ∧
    (r.m_depthImageView = true → r.m_depthImage = true → r.m_depthImageMemory = true →
      cleanupDepthEvents r =
        [.destroyDepthImageView, .destroyDepthImage, .freeDepthImageMemory]) ∧
    (r.recreateSwapchainAndDependencies env).result = .returned () ∧
    (r.recreateSwapchainAndDependencies env).state.m_commandManager =
      some (CommandManager.create MAX_FRAMES_IN_FLIGHT env.swapchain.newImages.length) ∧
    (r.recreateSwapchainAndDependencies env).state.m_swapchainFramebuffers =
      env.swapchain.newImages.length ∧
    (r.recreateSwapchainAndDependencies env).state.m_framebufferResized = false ∧
    (∀ env2 : RecreateEnv,
      (r.recreateSwapchainAndDependencies env2).result ≠ .returned () →
      (r.recreateSwapchainAndDependencies env2).state.m_framebufferResized =
        r.m_framebufferResized) := by
  have hmod : env.swapchain.newImages.length % 4294967296 = env.swapchain.newImages.length := by
    apply Nat.mod_eq_of_lt
    unfold UINT32_MAX at hn
    omega
  have hret := recreate_returns r env hok hsw
  have hst := recreate_of_returned r env hret
  have hc := (swapchain_counts r.m_swapchain env.swapchain).2 hsw
  refine ⟨?_, ?_, hret, ?_, ?_, hst.2.2.2.2.2, ?_⟩
  · rcases env with ⟨f, senv⟩
    simp only at hok hsw hc hmod
    subst hok
    unfold Renderer.recreateSwapchainAndDependencies
    dsimp only
    rw [hsw]
    simp only [Renderer.createFramebuffers, hc.1, hc.2, hmod, reduceCtorEq, if_false,
      List.append_assoc, List.cons_append, List.nil_append]
  · intro h1 h2 h3
    simp [cleanupDepthEvents, h1, h2, h3]
  · rw [hst.2.2.2.2.1, hc.2, hmod]
  · rw [hst.2.2.2.1, hc.1]
  · intro env2 h2
    exact recreate_keeps_flag_unless_returned r env2 h2

/-- Witness of C11 on a freshly constructed renderer whose resize flag is set,
for a new chain of two images: the calls of `SwapchainManager::recreate` destroy
the three views and the chain 7, query the surface, create the chain 8, query its
images and create their two views. -/
theorem recreate_performs_sequence_witness :
    ((Renderer.fresh true 3).recreateSwapchainAndDependencies ⟨none, chainEnv 8 2⟩).events =
      [.deviceWaitIdle, .destroyFramebuffers 3,
       .destroyDepthImageView, .destroyDepthImage, .freeDepthImageMemory,
       .commandManagerReset, .pipelineManagerReset, .swapchainRecreate,
       .resource (.destroyImageView 11), .resource (.destroyImageView 12),
       .resource (.destroyImageView 13), .resource (.destroySwapchainKHR 7),
       .resource (.getSurfaceCapabilitiesKHR .eSuccess),
       .resource (.getSurfaceFormatsKHR .eSuccess),
       .resource (.getSurfacePresentModesKHR .eSuccess),
       .resource (.createSwapchainKHR 3 1024 768 true false 0 .eSuccess),
       .resource (.getSwapchainImagesKHR 8 .eSuccess),
       .resource (.createImageView 1 .eSuccess), .resource (.createImageView 2 .eSuccess),
       .createDepthResources, .createFramebuffers 2,
       .createPipelineManager, .createGraphicsPipeline,
       .createCommandManager 2 2] ∧
    ((Renderer.fresh true 3).recreateSwapchainAndDependencies
      ⟨none, chainEnv 8 2⟩).state.m_framebufferResized = false :=
  have h := recreate_performs_sequence (Renderer.fresh true 3) ⟨none, chainEnv 8 2⟩ rfl
    (by decide) (by decide)
  ⟨h.1, h.2.2.2.2.2.1⟩

/-! ## SwapchainManager -/

/-- The mailbox mode is chosen exactly when the surface offers it; FIFO is chosen
otherwise. -/
theorem chooseSwapPresentMode_spec (modes : List PresentMode) :
    (chooseSwapPresentMode modes = .eMailbox ↔ .eMailbox ∈ modes) ∧
    (.eMailbox ∉ modes → chooseSwapPresentMode modes = .eFifo) := by
  unfold chooseSwapPresentMode
  cases h : modes.find? (fun m => decide (m = .eMailbox)) with
  | none =>
    have hn : .eMailbox ∉ modes := by
      intro hm
      have := List.find?_eq_none.mp h _ hm
      simp at this
    simp [hn]
  | some m =>
    have hm : m = .eMailbox := by simpa using List.find?_some h
    have hmem : m ∈ modes := List.mem_of_find?_eq_some h
    subst hm
    simp [hmem]

/-- The calls of `createSwapchain` when the three surface queries succeed and the
surface offers a format: the queries, the creation with the image count of the
policy and the chain held by the object as old chain, the destruction of that
old chain when the creation succeeded and the chain was not null, and the image
query. -/
theorem createSwapchain_events (s : SwapchainManagerState) (env : SwapchainEnv)
    (h1 : env.capabilitiesResult = .eSuccess) (h2 : env.formatsResult = .eSuccess)
    (h3 : env.presentModesResult = .eSuccess) (hf : env.formats ≠ []) :
    (s.createSwapchain env).events =
      [.resource (.getSurfaceCapabilitiesKHR .eSuccess),
       .resource (.getSurfaceFormatsKHR .eSuccess),
       .resource (.getSurfacePresentModesKHR .eSuccess),
       .resource (.createSwapchainKHR
         (swapchainImageCount (chooseSwapPresentMode env.presentModes) env.capabilities)
         (chooseSwapExtent env.capabilities env.framebufferWidth env.framebufferHeight).width
         (chooseSwapExtent env.capabilities env.framebufferWidth env.framebufferHeight).height
         (decide (chooseSwapPresentMode env.presentModes = .eMailbox))
         (decide (env.graphicsQueueFamily ≠ env.presentQueueFamily))
         s.m_swapchain env.createResult)] ++
      (if env.createResult = .eSuccess then
        (if s.m_swapchain ≠ 0 then [Event.resource (.destroySwapchainKHR s.m_swapchain)] else []) ++
        [.resource (.getSwapchainImagesKHR env.newSwapchain env.imagesResult)]
       else []) := by
  have hsome : ∃ f, chooseSwapSurfaceFormat env.formats = some f := by
    unfold chooseSwapSurfaceFormat
    cases hfind : env.formats.find? (fun f => decide (f = .bgra8SrgbNonlinear)) with
    | some f => exact ⟨f, rfl⟩
    | none =>
      cases hl : env.formats with
      | nil => exact absurd hl hf
      | cons a l => exact ⟨a, rfl⟩
  obtain ⟨f, hfmt⟩ := hsome
  simp only [SwapchainManagerState.createSwapchain, h1, h2, h3, hfmt]
  by_cases hc : env.createResult = .eSuccess
  · by_cases hi : env.imagesResult = .eSuccess
    · simp [hc, hi]
    · simp [hc, hi]
  · simp [hc]

/-- On a valid swapchain `recreate` first runs `cleanup`, which destroys the image
views and the chain and nulls the chain handle, and only then `createSwapchain`,
on an object that no longer holds a chain. -/
theorem recreate_events_of_valid (s : SwapchainManagerState) (env : SwapchainEnv)
    (hv : s.m_isValid = true) :
    ∃ rest, (s.recreate env).events =
      s.m_swapchainImageViews.map (fun v => Event.resource (.destroyImageView v)) ++
      (if s.m_swapchain ≠ 0 then [Event.resource (.destroySwapchainKHR s.m_swapchain)] else []) ++
      (({ s with
          m_swapchainImageViews := []
          m_swapchainImages := []
          m_swapchain := 0
          m_isValid := false } : SwapchainManagerState).createSwapchain env).events ++ rest := by
  simp only [SwapchainManagerState.recreate, SwapchainManagerState.cleanup, hv]
  simp only [Bool.true_eq_false, if_false]
  split
  · exact ⟨[], by simp⟩
  · exact ⟨[], by simp⟩
  · exact ⟨_, rfl⟩

/-- Claim C12, evaluated where it fails: `recreate` on a valid swapchain holding
chain 7 destroys chain 7 (call number 3, after the three image views) before it
creates the new chain (call number 7), and the creation is given the null handle
as old chain, not chain 7. -/
theorem recreate_destroys_old_chain_first :
    firstIndex (Event.destroysChain 7) (validSwapchain.recreate resizedSurfaceEnv).events =
      some 3 ∧
    firstIndex Event.isChainCreation (validSwapchain.recreate resizedSurfaceEnv).events =
      some 7 ∧
    (validSwapchain.recreate resizedSurfaceEnv).events.filterMap Event.oldSwapchainArg = [0] ∧
    (validSwapchain.createSwapchain resizedSurfaceEnv).events.filterMap
      Event.oldSwapchainArg = [7] := by
  decide

/-- Claim C20: when the surface queries succeed, `createSwapchain` issues one chain
creation, and the image count it asks for starts from 3 when the mailbox mode is
chosen, which is when the surface offers it, and from 2 otherwise; for
capabilities with 0 < minImageCount ≤ maxImageCount it is that base clamped into
[minImageCount, maxImageCount], and when maxImageCount is 0 (no limit) it is the
larger of the base and minImageCount. -/
theorem createSwapchain_image_count (s : SwapchainManagerState) (env : SwapchainEnv)
    (base : Nat)
    (h1 : env.capabilitiesResult = .eSuccess) (h2 : env.formatsResult = .eSuccess)
    (h3 : env.presentModesResult = .eSuccess) (hf : env.formats ≠ [])
    (hbase : base = if PresentMode.eMailbox ∈ env.presentModes then 3 else 2) :
    (∃ n, (s.createSwapchain env).events.filterMap Event.minImageCountArg = [n] ∧
      (0 < env.capabilities.minImageCount →
        env.capabilities.minImageCount ≤ env.capabilities.maxImageCount →
        n = max env.capabilities.minImageCount (min base env.capabilities.maxImageCount)) ∧
      (env.capabilities.maxImageCount = 0 → n = max base env.capabilities.minImageCount)) ∧
    (chooseSwapPresentMode env.presentModes = .eMailbox ↔
      PresentMode.eMailbox ∈ env.presentModes) := by
  have hm := chooseSwapPresentMode_spec env.presentModes
  refine ⟨⟨swapchainImageCount (chooseSwapPresentMode env.presentModes) env.capabilities,
    ?_, ?_, ?_⟩, hm.1⟩
  · rw [createSwapchain_events s env h1 h2 h3 hf]
    by_cases hc : env.createResult = .eSuccess
    · by_cases h0 : s.m_swapchain = 0 <;> simp [hc, h0, Event.minImageCountArg]
    · simp [hc, Event.minImageCountArg]
  · intro hpos hle
    have hb : (if chooseSwapPresentMode env.presentModes = .eMailbox then 3 else 2) = base := by
      rw [hbase]
      by_cases hmem : PresentMode.eMailbox ∈ env.presentModes
      · simp [hmem, hm.1.mpr hmem]
      · simp [hmem, hm.2 hmem]
    simp only [swapchainImageCount, hb]
    have hgt : env.capabilities.maxImageCount > 0 := by omega
    simp only [hgt, if_true]
    omega
  · intro hz
    have hb : (if chooseSwapPresentMode env.presentModes = .eMailbox then 3 else 2) = base := by
      rw [hbase]
      by_cases hmem : PresentMode.eMailbox ∈ env.presentModes
      · simp [hmem, hm.1.mpr hmem]
      · simp [hmem, hm.2 hmem]
    simp [swapchainImageCount, hb, hz]

/-- Witness of C20: a surface offering mailbox with between 2 and 8 images is
asked for 3 images. -/
theorem createSwapchain_image_count_witness :
    ∃ n, (validSwapchain.createSwapchain resizedSurfaceEnv).events.filterMap
        Event.minImageCountArg = [n] ∧
      (0 < 2 → 2 ≤ 8 → n = max 2 (min 3 8)) ∧
      (resizedSurfaceEnv.capabilities.maxImageCount = 0 → n = max 3 2) :=
  (createSwapchain_image_count validSwapchain resizedSurfaceEnv 3 rfl rfl rfl (by decide)
    (by decide)).1

/-! ## DescriptorManager: the pool -/

/-- A pool-size list built from types that do not include `t` asks for nothing of
type `t`. -/
theorem requestedCount_filterMap_of_not_mem (counts : DescriptorType → Option Nat)
    (t : DescriptorType) (ts : List DescriptorType) (h : t ∉ ts) :
    requestedCount (ts.filterMap (fun u =>
      match counts u with
      | some c => if c > 0 then some (u, c) else none
      | none => none)) t = 0 := by
  induction ts with
  | nil => rfl
  | cons u us ih =>
    have hu : u ≠ t := fun e => h (e ▸ List.mem_cons_self _ _)
    have hus : t ∉ us := fun hm => h (List.mem_cons_of_mem _ hm)
    have ih2 := ih hus
    unfold requestedCount at ih2 ⊢
    rw [List.filterMap_cons]
    cases hc : counts u with
    | none => simpa [hc] using ih2
    | some c =>
      by_cases hpos : c > 0
      · simpa [hc, hpos, List.filter_cons, hu] using ih2
      · simpa [hc, hpos] using ih2

/-- The pool-size list built from distinct types asks, of each type it ranges over,
for the count recorded for it. -/
theorem requestedCount_filterMap_of_mem (counts : DescriptorType → Option Nat)
    (t : DescriptorType) (ts : List DescriptorType) (hnd : ts.Nodup) (h : t ∈ ts) :
    requestedCount (ts.filterMap (fun u =>
      match counts u with
      | some c => if c > 0 then some (u, c) else none
      | none => none)) t = (counts t).getD 0 := by
  induction ts with
  | nil => exact absurd h (List.not_mem_nil _)
  | cons u us ih =>
    rw [List.nodup_cons] at hnd
    by_cases hu : u = t
    · subst hu
      have h0 := requestedCount_filterMap_of_not_mem counts u us hnd.1
      unfold requestedCount at h0 ⊢
      rw [List.filterMap_cons]
      cases hc : counts u with
      | none => simpa [hc] using h0
      | some c =>
        by_cases hpos : c > 0
        · simp [hc, hpos, List.filter_cons, h0]
        · have hz : c = 0 := by omega
          simpa [hc, hpos, hz] using h0
    · have hmem : t ∈ us := by
        rcases List.mem_cons.mp h with e | e
        · exact absurd e.symm hu
        · exact e
      have ih2 := ih hnd.2 hmem
      unfold requestedCount at ih2 ⊢
      rw [List.filterMap_cons]
      cases hc : counts u with
      | none => simpa [hc] using ih2
      | some c =>
        by_cases hpos : c > 0
        · simpa [hc, hpos, List.filter_cons, hu] using ih2
        · simpa [hc, hpos] using ih2

/-- The pool-size list of `createPool` asks of every type for the count recorded
for it in `poolSizeCounts`. -/
theorem requestedCount_poolSizesOf (counts : DescriptorType → Option Nat) (t : DescriptorType) :
    requestedCount (poolSizesOf counts) t = (counts t).getD 0 := by
  unfold poolSizesOf
  apply requestedCount_filterMap_of_mem counts t allDescriptorTypes (by decide)
  cases t <;> decide

/-- The pool-size list of `createPool` is empty exactly when every recorded count
is zero. -/
theorem poolSizesOf_eq_nil (counts : DescriptorType → Option Nat) :
    poolSizesOf counts = [] ↔ ∀ t, (counts t).getD 0 = 0 := by
  constructor
  · intro h t
    rw [← requestedCount_poolSizesOf, h]
    rfl
  · intro h
    unfold poolSizesOf
    rw [List.filterMap_eq_nil_iff]
    intro t _
    have ht := h t
    cases hc : counts t with
    | none => rfl
    | some c =>
      rw [hc] at ht
      have hz : c = 0 := by simpa using ht
      simp [hz]

/-- The count recorded for a type after `poolSizeCounts[t] += x`. -/
theorem addCount_getD (counts : DescriptorType → Option Nat) (t u : DescriptorType) (x : Nat) :
    (addCount counts t x u).getD 0 =
      if u = t then ((counts t).getD 0 + x) % 4294967296 else (counts u).getD 0 := by
  unfold addCount
  split_ifs <;> rfl

/-- The first loop of `createPool`, when every set index of the capacity map is
declared: it does not throw, the total is the total instance count, and the
count recorded for each type grows by its table count, all in `uint32_t`
arithmetic. -/
theorem createPoolLoop_spec (layouts : List (Nat × DescriptorSetLayout))
    (cap : List (Nat × Nat)) :
    ∀ (counts : DescriptorType → Option Nat) (total : Nat),
      (∀ ic ∈ cap, (layouts.lookup ic.1).isSome = true) →
      (∀ t, (counts t).getD 0 < 4294967296) → total < 4294967296 →
      ∃ counts2, createPoolLoop layouts cap counts total =
          .ok (counts2, (total + totalInstances cap) % 4294967296) ∧
        ∀ t, (counts2 t).getD 0 = ((counts t).getD 0 + tableCount cap t) % 4294967296 := by
  induction cap with
  | nil =>
    intro counts total _ hc ht
    refine ⟨counts, ?_, ?_⟩
    · simp [createPoolLoop, totalInstances, Nat.mod_eq_of_lt ht]
    · intro t
      simp [tableCount, Nat.mod_eq_of_lt (hc t)]
  | cons ic rest ih =>
    intro counts total hdecl hc ht
    obtain ⟨setIndex, count⟩ := ic
    have hsome : (layouts.lookup setIndex).isSome = true := hdecl (setIndex, count) (List.mem_cons_self _ _)
    have hnone : (layouts.lookup setIndex).isNone = false := by
      cases h : layouts.lookup setIndex <;> simp_all
    have hrest : ∀ ic ∈ rest, (layouts.lookup ic.1).isSome = true :=
      fun ic h => hdecl ic (List.mem_cons_of_mem _ h)
    have hmod : (total + count) % 4294967296 < 4294967296 := Nat.mod_lt _ (by decide)
    have htot : ((total + count) % 4294967296 + totalInstances rest) % 4294967296 =
        (total + totalInstances ((setIndex, count) :: rest)) % 4294967296 := by
      rw [Nat.mod_add_mod]
      simp [totalInstances, Nat.add_assoc]
    simp only [createPoolLoop, hnone]
    by_cases h0 : setIndex = 0
    · subst h0
      have hc1 : ∀ t, ((addCount counts .eUniformBuffer count) t).getD 0 < 4294967296 := by
        intro t
        rw [addCount_getD]
        split_ifs
        · exact Nat.mod_lt _ (by decide)
        · exact hc t
      obtain ⟨counts2, hrun, hval⟩ := ih _ _ hrest hc1 hmod
      refine ⟨counts2, ?_, ?_⟩
      · simp only [Bool.false_eq_true, if_false, if_true]
        rw [hrun, htot]
      · intro t
        rw [hval t]
        by_cases hu : t = .eUniformBuffer
        · subst hu
          simp only [addCount_getD, tableCount, List.map_cons, List.sum_cons, poolTable, if_true]
          omega
        · simp only [addCount_getD, tableCount, List.map_cons, List.sum_cons, poolTable, hu,
            if_true, if_false]
          omega
    · by_cases h1 : setIndex = 1
      · subst h1
        have hc1 : ∀ t, ((addCount (addCount counts .eUniformBuffer (count * 3 % 4294967296))
            .eCombinedImageSampler (count * 4 % 4294967296)) t).getD 0 < 4294967296 := by
          intro t
          simp only [addCount_getD]
          split_ifs <;> first | exact Nat.mod_lt _ (by decide) | exact hc t
        obtain ⟨counts2, hrun, hval⟩ := ih _ _ hrest hc1 hmod
        refine ⟨counts2, ?_, ?_⟩
        · simp only [Bool.false_eq_true, if_false, if_true, h0]
          rw [hrun, htot]
        · intro t
          rw [hval t]
          by_cases hu : t = .eUniformBuffer
          · subst hu
            simp only [addCount_getD, tableCount, List.map_cons, List.sum_cons, poolTable,
              if_true, if_false, reduceCtorEq, h0]
            omega
          · by_cases hs : t = .eCombinedImageSampler
            · subst hs
              simp only [addCount_getD, tableCount, List.map_cons, List.sum_cons, poolTable,
                if_true, if_false, reduceCtorEq, h0]
              omega
            · simp only [addCount_getD, tableCount, List.map_cons, List.sum_cons, poolTable,
                if_true, if_false, hu, hs, h0]
              omega
      · obtain ⟨counts2, hrun, hval⟩ := ih _ _ hrest hc hmod
        refine ⟨counts2, ?_, ?_⟩
        · simp only [Bool.false_eq_true, if_false, h0, h1]
          rw [hrun, htot]
        · intro t
          rw [hval t]
          simp [tableCount, poolTable, h0, h1]

/-- What `createPool` does when every set index of the capacity map is declared:
with `n t` the table count of type `t` in `uint32_t` arithmetic, it skips the
pool when every `n t` is zero, and otherwise issues one pool creation that asks
for `n t` descriptors of each type `t` and for the total instance count as
`maxSets`. -/
theorem createPool_spec (d : DescriptorManager) (cap : List (Nat × Nat)) (result : VkResult)
    (pool : Nat) (hdecl : ∀ ic ∈ cap, (d.m_layouts.lookup ic.1).isSome = true) :
    ((∀ t, tableCount cap t % 4294967296 = 0) →
      (d.createPool cap result pool).result = .returned () ∧
      (d.createPool cap result pool).events = [] ∧
      (d.createPool cap result pool).state = d) ∧
    ((∃ t, tableCount cap t % 4294967296 ≠ 0) →
      ∃ sizes, (d.createPool cap result pool).events =
          [.createDescriptorPool sizes (totalInstances cap % 4294967296) result] ∧
        (∀ t, requestedCount sizes t = tableCount cap t % 4294967296) ∧
        (result = .eSuccess →
          (d.createPool cap result pool).result = .returned () ∧
          (d.createPool cap result pool).state = { d with m_descriptorPool := pool }) ∧
        (result ≠ .eSuccess →
          (d.createPool cap result pool).result = .thrown .failedToCreateDescriptorPool ∧
          (d.createPool cap result pool).state = d)) := by
  obtain ⟨counts2, hrun, hval⟩ := createPoolLoop_spec d.m_layouts cap (fun _ => none) 0 hdecl
    (fun _ => by simp) (by decide)
  have hval2 : ∀ t, (counts2 t).getD 0 = tableCount cap t % 4294967296 := by
    intro t
    rw [hval t]
    simp
  simp only [Nat.zero_add] at hrun
  constructor
  · intro hz
    have hnil : poolSizesOf counts2 = [] :=
      (poolSizesOf_eq_nil counts2).mpr (fun t => (hval2 t).trans (hz t))
    simp [DescriptorManager.createPool, hrun, hnil]
  · intro hnz
    have hne : poolSizesOf counts2 ≠ [] := by
      intro hnil
      obtain ⟨t, ht⟩ := hnz
      exact ht ((hval2 t).symm.trans ((poolSizesOf_eq_nil counts2).mp hnil t))
    have hemp : (poolSizesOf counts2).isEmpty = false := by
      cases hp : poolSizesOf counts2 with
      | nil => exact absurd hp hne
      | cons a l => rfl
    refine ⟨poolSizesOf counts2, ?_, ?_, ?_, ?_⟩
    · simp only [DescriptorManager.createPool, hrun, hemp]
      by_cases hr : result = .eSuccess <;> simp [hr]
    · intro t
      rw [requestedCount_poolSizesOf, hval2]
    · intro hr
      simp [DescriptorManager.createPool, hrun, hemp, hr]
    · intro hr
      simp [DescriptorManager.createPool, hrun, hemp, hr]

/-- Where every set of the capacity map is declared with the binding counts of the
table, the count the specification asks for is the table count. -/
theorem requiredDescriptorCount_eq_tableCount (layouts : List (Nat × DescriptorSetLayout))
    (cap : List (Nat × Nat)) (t : DescriptorType)
    (h : ∀ ic ∈ cap, ∃ l, layouts.lookup ic.1 = some l ∧
      ∀ u, bindingCount l u = poolTable ic.1 u) :
    requiredDescriptorCount layouts cap t = tableCount cap t := by
  unfold requiredDescriptorCount tableCount
  congr 1
  apply List.map_congr_left
  intro ic hic
  obtain ⟨l, hl, hb⟩ := h ic hic
  simp [hl, hb t]

/-- Claim C15: with the set indices 0 and 1 declared (as the renderer declares
them: one uniform-buffer binding for set 0, three uniform-buffer and four
combined-image-sampler bindings for set 1; `createPool` reads only that they are
declared), for every capacity map with the two entries 0 -> a and 1 -> b, in
either iteration order, with a + 3b and 4b below 2^32 and a, b not both zero,
`createPool` issues one pool creation, asking for a + 3b uniform-buffer
descriptors, 4b combined-image-sampler descriptors, nothing of any other type,
and maxSets = a + b. -/
theorem createPool_pool_sizing (d : DescriptorManager) (cap : List (Nat × Nat)) (a b : Nat)
    (result : VkResult) (pool : Nat)
    (h0 : (d.m_layouts.lookup 0).isSome = true) (h1 : (d.m_layouts.lookup 1).isSome = true)
    (hcap : cap = [(0, a), (1, b)] ∨ cap = [(1, b), (0, a)])
    (hub : a + 3 * b < 4294967296) (hcis : 4 * b < 4294967296) (hnz : ¬(a = 0 ∧ b = 0)) :
    ∃ sizes, (d.createPool cap result pool).events =
        [.createDescriptorPool sizes (a + b) result] ∧
      requestedCount sizes .eUniformBuffer = a + 3 * b ∧
      requestedCount sizes .eCombinedImageSampler = 4 * b ∧
      (∀ t, t ≠ .eUniformBuffer → t ≠ .eCombinedImageSampler → requestedCount sizes t = 0) := by
  have hdecl : ∀ ic ∈ cap, (d.m_layouts.lookup ic.1).isSome = true := by
    intro ic hic
    rcases hcap with hc | hc <;> (subst hc; simp at hic; rcases hic with e | e <;> (subst e; assumption))
  have htab : ∀ t, tableCount cap t =
      if t = .eUniformBuffer then a + 3 * b
      else if t = .eCombinedImageSampler then 4 * b else 0 := by
    intro t
    cases t <;> rcases hcap with hc | hc <;> subst hc <;>
      (simp [tableCount, poolTable]; try omega)
  have htot : totalInstances cap = a + b := by
    rcases hcap with hc | hc
    · subst hc
      simp [totalInstances]
    · subst hc
      simp [totalInstances]
      omega
  have hsome : ∃ t, tableCount cap t % 4294967296 ≠ 0 := by
    refine ⟨.eUniformBuffer, ?_⟩
    rw [htab]
    simp only [if_true]
    omega
  obtain ⟨sizes, hev, hreq, _, _⟩ := (createPool_spec d cap result pool hdecl).2 hsome
  refine ⟨sizes, ?_, ?_, ?_, ?_⟩
  · rw [hev, htot, Nat.mod_eq_of_lt (by omega)]
  · rw [hreq, htab]
    simp only [if_true]
    omega
  · rw [hreq, htab]
    simp only [reduceCtorEq, if_false, if_true]
    omega
  · intro t hu hs
    rw [hreq, htab]
    simp [hu, hs]

/-- Witness of C15: the scenario of the renderer, a = 2 and b = 10: 32 uniform
buffers, 40 combined image samplers, 12 sets. -/
theorem createPool_pool_sizing_witness :
    (rendererLayouts.createPool rendererCapacities .eSuccess 30).events =
      [.createDescriptorPool [(.eCombinedImageSampler, 40), (.eUniformBuffer, 32)] 12
        .eSuccess] ∧
    ∃ sizes, (rendererLayouts.createPool rendererCapacities .eSuccess 30).events =
        [.createDescriptorPool sizes (2 + 10) .eSuccess] ∧
      requestedCount sizes .eUniformBuffer = 2 + 3 * 10 ∧
      requestedCount sizes .eCombinedImageSampler = 4 * 10 ∧
      (∀ t, t ≠ .eUniformBuffer → t ≠ .eCombinedImageSampler → requestedCount sizes t = 0) :=
  ⟨by decide,
   createPool_pool_sizing rendererLayouts rendererCapacities 2 10 .eSuccess 30 (by decide)
     (by decide) (Or.inl rfl) (by decide) (by decide) (by decide)⟩

/-- Claim C16 as stated fails: with set 0 declared with the seven bindings of the
per-object layout (three uniform buffers, four combined image samplers) and one
instance requested for it, the sum over the sets asks for 3 uniform buffers and
4 combined image samplers, while `createPool` asks for 1 uniform buffer and no
combined image sampler. -/
theorem createPool_ignores_declared_bindings :
    (objectLayoutAtSetZero.createPool [(0, 1)] .eSuccess 30).events =
      [.createDescriptorPool [(.eUniformBuffer, 1)] 1 .eSuccess] ∧
    requiredDescriptorCount objectLayoutAtSetZero.m_layouts [(0, 1)] .eUniformBuffer = 3 ∧
    requiredDescriptorCount objectLayoutAtSetZero.m_layouts [(0, 1)]
      .eCombinedImageSampler = 4 ∧
    requestedCount [(.eUniformBuffer, 1)] .eUniformBuffer = 1 ∧
    requestedCount [(.eUniformBuffer, 1)] .eCombinedImageSampler = 0 := by
  decide

/-- Claim C16 as amended: when every set index of the capacity map is declared with
a layout whose number of bindings of each type is the one `createPool` holds for
that set index (set 0: one uniform buffer; set 1: three uniform buffers and four
combined image samplers), `createPool` asks, for each descriptor type, for the
sum over the sets of (number of bindings of that type in the declared layout ×
requested instance count), and for the total instance count as `maxSets`, both
in `uint32_t` arithmetic; when every such sum is zero it creates no pool. -/
theorem createPool_sums_declared_bindings (d : DescriptorManager) (cap : List (Nat × Nat))
    (result : VkResult) (pool : Nat)
    (hdecl : ∀ ic ∈ cap, ∃ l, d.m_layouts.lookup ic.1 = some l ∧
      ∀ t, bindingCount l t = poolTable ic.1 t) :
    ((∀ t, requiredDescriptorCount d.m_layouts cap t % 4294967296 = 0) →
      (d.createPool cap result pool).result = .returned () ∧
      (d.createPool cap result pool).events = []) ∧
    ((∃ t, requiredDescriptorCount d.m_layouts cap t % 4294967296 ≠ 0) →
      ∃ sizes, (d.createPool cap result pool).events =
          [.createDescriptorPool sizes (totalInstances cap % 4294967296) result] ∧
        (∀ t, requestedCount sizes t =
          requiredDescriptorCount d.m_layouts cap t % 4294967296)) := by
  have heq := fun t => requiredDescriptorCount_eq_tableCount d.m_layouts cap t hdecl
  have hdecl2 : ∀ ic ∈ cap, (d.m_layouts.lookup ic.1).isSome = true := by
    intro ic hic
    obtain ⟨l, hl, _⟩ := hdecl ic hic
    simp [hl]
  have hs := createPool_spec d cap result pool hdecl2
  constructor
  · intro hz
    have := hs.1 (fun t => by rw [← heq t]; exact hz t)
    exact ⟨this.1, this.2.1⟩
  · intro hnz
    obtain ⟨t, ht⟩ := hnz
    obtain ⟨sizes, hev, hreq, _, _⟩ := hs.2 ⟨t, by rw [← heq t]; exact ht⟩
    exact ⟨sizes, hev, fun u => by rw [hreq u, heq u]⟩

/-- Witness of C16 as amended: the layouts and the capacities of the renderer. -/
theorem createPool_sums_declared_bindings_witness :
    ∃ sizes, (rendererLayouts.createPool rendererCapacities .eSuccess 30).events =
        [.createDescriptorPool sizes (totalInstances rendererCapacities % 4294967296)
          .eSuccess] ∧
      (∀ t, requestedCount sizes t =
        requiredDescriptorCount rendererLayouts.m_layouts rendererCapacities t %
          4294967296) :=
  (createPool_sums_declared_bindings rendererLayouts rendererCapacities .eSuccess 30
    (by
      intro ic hic
      simp only [rendererCapacities, List.mem_cons, List.mem_singleton, List.not_mem_nil,
        or_false] at hic
      rcases hic with e | e <;> subst e
      · exact ⟨_, rfl, fun t => by cases t <;> decide⟩
      · exact ⟨_, rfl, fun t => by cases t <;> decide⟩)).2 ⟨.eUniformBuffer, by decide⟩

/-! ## DescriptorManager: the pool skip, the bind functions, the dense layout list -/

/-- Claim C17 as stated fails: with both capacities 0 on the layouts of the
renderer, `createPool` returns without creating a pool, and the `allocateAllSets`
call that follows with the same capacity map throws, because no pool was
created. -/
theorem allocateAllSets_throws_after_pool_skip :
    (rendererLayouts.createPool [(0, 0), (1, 0)] .eSuccess 30).result = .returned () ∧
    (rendererLayouts.createPool [(0, 0), (1, 0)] .eSuccess 30).events = [] ∧
    ((rendererLayouts.createPool [(0, 0), (1, 0)] .eSuccess 30).state.allocateAllSets
      [(0, 0), (1, 0)] (setHandles [(0, 0), (1, 0)])).result =
        .thrown .descriptorPoolNotCreated := by
  decide

/-- Claim C17 as amended: when every set index of the capacity map is declared and
the summed descriptor count of every type is zero (as when every requested
capacity is 0), `createPool` returns without throwing, issues no pool creation
and leaves the manager as it was; on a manager that held no pool, the
`allocateAllSets` call that follows with the same capacity map throws the
pool-not-created error, allocates nothing and leaves the set registry as it
was. -/
theorem createPool_skip_then_allocate_throws (d : DescriptorManager) (cap : List (Nat × Nat))
    (result : VkResult) (pool : Nat) (answer : Nat → VkResult × List Nat)
    (hdecl : ∀ ic ∈ cap, (d.m_layouts.lookup ic.1).isSome = true)
    (hzero : ∀ t, tableCount cap t % 4294967296 = 0)
    (hpool : d.m_descriptorPool = 0) :
    (d.createPool cap result pool).result = .returned () ∧
    (d.createPool cap result pool).events = [] ∧
    (d.createPool cap result pool).state = d ∧
    ((d.createPool cap result pool).state.allocateAllSets cap answer).result =
      .thrown .descriptorPoolNotCreated ∧
    ((d.createPool cap result pool).state.allocateAllSets cap answer).events = [] ∧
    ((d.createPool cap result pool).state.allocateAllSets cap answer).state = d ∧
    ((∀ ic ∈ cap, ic.2 = 0) → ∀ t, tableCount cap t % 4294967296 = 0) := by
  obtain ⟨h1, h2, h3⟩ := (createPool_spec d cap result pool hdecl).1 hzero
  refine ⟨h1, h2, h3, ?_, ?_, ?_, ?_⟩
  · rw [h3]
    simp [DescriptorManager.allocateAllSets, hpool]
  · rw [h3]
    simp [DescriptorManager.allocateAllSets, hpool]
  · rw [h3]
    simp [DescriptorManager.allocateAllSets, hpool]
  · intro hall t
    have : tableCount cap t = 0 := by
      unfold tableCount
      apply List.sum_eq_zero
      intro x hx
      obtain ⟨ic, hic, rfl⟩ := List.mem_map.mp hx
      simp [hall ic hic]
    simp [this]

/-- Witness of C17 as amended: both capacities 0 on the layouts of the renderer. -/
theorem createPool_skip_then_allocate_throws_witness :
    (rendererLayouts.createPool [(0, 0), (1, 0)] .eSuccess 30).state = rendererLayouts ∧
    ((rendererLayouts.createPool [(0, 0), (1, 0)] .eSuccess 30).state.allocateAllSets
      [(0, 0), (1, 0)] (setHandles [(0, 0), (1, 0)])).events = [] :=
  have h := createPool_skip_then_allocate_throws rendererLayouts [(0, 0), (1, 0)] .eSuccess 30
    (setHandles [(0, 0), (1, 0)]) (by decide) (fun t => by cases t <;> decide) rfl
  ⟨h.2.2.1, h.2.2.2.2.1⟩

/-- Claim C18, evaluated where it fails, on the manager the renderer builds (two
instances of set 0, ten of set 1).  `bindBufferToSet` and `bindImageToSet` on
set index 2, which has no instances, do not throw: they insert an empty
instance list under key 2 into the set registry and read past its end.  On
instance 10 of set 1 they do not throw either and read past the end of the ten
instances.  `getDescriptorSet` throws in both cases. -/
theorem bind_out_of_capacity_does_not_throw :
    (rendererDescriptors.bindBufferToSet 2 0 0 5 64).result = .undefinedBehaviour ∧
    (rendererDescriptors.bindBufferToSet 2 0 0 5 64).state.m_sets =
      rendererDescriptors.m_sets ++ [(2, [])] ∧
    (rendererDescriptors.bindImageToSet 2 0 3 6 7).result = .undefinedBehaviour ∧
    (rendererDescriptors.bindImageToSet 2 0 3 6 7).state.m_sets =
      rendererDescriptors.m_sets ++ [(2, [])] ∧
    (rendererDescriptors.bindBufferToSet 1 10 0 5 64).result = .undefinedBehaviour ∧
    (rendererDescriptors.bindImageToSet 1 10 3 6 7).result = .undefinedBehaviour ∧
    rendererDescriptors.getDescriptorSet 2 0 = .thrown (.setsNotAllocated 2) ∧
    rendererDescriptors.getDescriptorSet 1 10 = .thrown (.instanceOutOfBounds 1 10 10) := by
  decide

/-- Claim C19, evaluated where it fails: with the single set index `UINT32_MAX`
declared, `maxSetIndex + 1` wraps to 0 in `uint32_t`, the layout vector is
created empty, and the write `layouts[UINT32_MAX]` falls past its end: the call
has no defined behaviour, where the claim has it throw for the undeclared
index 0. -/
theorem getAllDescriptorSetLayouts_wraps_at_last_index :
    layoutAtLastIndex.getAllDescriptorSetLayouts = .undefinedBehaviour ∧
    (layoutAtLastIndex.m_layouts.lookup 0).isNone = true ∧
    (layoutAtLastIndex.m_layouts.foldl (fun m kv => max m kv.1) 0 + 1) % 4294967296 = 0 := by
  decide

/-! ## Renderer: what the recreation leaves alone, and the object slots -/

/-- Claim C13: whatever the environment answers, the recreation leaves unchanged
the render pass, the descriptor manager (its layouts, its pool and its allocated
set instances), the per-frame and the per-object uniform buffers and their
allocations; none of its calls creates, allocates, writes or destroys a
descriptor object or a uniform buffer; the allocations overwritten for an object
slot are the same afterwards.  The renderables and their object-slot indices
belong to the scene, which the recreation is not given.  The other members (the
swapchain, the depth handles, the framebuffers, the pipeline manager, the frame
orchestrator and the resize flag) are all the recreation may modify. -/
theorem recreate_preserves_descriptor_identity (r : Renderer) (env : RecreateEnv) :
    (r.recreateSwapchainAndDependencies env).state.m_mainRenderPass = r.m_mainRenderPass ∧
    (r.recreateSwapchainAndDependencies env).state.m_descriptorManager =
      r.m_descriptorManager ∧
    (r.recreateSwapchainAndDependencies env).state.m_frameUBOs = r.m_frameUBOs ∧
    (r.recreateSwapchainAndDependencies env).state.m_objectUBOs = r.m_objectUBOs ∧
    (r.recreateSwapchainAndDependencies env).state.m_frameAllocations =
      r.m_frameAllocations ∧
    (r.recreateSwapchainAndDependencies env).state.m_objectAllocations =
      r.m_objectAllocations ∧
    (∀ e ∈ (r.recreateSwapchainAndDependencies env).events,
      e.touchesDescriptorsOrUBOs = false) ∧
    (∀ j, (r.recreateSwapchainAndDependencies env).state.updateObjectUBO j =
      r.updateObjectUBO j) := by
  have hev : ∀ e ∈ (r.recreateSwapchainAndDependencies env).events,
      e.touchesDescriptorsOrUBOs = false :=
    recreate_events_all (fun e => e.touchesDescriptorsOrUBOs = false) r env
      (fun e h => (isSwapchainCall_spec e h).2.2.1) rfl rfl rfl rfl (fun _ => rfl) rfl rfl rfl
      rfl (fun _ => rfl) rfl rfl (fun _ _ => rfl)
  have hst : (r.recreateSwapchainAndDependencies env).state.m_mainRenderPass =
        r.m_mainRenderPass ∧
      (r.recreateSwapchainAndDependencies env).state.m_descriptorManager =
        r.m_descriptorManager ∧
      (r.recreateSwapchainAndDependencies env).state.m_frameUBOs = r.m_frameUBOs ∧
      (r.recreateSwapchainAndDependencies env).state.m_objectUBOs = r.m_objectUBOs ∧
      (r.recreateSwapchainAndDependencies env).state.m_frameAllocations =
        r.m_frameAllocations ∧
      (r.recreateSwapchainAndDependencies env).state.m_objectAllocations =
        r.m_objectAllocations := by
    rcases env with ⟨f, senv⟩
    unfold Renderer.recreateSwapchainAndDependencies
    dsimp only
    generalize r.m_swapchain.recreate senv = sw
    rcases sw with ⟨res, st, evs⟩
    rcases f with _ | st2
    · cases res <;> exact ⟨rfl, rfl, rfl, rfl, rfl, rfl⟩
    · cases st2 <;> cases res <;> exact ⟨rfl, rfl, rfl, rfl, rfl, rfl⟩
  refine ⟨hst.1, hst.2.1, hst.2.2.1, hst.2.2.2.1, hst.2.2.2.2.1, hst.2.2.2.2.2, hev, ?_⟩
  intro j
  simp only [Renderer.updateObjectUBO, hst.2.2.2.2.2]

/-- A loop of steps that keep a field keeps the field. -/
theorem foldl_keeps {α β : Type} (f : Renderer → α → Renderer) (g : Renderer → β)
    (h : ∀ r a, g (f r a) = g r) (l : List α) (r : Renderer) : g (l.foldl f r) = g r := by
  induction l generalizing r with
  | nil => rfl
  | cons a l ih => rw [List.foldl_cons, ih, h]

/-- The method `createFrameUBOs` changes only the two vectors of the frame uniform
buffers. -/
theorem createFrameUBOs_keeps {β : Type} (g : Renderer → β) (r : Renderer)
    (vma : Nat → Nat × Nat)
    (h : ∀ (x : Renderer) (a b : List Nat),
      g { x with m_frameUBOs := a, m_frameAllocations := b } = g x) :
    g (r.createFrameUBOs vma) = g r := by
  unfold Renderer.createFrameUBOs
  rw [foldl_keeps (createFrameUBOsStep vma) g (fun x i => h x _ _)]
  exact h r _ _

/-- The method `createObjectUBOs` changes only the vectors of the object uniform
buffers. -/
theorem createObjectUBOs_keeps {β : Type} (g : Renderer → β) (r : Renderer) (n : Nat)
    (vma : Nat → Nat × Nat)
    (h : ∀ (x : Renderer) (a : ObjectUBOs) (b : List Nat),
      g { x with m_objectUBOs := a, m_objectAllocations := b } = g x) :
    g (r.createObjectUBOs n vma) = g r := by
  unfold Renderer.createObjectUBOs
  rw [foldl_keeps (createObjectUBOsStep vma) g (fun x i => h x _ _)]
  exact h r _ _

/-- The length of a resized vector. -/
theorem vectorResize_length (v : List Nat) (n : Nat) : (vectorResize v n).length = n := by
  simp only [vectorResize, List.length_append, List.length_take, List.length_replicate]
  omega

/-- One iteration of `createObjectUBOs` fills the next object. -/
theorem createObjectUBOsStep_filled (vma : Nat → Nat × Nat) (n k : Nat) (r : Renderer)
    (h : ObjectUBOsFilled vma n k r) (hk : k < n) :
    ObjectUBOsFilled vma n (k + 1) (createObjectUBOsStep vma r k) := by
  obtain ⟨h1, h2, h3, h4, h5⟩ := h
  refine ⟨?_, ?_, ?_, ?_, ?_⟩
  · simp [createObjectUBOsStep, h1]
  · simp [createObjectUBOsStep, h2]
  · simp [createObjectUBOsStep, h3]
  · simp [createObjectUBOsStep, h4]
  · intro j hj
    simp only [createObjectUBOsStep, List.getElem?_set, List.length_set, h1, h2, h3, h4]
    by_cases hjk : j = k
    · subst hjk
      have e1 : ¬ (j * 3 + 2 = j * 3) := by omega
      have e2 : ¬ (j * 3 + 1 = j * 3) := by omega
      have e3 : ¬ (j * 3 + 2 = j * 3 + 1) := by omega
      have e4 : ¬ (j * 3 + 1 = j * 3 + 2) := by omega
      have b1 : j * 3 < n * 3 := by omega
      have b2 : j * 3 + 1 < n * 3 := by omega
      have b3 : j * 3 + 2 < n * 3 := by omega
      simp [hk, e1, e2, e3, e4, b1, b2, b3]
    · have hlt : j < k := by omega
      obtain ⟨a1, a2, a3, a4, a5, a6⟩ := h5 j hlt
      have hkj : ¬ (k = j) := fun e => hjk e.symm
      have e1 : ¬ (k * 3 + 2 = j * 3) := by omega
      have e2 : ¬ (k * 3 + 1 = j * 3) := by omega
      have e3 : ¬ (k * 3 = j * 3) := by omega
      have e4 : ¬ (k * 3 + 2 = j * 3 + 1) := by omega
      have e5 : ¬ (k * 3 + 1 = j * 3 + 1) := by omega
      have e6 : ¬ (k * 3 = j * 3 + 1) := by omega
      have e7 : ¬ (k * 3 + 2 = j * 3 + 2) := by omega
      have e8 : ¬ (k * 3 + 1 = j * 3 + 2) := by omega
      have e9 : ¬ (k * 3 = j * 3 + 2) := by omega
      simp [hkj, e1, e2, e3, e4, e5, e6, e7, e8, e9, a1, a2, a3, a4, a5, a6]

/-- After `createObjectUBOs` for `n` objects all `n` objects are filled. -/
theorem createObjectUBOs_filled (r : Renderer) (n : Nat) (vma : Nat → Nat × Nat) :
    ObjectUBOsFilled vma n n (r.createObjectUBOs n vma) := by
  have key : ∀ k, k ≤ n → ObjectUBOsFilled vma n k
      ((List.range k).foldl (createObjectUBOsStep vma)
        { r with
          m_objectUBOs :=
            { transform := vectorResize r.m_objectUBOs.transform n
              light := vectorResize r.m_objectUBOs.light n
              material := vectorResize r.m_objectUBOs.material n }
          m_objectAllocations := vectorResize r.m_objectAllocations (n * 3) }) := by
    intro k
    induction k with
    | zero =>
      intro _
      refine ⟨vectorResize_length _ _, vectorResize_length _ _, vectorResize_length _ _,
        vectorResize_length _ _, ?_⟩
      intro j hj
      omega
    | succ k ih =>
      intro hk
      rw [List.range_succ, List.foldl_append]
      exact createObjectUBOsStep_filled vma n k _ (ih (by omega)) (by omega)
  exact key n (Nat.le_refl n)

/-- With the instances of set 1 allocated, a `bindBufferToSet` on instance `i` of
set 1 within them returns, leaves the manager as it was, and writes the buffer
to the descriptor set `m_sets[1][i]`. -/
theorem bindBufferToSet_within (d : DescriptorManager) (insts : List Nat)
    (i binding buffer size : Nat) (hs : d.m_sets.lookup 1 = some insts) (hi : i < insts.length) :
    d.bindBufferToSet 1 i binding buffer size =
      ⟨.returned (), d, [.writeBufferDescriptor (insts.getD i 0) binding buffer size]⟩ := by
  have hget : insts[i]? = some (insts.getD i 0) := by
    rw [List.getD_eq_getElem?_getD, List.getElem?_eq_getElem hi]
    rfl
  simp only [DescriptorManager.bindBufferToSet, DescriptorManager.setAt, hs, hget]

/-- The three descriptor writes of one iteration of the binding loop. -/
theorem bindObjectUBOsAt_filled (vma : Nat → Nat × Nat) (n : Nat) (r : Renderer)
    (sizes : UboSizes) (d : DescriptorManager) (insts : List Nat) (i : Nat)
    (hf : ObjectUBOsFilled vma n n r) (hs : d.m_sets.lookup 1 = some insts)
    (hi : i < insts.length) (hn : i < n) :
    bindObjectUBOsAt r sizes d i =
      ⟨.returned (), d,
       [.writeBufferDescriptor (insts.getD i 0) 0 (vma (i * 3)).1 sizes.transform,
        .writeBufferDescriptor (insts.getD i 0) 1 (vma (i * 3 + 1)).1 sizes.light,
        .writeBufferDescriptor (insts.getD i 0) 2 (vma (i * 3 + 2)).1 sizes.material]⟩ := by
  obtain ⟨a1, a2, a3, _, _, _⟩ := hf.2.2.2.2 i hn
  simp only [bindObjectUBOsAt, a1, a2, a3]
  simp [Outcome.andThen, bindBufferToSet_within d insts i _ _ _ hs hi]

/-- The binding loop over the first `k` objects. -/
theorem bindObjectUBOs_filled (vma : Nat → Nat × Nat) (n : Nat) (r : Renderer)
    (sizes : UboSizes) (d : DescriptorManager) (insts : List Nat)
    (hf : ObjectUBOsFilled vma n n r) (hs : d.m_sets.lookup 1 = some insts)
    (hlen : n ≤ insts.length) :
    ∀ k, k ≤ n → r.bindObjectUBOs k sizes d =
      ⟨.returned (), d,
       (List.range k).flatMap (fun i =>
        [.writeBufferDescriptor (insts.getD i 0) 0 (vma (i * 3)).1 sizes.transform,
         .writeBufferDescriptor (insts.getD i 0) 1 (vma (i * 3 + 1)).1 sizes.light,
         .writeBufferDescriptor (insts.getD i 0) 2 (vma (i * 3 + 2)).1 sizes.material])⟩ := by
  intro k
  induction k with
  | zero => intro _; rfl
  | succ k ih =>
    intro hk
    have ih2 := ih (by omega)
    unfold Renderer.bindObjectUBOs at ih2 ⊢
    rw [List.range_succ, List.foldl_append, ih2]
    simp only [List.foldl_cons, List.foldl_nil, Outcome.andThen]
    rw [bindObjectUBOsAt_filled vma n r sizes d insts k hf hs (by omega) (by omega)]
    simp [List.flatMap_append]

/-- The three allocations `updateObjectUBO` overwrites for object `j`. -/
theorem updateObjectUBO_filled (vma : Nat → Nat × Nat) (n : Nat) (r : Renderer) (j : Nat)
    (hf : ObjectUBOsFilled vma n n r) (hj : j < n) :
    r.updateObjectUBO j =
      some [(vma (j * 3)).2, (vma (j * 3 + 1)).2, (vma (j * 3 + 2)).2] := by
  obtain ⟨_, _, _, a4, a5, a6⟩ := hf.2.2.2.2 j hj
  simp [Renderer.updateObjectUBO, a4, a5, a6]

/-- The buffer `cleanupUBOs` destroys with allocation `i` is the buffer created
with it. -/
theorem cleanupObjectUBOAt_filled (vma : Nat → Nat × Nat) (n : Nat) (r : Renderer) (i : Nat)
    (hf : ObjectUBOsFilled vma n n r) (hi : i < n * 3) :
    cleanupObjectUBOAt r i = some (.vmaDestroyBuffer (vma i).1 (vma i).2) := by
  have hj : i / 3 < n := by omega
  obtain ⟨a1, a2, a3, a4, a5, a6⟩ := hf.2.2.2.2 (i / 3) hj
  have hcase : i % 3 = 0 ∨ i % 3 = 1 ∨ i % 3 = 2 := by omega
  rcases hcase with h | h | h
  · have e : i / 3 * 3 = i := by omega
    rw [e] at a1 a4
    simp [cleanupObjectUBOAt, h, a1, a4]
  · have e : i / 3 * 3 + 1 = i := by omega
    rw [e] at a2 a5
    simp [cleanupObjectUBOAt, h, a2, a5]
  · have e : i / 3 * 3 + 2 = i := by omega
    rw [e] at a3 a6
    simp [cleanupObjectUBOAt, h, a3, a6]

/-- A loop of reads that all succeed yields the list of what they read. -/
theorem mapM_some_of_forall {α β : Type} (f : α → Option β) (g : α → β) (l : List α)
    (h : ∀ a ∈ l, f a = some (g a)) : l.mapM f = some (l.map g) := by
  induction l with
  | nil => rfl
  | cons a l ih =>
    rw [List.mapM_cons, h a (List.mem_cons_self _ _),
      ih (fun x hx => h x (List.mem_cons_of_mem _ hx))]
    rfl

/-- Claim C14: after `createObjectUBOs` for `n` objects, with the `n` instances of
descriptor set 1 allocated, for every object slot j < n: the allocations
`updateObjectUBO` overwrites for slot j are those at 3j, 3j+1, 3j+2, which were
created together with the buffers the constructor binds at the bindings 0, 1, 2
of instance j of set 1 (`vma k` is the buffer and the allocation of one
creation); the draw of a renderable with slot j, on a renderer that holds a
pipeline manager and this descriptor manager with the instance of set 0 of the
frame, returns after it updated slot j and bound instance j of set 1, the
descriptor set those buffers were written to; and the second loop of
`cleanupUBOs` destroys allocation i together with the buffer created with it,
for every i < 3n. -/
theorem object_slot_buffers_match (r0 : Renderer) (n : Nat) (vma : Nat → Nat × Nat)
    (sizes : UboSizes) (d : DescriptorManager) (insts : List Nat) (j : Nat)
    (hs : d.m_sets.lookup 1 = some insts) (hlen : insts.length = n) (hj : j < n) :
    (r0.createObjectUBOs n vma).updateObjectUBO j =
      some [(vma (j * 3)).2, (vma (j * 3 + 1)).2, (vma (j * 3 + 2)).2] ∧
    ((r0.createObjectUBOs n vma).bindObjectUBOs n sizes d).result = .returned () ∧
    ((r0.createObjectUBOs n vma).bindObjectUBOs n sizes d).events =
      (List.range n).flatMap (fun i =>
        [.writeBufferDescriptor (insts.getD i 0) 0 (vma (i * 3)).1 sizes.transform,
         .writeBufferDescriptor (insts.getD i 0) 1 (vma (i * 3 + 1)).1 sizes.light,
         .writeBufferDescriptor (insts.getD i 0) 2 (vma (i * 3 + 2)).1 sizes.material]) ∧
    d.getDescriptorSet 1 j = .returned (insts.getD j 0) ∧
    (∀ slot frame h0, r0.m_pipelineManager = true → r0.m_descriptorManager = some d →
      d.getDescriptorSet 0 frame = .returned h0 →
      drawRenderable (r0.createObjectUBOs n vma) slot frame ⟨j⟩ =
        (.returned (),
         [.updateObjectUBO j, .cmdBindPipeline slot, .cmdBindVertexBuffers slot,
          .cmdBindIndexBuffer slot, .cmdBindDescriptorSets slot frame j,
          .cmdDrawIndexed slot])) ∧
    (r0.createObjectUBOs n vma).m_objectAllocations.length = n * 3 ∧
    (List.range (n * 3)).mapM (cleanupObjectUBOAt (r0.createObjectUBOs n vma)) =
      some ((List.range (n * 3)).map (fun i => .vmaDestroyBuffer (vma i).1 (vma i).2)) := by
  have hf := createObjectUBOs_filled r0 n vma
  have hb := bindObjectUBOs_filled vma n _ sizes d insts hf hs (by omega) n (Nat.le_refl n)
  have hget : d.getDescriptorSet 1 j = .returned (insts.getD j 0) := by
    have hget : insts[j]? = some (insts.getD j 0) := by
      rw [List.getD_eq_getElem?_getD, List.getElem?_eq_getElem (by omega)]
      rfl
    simp only [DescriptorManager.getDescriptorSet, hs, hget]
  refine ⟨updateObjectUBO_filled vma n _ j hf hj, ?_, ?_, hget, ?_, hf.2.2.2.1, ?_⟩
  · rw [hb]
  · rw [hb]
  · intro slot frame h0 hp hd hs0
    exact drawRenderable_of_slot (r0.createObjectUBOs n vma) d slot frame ⟨j⟩ _ h0 _
      (updateObjectUBO_filled vma n _ j hf hj)
      ((createObjectUBOs_keeps (fun x => x.m_pipelineManager) r0 n vma
        (fun _ _ _ => rfl)).trans hp)
      ((createObjectUBOs_keeps (fun x => x.m_descriptorManager) r0 n vma
        (fun _ _ _ => rfl)).trans hd)
      hs0 hget
  · apply mapM_some_of_forall
    intro i hi
    exact cleanupObjectUBOAt_filled vma n _ i hf (List.mem_range.mp hi)

/-- Witness of C14 on the freshly constructed renderer: ten objects, slot 4; a
renderable on slot 4 is drawn with instance 4 of set 1, and for one on slot 10,
past the ten objects, `updateObjectUBO` reads past the end of the allocations. -/
theorem object_slot_buffers_match_witness :
    (Renderer.fresh false 3).updateObjectUBO 4 = some [225, 227, 229] ∧
    rendererDescriptors.getDescriptorSet 1 4 = .returned 2004 ∧
    List.take 3 (List.drop 12
      ((Renderer.fresh false 3).bindObjectUBOs 10 ⟨1, 2, 3, 4⟩ rendererDescriptors).events) =
        [.writeBufferDescriptor 2004 0 224 2, .writeBufferDescriptor 2004 1 226 3,
         .writeBufferDescriptor 2004 2 228 4] ∧
    ((Renderer.fresh false 3).createObjectUBOs 10 (driverBuffers 200)).updateObjectUBO 4 =
      some [(driverBuffers 200 (4 * 3)).2, (driverBuffers 200 (4 * 3 + 1)).2,
        (driverBuffers 200 (4 * 3 + 2)).2] ∧
    drawRenderable ((Renderer.fresh false 3).createObjectUBOs 10 (driverBuffers 200)) 0 1 ⟨4⟩ =
      (.returned (),
       [.updateObjectUBO 4, .cmdBindPipeline 0, .cmdBindVertexBuffers 0,
        .cmdBindIndexBuffer 0, .cmdBindDescriptorSets 0 1 4, .cmdDrawIndexed 0]) ∧
    drawRenderable (Renderer.fresh false 3) 0 1 ⟨4⟩ =
      (.returned (),
       [.updateObjectUBO 4, .cmdBindPipeline 0, .cmdBindVertexBuffers 0,
        .cmdBindIndexBuffer 0, .cmdBindDescriptorSets 0 1 4, .cmdDrawIndexed 0]) ∧
    (drawRenderable (Renderer.fresh false 3) 0 1 ⟨10⟩).1 = .undefinedBehaviour :=
  have h := object_slot_buffers_match (Renderer.fresh false 3) 10 (driverBuffers 200)
    ⟨1, 2, 3, 4⟩ rendererDescriptors
    [2000, 2001, 2002, 2003, 2004, 2005, 2006, 2007, 2008, 2009] 4 (by decide) rfl (by decide)
  ⟨by decide, by decide, by decide, h.1,
   h.2.2.2.2.1 0 1 1001 (by decide) (by decide) (by decide), by decide, by decide⟩

/-! ## DescriptorManager: the dense layout list away from the wrap -/

/-- The largest key met by the first loop of `getAllDescriptorSetLayouts` bounds
every key, and is the start value or one of the keys. -/
theorem foldl_max_key (m : List (Nat × DescriptorSetLayout)) :
    ∀ init : Nat,
      init ≤ m.foldl (fun a kv => max a kv.1) init ∧
      (∀ kv ∈ m, kv.1 ≤ m.foldl (fun a kv => max a kv.1) init) ∧
      (m.foldl (fun a kv => max a kv.1) init = init ∨
        ∃ kv ∈ m, m.foldl (fun a kv => max a kv.1) init = kv.1) := by
  induction m with
  | nil =>
    intro init
    simp
  | cons x xs ih =>
    intro init
    obtain ⟨h1, h2, h3⟩ := ih (max init x.1)
    simp only [List.foldl_cons]
    refine ⟨by omega, ?_, ?_⟩
    · intro kv hkv
      rcases List.mem_cons.mp hkv with e | e
      · subst e
        omega
      · exact h2 kv e
    · rcases h3 with e | ⟨kv, hkv, e⟩
      · by_cases hle : x.1 ≤ init
        · left
          rw [e]
          omega
        · right
          exact ⟨x, List.mem_cons_self _ _, by rw [e]; omega⟩
      · right
        exact ⟨kv, List.mem_cons_of_mem _ hkv, e⟩

/-- A key that a map holds is among its keys. -/
theorem key_mem_of_lookup {β : Type} (m : List (Nat × β)) (k : Nat) (v : β)
    (h : m.lookup k = some v) : k ∈ m.map Prod.fst := by
  induction m with
  | nil => simp at h
  | cons x xs ih =>
    obtain ⟨a, b⟩ := x
    by_cases hka : k = a
    · subst hka
      simp
    · have hne : (k == a) = false := by simpa using hka
      simp only [List.lookup_cons, hne] at h
      exact List.mem_cons_of_mem _ (ih h)

/-- A key among the keys of a map is held by the map. -/
theorem lookup_isSome_of_key_mem {β : Type} (m : List (Nat × β)) (k : Nat)
    (h : k ∈ m.map Prod.fst) : (m.lookup k).isSome = true := by
  induction m with
  | nil => simp at h
  | cons x xs ih =>
    obtain ⟨a, b⟩ := x
    by_cases hka : k = a
    · subst hka
      simp [List.lookup_cons]
    · have hne : (k == a) = false := by simpa using hka
      simp only [List.lookup_cons, hne]
      apply ih
      simpa [hka] using h

/-- The second loop of `getAllDescriptorSetLayouts` on a map with distinct keys, all
within the vector: it stays within the vector, keeps its size, and leaves at
each index the handle of the layout declared for it, or what was there. -/
theorem fillLayouts_spec (m : List (Nat × DescriptorSetLayout)) :
    ∀ acc : List Nat, (m.map Prod.fst).Nodup → (∀ kv ∈ m, kv.1 < acc.length) →
      ∃ r, fillLayouts m acc = some r ∧ r.length = acc.length ∧
        ∀ i, r[i]? = match m.lookup i with
          | some l => some l.handle
          | none => acc[i]? := by
  induction m with
  | nil =>
    intro acc _ _
    exact ⟨acc, rfl, rfl, fun i => rfl⟩
  | cons x xs ih =>
    intro acc hnd hlt
    obtain ⟨k, l⟩ := x
    simp only [List.map_cons, List.nodup_cons] at hnd
    have hk : k < acc.length := hlt (k, l) (List.mem_cons_self _ _)
    obtain ⟨r, hr, hlen, hget⟩ := ih (acc.set k l.handle) hnd.2 (by
      intro kv hkv
      rw [List.length_set]
      exact hlt kv (List.mem_cons_of_mem _ hkv))
    refine ⟨r, ?_, ?_, ?_⟩
    · simp [fillLayouts, hk, hr]
    · rw [hlen, List.length_set]
    · intro i
      rw [hget i]
      by_cases hik : i = k
      · subst hik
        have hnone : xs.lookup i = none := by
          cases hl : xs.lookup i with
          | none => rfl
          | some v =>
            exfalso
            exact hnd.1 (key_mem_of_lookup xs i v hl)
        simp [hnone, List.lookup_cons, hk]
      · have hne : (i == k) = false := by simpa using hik
        simp only [List.lookup_cons, hne]
        cases xs.lookup i with
        | some v => rfl
        | none =>
          simp only
          rw [List.getElem?_set_ne (fun e => hik e.symm)]

/-- An entry a map returns for a key is one of its entries. -/
theorem mem_of_lookup {β : Type} (m : List (Nat × β)) (k : Nat) (v : β)
    (h : m.lookup k = some v) : (k, v) ∈ m := by
  induction m with
  | nil => simp at h
  | cons x xs ih =>
    obtain ⟨a, b⟩ := x
    by_cases hka : k = a
    · subst hka
      simp only [List.lookup_cons, beq_self_eq_true, Option.some.injEq] at h
      subst h
      exact List.mem_cons_self _ _
    · have hne : (k == a) = false := by simpa using hka
      simp only [List.lookup_cons, hne] at h
      exact List.mem_cons_of_mem _ (ih h)

/-- Away from the wrap of `maxSetIndex + 1`, `getAllDescriptorSetLayouts` returns the
dense layout list or throws.  On a manager whose declared set indices are all below
`UINT32_MAX` (the layout handles being non-null, as the driver yields them, and
the keys of the map distinct): with no layout declared it returns the empty
list; otherwise, with `max` the largest declared set index, it returns a list of
length max + 1 holding at each index the handle of the layout declared for it
when every index up to max is declared, and it throws the missing-layout error
for an undeclared index when some index up to max is not declared. -/
theorem getAllDescriptorSetLayouts_below_wrap (d : DescriptorManager)
    (hnd : (d.m_layouts.map Prod.fst).Nodup)
    (hh : ∀ kv ∈ d.m_layouts, kv.2.handle ≠ 0)
    (hmax : ∀ kv ∈ d.m_layouts, kv.1 < UINT32_MAX) :
    (d.m_layouts = [] → d.getAllDescriptorSetLayouts = .returned []) ∧
    (d.m_layouts ≠ [] →
      (∀ kv ∈ d.m_layouts, kv.1 ≤ d.m_layouts.foldl (fun a kv => max a kv.1) 0) ∧
      (∃ kv ∈ d.m_layouts, d.m_layouts.foldl (fun a kv => max a kv.1) 0 = kv.1) ∧
      ((∀ i, i ≤ d.m_layouts.foldl (fun a kv => max a kv.1) 0 →
          (d.m_layouts.lookup i).isSome = true) →
        ∃ ls, d.getAllDescriptorSetLayouts = .returned ls ∧
          ls.length = d.m_layouts.foldl (fun a kv => max a kv.1) 0 + 1 ∧
          ∀ i, i ≤ d.m_layouts.foldl (fun a kv => max a kv.1) 0 →
            ls[i]? = (d.m_layouts.lookup i).map (fun l => l.handle)) ∧
      ((∃ i, i ≤ d.m_layouts.foldl (fun a kv => max a kv.1) 0 ∧
          d.m_layouts.lookup i = none) →
        ∃ i, i ≤ d.m_layouts.foldl (fun a kv => max a kv.1) 0 ∧
          d.m_layouts.lookup i = none ∧
          d.getAllDescriptorSetLayouts = .thrown (.layoutMissing i))) := by
  constructor
  · intro he
    simp [DescriptorManager.getAllDescriptorSetLayouts, he]
  · intro hne
    obtain ⟨_, hge, hor⟩ := foldl_max_key d.m_layouts 0
    generalize hM : d.m_layouts.foldl (fun a kv => max a kv.1) 0 = M at hge hor ⊢
    have hMlt : M < UINT32_MAX := by
      rcases hor with e | ⟨kv, hkv, e⟩
      · rw [e]
        decide
      · rw [e]
        exact hmax kv hkv
    have hMkey : ∃ kv ∈ d.m_layouts, M = kv.1 := by
      rcases hor with e | ⟨kv, hkv, e⟩
      · cases hl : d.m_layouts with
        | nil => exact absurd hl hne
        | cons x xs =>
          have hx : x ∈ d.m_layouts := by rw [hl]; exact List.mem_cons_self _ _
          have := hge x hx
          exact ⟨x, List.mem_cons_self _ _, by omega⟩
      · exact ⟨kv, hkv, e⟩
    have hwrap : (M + 1) % 4294967296 = M + 1 := by
      apply Nat.mod_eq_of_lt
      unfold UINT32_MAX at hMlt
      omega
    obtain ⟨r, hr, hlen, hget⟩ := fillLayouts_spec d.m_layouts (List.replicate (M + 1) 0) hnd (by
      intro kv hkv
      rw [List.length_replicate]
      have := hge kv hkv
      omega)
    rw [List.length_replicate] at hlen
    have hemp : d.m_layouts.isEmpty = false := by
      cases hl : d.m_layouts with
      | nil => exact absurd hl hne
      | cons x xs => rfl
    have hrun : d.getAllDescriptorSetLayouts =
        if r.findIdx (fun h => decide (h = 0)) < r.length then
          .thrown (.layoutMissing (r.findIdx (fun h => decide (h = 0))))
        else .returned r := by
      simp only [DescriptorManager.getAllDescriptorSetLayouts, hemp, hM, hwrap, hr]
      simp
    -- what the vector holds at an index up to the largest key
    have hat : ∀ i, i ≤ M → r[i]? = match d.m_layouts.lookup i with
        | some l => some l.handle
        | none => some 0 := by
      intro i hi
      rw [hget i]
      cases d.m_layouts.lookup i with
      | some l => rfl
      | none =>
        simp only
        rw [List.getElem?_replicate]
        simp
        omega
    refine ⟨hge, hMkey, ?_, ?_⟩
    · intro hall
      refine ⟨r, ?_, hlen, ?_⟩
      · rw [hrun]
        have hnz : ∀ x ∈ r, decide (x = 0) = false := by
          intro x hx
          obtain ⟨i, hi, hxi⟩ := List.getElem_of_mem hx
          have hiM : i ≤ M := by omega
          have h1 := hat i hiM
          rw [List.getElem?_eq_getElem hi, hxi] at h1
          cases hl : d.m_layouts.lookup i with
          | none =>
            have := hall i hiM
            rw [hl] at this
            simp at this
          | some l =>
            rw [hl] at h1
            simp only [Option.some.injEq] at h1
            have := hh (i, l) (mem_of_lookup _ _ _ hl)
            simp only at this
            rw [h1]
            simpa using this
        have := List.findIdx_eq_length.mpr hnz
        rw [this]
        simp
      · intro i hi
        rw [hat i hi]
        cases hl : d.m_layouts.lookup i with
        | none =>
          have := hall i hi
          rw [hl] at this
          simp at this
        | some l => rfl
    · intro hex
      obtain ⟨i, hi, hnone⟩ := hex
      have hri : r[i]? = some 0 := by
        rw [hat i hi, hnone]
      have hilt : i < r.length := by omega
      have hmem : ∃ x ∈ r, decide (x = 0) = true := by
        refine ⟨0, ?_, by simp⟩
        rw [List.mem_iff_getElem?]
        exact ⟨i, hri⟩
      have hidx := List.findIdx_lt_length_of_exists hmem
      have hzero : r[r.findIdx (fun h => decide (h = 0))] = 0 := by
        have := @List.findIdx_getElem _ (fun h => decide (h = 0)) r hidx
        simpa using this
      refine ⟨r.findIdx (fun h => decide (h = 0)), by omega, ?_, ?_⟩
      · have h1 := hat (r.findIdx (fun h => decide (h = 0))) (by omega)
        rw [List.getElem?_eq_getElem hidx, hzero] at h1
        cases hl : d.m_layouts.lookup (r.findIdx (fun h => decide (h = 0))) with
        | none => rfl
        | some l =>
          rw [hl] at h1
          simp only [Option.some.injEq] at h1
          have := hh (_, l) (mem_of_lookup _ _ _ hl)
          exact absurd h1.symm this
      · rw [hrun]
        simp [hidx]

/-! ## SwapchainManager: the extent -/

/-- A clamped value lies between the bounds when the bounds are ordered. -/
theorem stdClamp_bounds (v lo hi : Nat) (h : lo ≤ hi) :
    lo ≤ stdClamp v lo hi ∧ stdClamp v lo hi ≤ hi := by
  unfold stdClamp
  split_ifs <;> omega

/-- Claim C21: `chooseSwapExtent` returns the current extent of the surface unchanged
when its width is not 0xFFFFFFFF; otherwise the width of the result is the
framebuffer width (converted to `uint32_t`) clamped between the minimum and the
maximum width, the height likewise, so that with ordered bounds both components
lie within the bounds; the clamp returns the lower bound below it, the upper
bound above it and the value itself in between, and the conversion keeps every
size from 0 to 0xFFFFFFFF. -/
theorem chooseSwapExtent_current_or_clamped (capabilities : SurfaceCapabilities)
    (framebufferWidth framebufferHeight : Int) :
    (capabilities.currentExtent.width ≠ 4294967295 →
      chooseSwapExtent capabilities framebufferWidth framebufferHeight =
        capabilities.currentExtent) ∧
    (capabilities.currentExtent.width = 4294967295 →
      (chooseSwapExtent capabilities framebufferWidth framebufferHeight).width =
        stdClamp (toUint32 framebufferWidth) capabilities.minImageExtent.width
          capabilities.maxImageExtent.width ∧
      (chooseSwapExtent capabilities framebufferWidth framebufferHeight).height =
        stdClamp (toUint32 framebufferHeight) capabilities.minImageExtent.height
          capabilities.maxImageExtent.height ∧
      (capabilities.minImageExtent.width ≤ capabilities.maxImageExtent.width →
        capabilities.minImageExtent.width ≤
          (chooseSwapExtent capabilities framebufferWidth framebufferHeight).width ∧
        (chooseSwapExtent capabilities framebufferWidth framebufferHeight).width ≤
          capabilities.maxImageExtent.width) ∧
      (capabilities.minImageExtent.height ≤ capabilities.maxImageExtent.height →
        capabilities.minImageExtent.height ≤
          (chooseSwapExtent capabilities framebufferWidth framebufferHeight).height ∧
        (chooseSwapExtent capabilities framebufferWidth framebufferHeight).height ≤
          capabilities.maxImageExtent.height)) ∧
    (∀ v lo hi : Nat, lo ≤ hi →
      stdClamp v lo hi = if v < lo then lo else if hi < v then hi else v) ∧
    (∀ x : Int, 0 ≤ x → x < 4294967296 → (toUint32 x : Int) = x) := by
  refine ⟨?_, ?_, ?_, ?_⟩
  · intro h
    simp [chooseSwapExtent, UINT32_MAX, h]
  · intro h
    have e : chooseSwapExtent capabilities framebufferWidth framebufferHeight =
        { width := stdClamp (toUint32 framebufferWidth) capabilities.minImageExtent.width
            capabilities.maxImageExtent.width
          height := stdClamp (toUint32 framebufferHeight) capabilities.minImageExtent.height
            capabilities.maxImageExtent.height } := by
      simp [chooseSwapExtent, UINT32_MAX, h]
    rw [e]
    exact ⟨rfl, rfl, fun hw => stdClamp_bounds _ _ _ hw, fun hh => stdClamp_bounds _ _ _ hh⟩
  · intro v lo hi _
    rfl
  · intro x h0 h1
    unfold toUint32
    rw [Int.emod_eq_of_lt h0 h1]
    exact Int.toNat_of_nonneg h0

/-- A surface without a current extent, bounds from 1x1 to 4096x4096 and a window
of 5000x0 pixels: the extent is 4096x1. -/
theorem chooseSwapExtent_current_or_clamped_witness :
    (chooseSwapExtent ⟨2, 8, ⟨4294967295, 4294967295⟩, ⟨1, 1⟩, ⟨4096, 4096⟩⟩ 5000 0).width =
      stdClamp (toUint32 5000) 1 4096 ∧
    (chooseSwapExtent ⟨2, 8, ⟨4294967295, 4294967295⟩, ⟨1, 1⟩, ⟨4096, 4096⟩⟩ 5000 0).height =
      stdClamp (toUint32 0) 1 4096 ∧
    (1 ≤ 4096 →
      1 ≤ (chooseSwapExtent ⟨2, 8, ⟨4294967295, 4294967295⟩, ⟨1, 1⟩, ⟨4096, 4096⟩⟩ 5000 0).width ∧
      (chooseSwapExtent ⟨2, 8, ⟨4294967295, 4294967295⟩, ⟨1, 1⟩, ⟨4096, 4096⟩⟩ 5000 0).width ≤
        4096) ∧
    (1 ≤ 4096 →
      1 ≤ (chooseSwapExtent ⟨2, 8, ⟨4294967295, 4294967295⟩, ⟨1, 1⟩, ⟨4096, 4096⟩⟩ 5000 0).height ∧
      (chooseSwapExtent ⟨2, 8, ⟨4294967295, 4294967295⟩, ⟨1, 1⟩, ⟨4096, 4096⟩⟩ 5000 0).height ≤
        4096) :=
  (chooseSwapExtent_current_or_clamped
    ⟨2, 8, ⟨4294967295, 4294967295⟩, ⟨1, 1⟩, ⟨4096, 4096⟩⟩ 5000 0).2.1 rfl

/-! ## Context: the choice of the physical device -/

/-- One iteration of the queue-family loop sets the graphics index when it was set
or the family is graphics-capable, and the present index likewise. -/
theorem scanQueueFamily_graphics (i : Nat) (q : QueueFamily) (c : QueueFamilyIndices)
    (f : Bool) :
    (scanQueueFamily i q c f).1.graphicsFamily.isSome = (c.graphicsFamily.isSome || q.graphics) ∧
    (scanQueueFamily i q c f).1.presentFamily.isSome =
      (c.presentFamily.isSome || q.presentSupport) := by
  rcases c with ⟨g, p, cf, t⟩
  rcases q with ⟨qg, qc, qt, qp⟩
  cases g <;> cases p <;> cases qg <;> cases qp <;> simp [scanQueueFamily] <;>
    split_ifs <;> simp

/-- After the queue-family loop the graphics index is set when it was set before or
some family is graphics-capable, and the present index likewise. -/
theorem scanQueueFamilies_complete (qs : List QueueFamily) (i : Nat) (c : QueueFamilyIndices)
    (f : Bool) :
    (scanQueueFamilies qs i c f).1.graphicsFamily.isSome =
      (c.graphicsFamily.isSome || qs.any (fun q => q.graphics)) ∧
    (scanQueueFamilies qs i c f).1.presentFamily.isSome =
      (c.presentFamily.isSome || qs.any (fun q => q.presentSupport)) := by
  induction qs generalizing i c f with
  | nil => simp [scanQueueFamilies]
  | cons q qs ih =>
    have h := scanQueueFamily_graphics i q c f
    simp only [scanQueueFamilies, List.any_cons]
    rw [(ih _ _ _).1, (ih _ _ _).2, h.1, h.2]
    simp [Bool.or_assoc]

/-- The device loop scores a device exactly when the device has a graphics-capable
family and a family with present support. -/
theorem score_isSome (d : PhysicalDevice) : d.score.isSome = d.exposesGraphicsAndPresent := by
  have h := scanQueueFamilies_complete d.queueFamilies 0 ⟨none, none, none, none⟩ false
  unfold PhysicalDevice.score PhysicalDevice.exposesGraphicsAndPresent
  unfold QueueFamilyIndices.isComplete PhysicalDevice.scan
  rw [h.1, h.2]
  simp only [Option.isSome_none, Bool.false_or]
  by_cases hc : (d.queueFamilies.any (fun q => q.graphics) &&
      d.queueFamilies.any (fun q => q.presentSupport)) = true
  · simp [hc]
  · simp only [Bool.not_eq_true] at hc
    simp [hc]

/-- The device-type part of the score lies between 0 and 1000. -/
theorem deviceTypeScore_range (t : PhysicalDeviceType) :
    0 ≤ deviceTypeScore t ∧ deviceTypeScore t ≤ 1000 := by
  cases t <;> simp [deviceTypeScore]

/-- The score of a scored device: the combined bonus, if the flag is set, plus the
device-type part. -/
theorem score_eq (d : PhysicalDevice) (s : Int) (h : d.score = some s) :
    s = (if d.scan.2 then 10000 else 0) + deviceTypeScore d.deviceType := by
  unfold PhysicalDevice.score at h
  by_cases hc : d.scan.1.isComplete = false
  · rw [if_pos hc] at h
    cases h
  · rw [if_neg hc] at h
    exact (Option.some.inj h).symm

/-- No score is negative. -/
theorem score_nonneg (d : PhysicalDevice) (s : Int) (h : d.score = some s) : 0 ≤ s := by
  have e := score_eq d s h
  have r := deviceTypeScore_range d.deviceType
  split_ifs at e <;> omega

/-- What the device loop leaves: the best score does not decrease, no scored
device of the list beats it, and either nothing was chosen anew or the chosen
device is the first of the list that reaches the best score. -/
theorem pickLoop_spec (ds : List PhysicalDevice) (k : Nat) (best : DeviceChoice) :
    best.bestScore ≤ (pickLoop ds k best).bestScore ∧
    (∀ (j : Nat) (d : PhysicalDevice) (s : Int), ds[j]? = some d → d.score = some s →
      s ≤ (pickLoop ds k best).bestScore) ∧
    (pickLoop ds k best = best ∨
      ∃ (j : Nat) (d : PhysicalDevice), ds[j]? = some d ∧
        (pickLoop ds k best).chosenDevice = some (k + j) ∧
        d.score = some (pickLoop ds k best).bestScore ∧
        (pickLoop ds k best).bestIndices = d.scan.1 ∧
        best.bestScore < (pickLoop ds k best).bestScore ∧
        ∀ (i : Nat) (d' : PhysicalDevice) (s' : Int), i < j → ds[i]? = some d' →
          d'.score = some s' →
          s' < (pickLoop ds k best).bestScore) := by
  induction ds generalizing k best with
  | nil =>
    refine ⟨le_refl _, ?_, Or.inl rfl⟩
    intro j d s h
    simp at h
  | cons d0 ds ih =>
    cases hs : d0.score with
    | none =>
      have e : pickLoop (d0 :: ds) k best = pickLoop ds (k + 1) best := by
        simp [pickLoop, hs]
      rw [e]
      obtain ⟨h1, h2, h3⟩ := ih (k + 1) best
      refine ⟨h1, ?_, ?_⟩
      · intro j d s hj hd
        cases j with
        | zero =>
          simp only [List.getElem?_cons_zero, Option.some.injEq] at hj
          subst hj
          rw [hs] at hd
          cases hd
        | succ j => exact h2 j d s (by simpa using hj) hd
      · rcases h3 with h3 | ⟨j, d, a, b, c, e1, e2, e3⟩
        · exact Or.inl h3
        · refine Or.inr ⟨j + 1, d, by simpa using a, by rw [b]; congr 1; omega, c, e1, e2, ?_⟩
          intro i d' s' hi hd' hs'
          cases i with
          | zero =>
            simp only [List.getElem?_cons_zero, Option.some.injEq] at hd'
            subst hd'
            rw [hs] at hs'
            cases hs'
          | succ i => exact e3 i d' s' (by omega) (by simpa using hd') hs'
    | some s0 =>
      by_cases hgt : s0 > best.bestScore
      · have e : pickLoop (d0 :: ds) k best =
            pickLoop ds (k + 1) ⟨s0, some k, d0.scan.1⟩ := by
          simp [pickLoop, hs, hgt]
        rw [e]
        obtain ⟨h1, h2, h3⟩ := ih (k + 1) ⟨s0, some k, d0.scan.1⟩
        simp only at h1
        refine ⟨by omega, ?_, Or.inr ?_⟩
        · intro j d s hj hd
          cases j with
          | zero =>
            simp only [List.getElem?_cons_zero, Option.some.injEq] at hj
            subst hj
            rw [hs] at hd
            cases hd
            exact h1
          | succ j => exact h2 j d s (by simpa using hj) hd
        · rcases h3 with h3 | ⟨j, d, a, b, c, e1, e2, e3⟩
          · rw [h3]
            refine ⟨0, d0, by simp, by simp, hs, rfl, hgt, ?_⟩
            intro i d' s' hi
            omega
          · simp only at e2
            refine ⟨j + 1, d, by simpa using a, by rw [b]; congr 1; omega, c, e1, by omega, ?_⟩
            intro i d' s' hi hd' hs'
            cases i with
            | zero =>
              simp only [List.getElem?_cons_zero, Option.some.injEq] at hd'
              subst hd'
              rw [hs] at hs'
              cases hs'
              exact e2
            | succ i => exact e3 i d' s' (by omega) (by simpa using hd') hs'
      · have e : pickLoop (d0 :: ds) k best = pickLoop ds (k + 1) best := by
          simp [pickLoop, hs, hgt]
        rw [e]
        obtain ⟨h1, h2, h3⟩ := ih (k + 1) best
        refine ⟨h1, ?_, ?_⟩
        · intro j d s hj hd
          cases j with
          | zero =>
            simp only [List.getElem?_cons_zero, Option.some.injEq] at hj
            subst hj
            rw [hs] at hd
            cases hd
            omega
          | succ j => exact h2 j d s (by simpa using hj) hd
        · rcases h3 with h3 | ⟨j, d, a, b, c, e1, e2, e3⟩
          · exact Or.inl h3
          · refine Or.inr ⟨j + 1, d, by simpa using a, by rw [b]; congr 1; omega, c, e1, e2, ?_⟩
            intro i d' s' hi hd' hs'
            cases i with
            | zero =>
              simp only [List.getElem?_cons_zero, Option.some.injEq] at hd'
              subst hd'
              rw [hs] at hs'
              cases hs'
              omega
            | succ i => exact e3 i d' s' (by omega) (by simpa using hd') hs'

/-- Claim C22: `pickPhysicalDevice` throws when no enumerated device exposes both a
graphics-capable queue family and a queue family with present support; when one
does, it returns the position `k` of a device that has both, with the indices
the loop found for it, whose score no device that has both exceeds and no
earlier one reaches; the devices the loop scores are those that have both; a
scored device with the combined bonus outranks every scored device without it,
and with equal bonus the order is that of the device type, discrete above
integrated above virtual above the other types. -/
theorem pickPhysicalDevice_selects_best_scored (devices : List PhysicalDevice) :
    ((∀ d ∈ devices, d.exposesGraphicsAndPresent = false) →
      ∃ e, pickPhysicalDevice devices = .thrown e) ∧
    ((∃ d ∈ devices, d.exposesGraphicsAndPresent = true) →
      ∃ (k : Nat) (d : PhysicalDevice) (s : Int),
        pickPhysicalDevice devices = .returned (k, d.scan.1) ∧
        devices[k]? = some d ∧ d.exposesGraphicsAndPresent = true ∧ d.score = some s ∧
        ∀ (j : Nat) (d' : PhysicalDevice) (s' : Int), devices[j]? = some d' →
          d'.score = some s' → s' ≤ s ∧ (j < k → s' < s)) ∧
    (∀ d : PhysicalDevice, d.score.isSome = d.exposesGraphicsAndPresent) ∧
    (∀ (d1 d2 : PhysicalDevice) (s1 s2 : Int), d1.score = some s1 → d2.score = some s2 →
      (d1.scan.2 = true → d2.scan.2 = false → s2 < s1) ∧
      (d1.scan.2 = d2.scan.2 →
        (s2 < s1 ↔ deviceTypeScore d2.deviceType < deviceTypeScore d1.deviceType))) ∧
    (deviceTypeScore .eIntegratedGpu < deviceTypeScore .eDiscreteGpu ∧
      deviceTypeScore .eVirtualGpu < deviceTypeScore .eIntegratedGpu ∧
      deviceTypeScore .eOther < deviceTypeScore .eVirtualGpu ∧
      deviceTypeScore .eCpu = deviceTypeScore .eOther) := by
  obtain ⟨h1, h2, h3⟩ := pickLoop_spec devices 0 ⟨-1, none, ⟨none, none, none, none⟩⟩
  refine ⟨?_, ?_, score_isSome, ?_, by decide⟩
  · intro hall
    unfold pickPhysicalDevice
    split_ifs with he
    · exact ⟨_, rfl⟩
    · rcases h3 with h3 | ⟨j, d, a, _, c, _⟩
      · rw [h3]
        exact ⟨_, rfl⟩
      · have hm : d ∈ devices := List.mem_iff_getElem?.mpr ⟨j, a⟩
        have hx := score_isSome d
        rw [c, hall d hm] at hx
        cases hx
  · rintro ⟨d0, hm, hd0⟩
    have hne : devices.isEmpty = false := by
      cases devices with
      | nil => cases hm
      | cons _ _ => rfl
    obtain ⟨s0, hs0⟩ : ∃ s0, d0.score = some s0 := by
      have hx := score_isSome d0
      rw [hd0] at hx
      exact Option.isSome_iff_exists.mp hx
    obtain ⟨j0, hj0⟩ := List.mem_iff_getElem?.mp hm
    have hle := h2 j0 d0 s0 hj0 hs0
    have hnn := score_nonneg d0 s0 hs0
    rcases h3 with h3 | ⟨j, d, a, b, c, e1, _, e3⟩
    · rw [h3] at hle
      simp only at hle
      omega
    · refine ⟨j, d, _, ?_, a, ?_, c, ?_⟩
      · unfold pickPhysicalDevice
        simp only [hne, Bool.false_eq_true, if_false]
        rw [b, e1]
        simp
      · have hx := score_isSome d
        rw [c] at hx
        exact hx.symm
      · intro i d' s' hi hs'
        exact ⟨h2 i d' s' hi hs', fun hlt => e3 i d' s' hlt hi hs'⟩
  · intro d1 d2 s1 s2 hs1 hs2
    have e1 := score_eq d1 s1 hs1
    have e2 := score_eq d2 s2 hs2
    have r1 := deviceTypeScore_range d1.deviceType
    have r2 := deviceTypeScore_range d2.deviceType
    refine ⟨?_, ?_⟩
    · intro b1 b2
      rw [b1] at e1
      rw [b2] at e2
      simp only [if_true, Bool.false_eq_true, if_false] at e1 e2
      omega
    · intro hb
      rw [hb] at e1
      constructor
      · intro h
        split_ifs at e1 e2 <;> omega
      · intro h
        split_ifs at e1 e2 <;> omega

/-- The choice among `fourDevices`: the first integrated GPU, at position 2. -/
theorem pickPhysicalDevice_selects_best_scored_witness :
    ∃ (k : Nat) (d : PhysicalDevice) (s : Int),
      pickPhysicalDevice fourDevices = .returned (k, d.scan.1) ∧
      fourDevices[k]? = some d ∧ d.exposesGraphicsAndPresent = true ∧ d.score = some s ∧
      ∀ (j : Nat) (d' : PhysicalDevice) (s' : Int), fourDevices[j]? = some d' →
        d'.score = some s' → s' ≤ s ∧ (j < k → s' < s) :=
  (pickPhysicalDevice_selects_best_scored fourDevices).2.1
    ⟨⟨.eIntegratedGpu, [⟨true, true, true, true⟩]⟩, by decide, by decide⟩

/-- Claim C23, evaluated: a discrete GPU whose family 0 is graphics-only and whose
family 1 serves graphics and present has a single family for both, yet the loop
leaves `foundCombinedGraphicsPresent` false and scores it 1000, without the
10000 of the combined family; with the same two families enumerated in the
other order the flag is set and the score is 11000. -/
theorem combined_bonus_depends_on_family_order :
    splitFirstDevice.hasCombinedFamily = true ∧
    splitFirstDevice.scan = (⟨some 0, some 1, some 0, some 0⟩, false) ∧
    splitFirstDevice.score = some 1000 ∧
    combinedFirstDevice.hasCombinedFamily = true ∧
    combinedFirstDevice.scan.2 = true ∧
    combinedFirstDevice.score = some 11000 ∧
    pickPhysicalDevice [⟨.eIntegratedGpu, [⟨true, true, true, true⟩]⟩, splitFirstDevice] =
      .returned (0, ⟨some 0, some 0, some 0, some 0⟩) := by
  decide

/-! ## Renderer: the order of the teardown -/

/-- Every result of a loop of reads that all succeed is what one of the reads
yields. -/
theorem mem_of_mapM_some {α β : Type} (f : α → Option β) (l : List α) (ys : List β)
    (h : l.mapM f = some ys) : ∀ y ∈ ys, ∃ x ∈ l, f x = some y := by
  induction l generalizing ys with
  | nil =>
    rw [List.mapM_nil] at h
    cases h
    intro y hy
    cases hy
  | cons a l ih =>
    rw [List.mapM_cons] at h
    cases hfa : f a with
    | none =>
      rw [hfa] at h
      cases h
    | some b =>
      cases hr : l.mapM f with
      | none =>
        rw [hfa, hr] at h
        cases h
      | some bs =>
        rw [hfa, hr] at h
        cases h
        intro y hy
        rcases List.mem_cons.mp hy with rfl | hy
        · exact ⟨a, List.mem_cons_self _ _, hfa⟩
        · obtain ⟨x, hx, hfx⟩ := ih bs hr y hy
          exact ⟨x, List.mem_cons_of_mem _ hx, hfx⟩

/-- Every call of `cleanupUBOs` destroys a uniform buffer. -/
theorem cleanupUBOs_destroys_buffers (r : Renderer) (ubo : List Event)
    (h : r.cleanupUBOs = some ubo) : ∀ e ∈ ubo, e.destroyedComponent = some .uboBuffers := by
  unfold Renderer.cleanupUBOs at h
  cases hf : (List.range r.m_frameAllocations.length).mapM (cleanupFrameUBOAt r) with
  | none =>
    rw [hf] at h
    cases h
  | some fr =>
    cases ho : (List.range r.m_objectAllocations.length).mapM (cleanupObjectUBOAt r) with
    | none =>
      rw [hf, ho] at h
      cases h
    | some ob =>
      rw [hf, ho] at h
      cases h
      intro e he
      rcases List.mem_append.mp he with he | he
      · obtain ⟨x, _, hx⟩ := mem_of_mapM_some _ _ _ hf e he
        unfold cleanupFrameUBOAt at hx
        split at hx
        · cases hx
          rfl
        · cases hx
      · obtain ⟨x, _, hx⟩ := mem_of_mapM_some _ _ _ ho e he
        simp only [cleanupObjectUBOAt] at hx
        split at hx
        · cases hx
          rfl
        · cases hx

/-- The components a list of buffer destructions names. -/
theorem filterMap_destroyedComponent_of_buffers (ubo : List Event)
    (key : ∀ e ∈ ubo, e.destroyedComponent = some .uboBuffers) :
    ubo.filterMap Event.destroyedComponent = List.replicate ubo.length .uboBuffers := by
  induction ubo with
  | nil => rfl
  | cons e es ih =>
    rw [List.filterMap_cons, key e (List.mem_cons_self _ _)]
    simp only [List.length_cons, List.replicate_succ]
    rw [ih (fun x hx => key x (List.mem_cons_of_mem _ hx))]

/-- A run of equal components followed by a different one collapses to one
element. -/
theorem collapseRuns_replicate (n : Nat) (c d : Component) (rest : List Component)
    (h : c ≠ d) :
    collapseRuns (List.replicate (n + 1) c ++ d :: rest) = c :: collapseRuns (d :: rest) := by
  induction n with
  | zero => simp [collapseRuns, h]
  | succ n ih =>
    have e : List.replicate (n + 1 + 1) c ++ d :: rest =
        c :: c :: (List.replicate n c ++ d :: rest) := by
      simp [List.replicate_succ]
    have e2 : List.replicate (n + 1) c ++ d :: rest =
        c :: (List.replicate n c ++ d :: rest) := by
      simp [List.replicate_succ]
    rw [e]
    rw [e2] at ih
    simp only [collapseRuns, if_true]
    exact ih

/-- Claim C24, as the code has it: the destructor of a renderer with a live device
and at least one uniform buffer returns, issues the idle wait first and only
once, and then destroys the components in the order PipelineManager, Frame
Orchestrator, Depth/Framebuffers, Swapchain, DescriptorManager, RenderPass, UBO
buffers, Context. -/
theorem destructor_teardown_order (r : Renderer) (device : Nat) (ubo : List Event)
    (hd : device ≠ 0) (hu : r.cleanupUBOs = some ubo) (hne : ubo ≠ []) :
    (r.destructor device).result = .returned () ∧
    (r.destructor device).events.head? = some .deviceWaitIdle ∧
    (r.destructor device).events.count .deviceWaitIdle = 1 ∧
    (r.destructor device).events.getLast? = some (.resource .contextReset) ∧
    teardownOrder (r.destructor device).events =
      [.pipelineManager, .frameOrchestrator, .depthFramebuffers, .swapchain,
       .descriptorManager, .renderPass, .uboBuffers, .context] := by
  have key := cleanupUBOs_destroys_buffers r ubo hu
  have hc := filterMap_destroyedComponent_of_buffers ubo key
  obtain ⟨n, hn⟩ : ∃ n, ubo.length = n + 1 := by
    cases ubo with
    | nil => exact absurd rfl hne
    | cons e es => exact ⟨es.length, rfl⟩
  rw [hn] at hc
  have hw : ubo.count .deviceWaitIdle = 0 := by
    rw [List.count_eq_zero]
    intro hm
    have := key _ hm
    cases this
  have hev : (r.destructor device).events =
      [.deviceWaitIdle, .pipelineManagerReset, .commandManagerReset,
        .destroyFramebuffers r.m_swapchainFramebuffers] ++ cleanupDepthEvents r ++
      [.resource .swapchainReset, .resource .descriptorManagerReset,
        .resource .renderPassReset] ++ ubo ++ [.resource .contextReset] := by
    simp [Renderer.destructor, hu, hd]
  have hdepth : (cleanupDepthEvents r).count .deviceWaitIdle = 0 := by
    unfold cleanupDepthEvents
    cases r.m_depthImageView <;> cases r.m_depthImage <;> cases r.m_depthImageMemory <;> rfl
  refine ⟨by simp [Renderer.destructor, hu], by rw [hev]; rfl, ?_,
    by rw [hev]; exact List.getLast?_concat _, ?_⟩
  · rw [hev]
    simp only [List.count_append, hw, hdepth]
    rfl
  · rw [hev]
    unfold teardownOrder
    simp only [List.filterMap_append, hc]
    have hr := collapseRuns_replicate n .uboBuffers .context [] (by decide)
    simp only [List.replicate_succ, List.cons_append, collapseRuns] at hr
    unfold cleanupDepthEvents
    cases r.m_depthImageView <;> cases r.m_depthImage <;> cases r.m_depthImageMemory <;>
      simp [Event.destroyedComponent, collapseRuns, List.replicate_succ] <;>
      exact hr

/-- Claim C24, as stated, fails: for the renderer the constructor leaves for a chain
of three images, the destructor issues the idle wait first, but the order in
which it destroys the components is not the reverse of the construction order:
it resets the PipelineManager before the Frame Orchestrator, and destroys the
UBO buffers after the DescriptorManager and the RenderPass, and the Swapchain
before both. -/
theorem destructor_order_is_not_reverse_of_construction :
    ((Renderer.fresh false 3).destructor 1).events.head? = some .deviceWaitIdle ∧
    teardownOrder ((Renderer.fresh false 3).destructor 1).events =
      [.pipelineManager, .frameOrchestrator, .depthFramebuffers, .swapchain,
       .descriptorManager, .renderPass, .uboBuffers, .context] ∧
    constructionOrder.reverse =
      [.frameOrchestrator, .pipelineManager, .uboBuffers, .descriptorManager,
       .depthFramebuffers, .renderPass, .swapchain, .context] ∧
    teardownOrder ((Renderer.fresh false 3).destructor 1).events ≠
      constructionOrder.reverse := by
  decide

/-- The destructor of the renderer the constructor leaves for a chain of three
images, with the device handle 1. -/
theorem destructor_teardown_order_witness :
    ((Renderer.fresh false 3).destructor 1).result = .returned () ∧
    ((Renderer.fresh false 3).destructor 1).events.head? = some .deviceWaitIdle ∧
    ((Renderer.fresh false 3).destructor 1).events.count .deviceWaitIdle = 1 ∧
    ((Renderer.fresh false 3).destructor 1).events.getLast? = some (.resource .contextReset) ∧
    teardownOrder ((Renderer.fresh false 3).destructor 1).events =
      [.pipelineManager, .frameOrchestrator, .depthFramebuffers, .swapchain,
       .descriptorManager, .renderPass, .uboBuffers, .context] :=
  destructor_teardown_order (Renderer.fresh false 3) 1
    (((Renderer.fresh false 3).cleanupUBOs).getD []) (by decide) (by decide) (by decide)

/-! ## SwapchainManager and CommandManager: cleanup twice -/

/-- The attachment loop yields the description of each configured attachment, in
the order of the configuration. -/
theorem attachmentDescriptions_eq_map (attachments : List AttachmentConfig) :
    RenderPassFactory.attachmentDescriptions attachments =
      attachments.map attachmentDescription := by
  unfold RenderPassFactory.attachmentDescriptions
  have h : ∀ (l : List AttachmentConfig) (acc : List AttachmentDescription),
      l.foldl (fun descriptions att => descriptions ++ [attachmentDescription att]) acc =
        acc ++ l.map attachmentDescription := by
    intro l
    induction l with
    | nil => intro acc; simp
    | cons a l ih => intro acc; simp [ih]
  simpa using h attachments []

/-- What `create` does for every format: one description per configured attachment,
in order, with the format, the sample count, the load/store ops and the layouts
copied; the stencil ops are the attachment's own load/store ops for the six
formats `isDepthStencilFormat` lists, and "don't care" for every other
format. -/
theorem attachmentDescriptions_spec (attachments : List AttachmentConfig) :
    (RenderPassFactory.attachmentDescriptions attachments).length = attachments.length ∧
    ∀ (i : Nat) (att : AttachmentConfig), attachments[i]? = some att →
      ∃ desc, (RenderPassFactory.attachmentDescriptions attachments)[i]? = some desc ∧
        desc.format = att.format ∧ desc.samples = att.samples ∧ desc.loadOp = att.loadOp ∧
        desc.storeOp = att.storeOp ∧ desc.initialLayout = att.initialLayout ∧
        desc.finalLayout = att.finalLayout ∧
        (isDepthStencilFormat att.format = true →
          desc.stencilLoadOp = att.loadOp ∧ desc.stencilStoreOp = att.storeOp) ∧
        (isDepthStencilFormat att.format = false →
          desc.stencilLoadOp = .eDontCare ∧ desc.stencilStoreOp = .eDontCare) := by
  rw [attachmentDescriptions_eq_map]
  refine ⟨by simp, ?_⟩
  intro i att h
  refine ⟨attachmentDescription att, by simp [h], rfl, rfl, rfl, rfl, rfl, rfl, ?_, ?_⟩
  · intro hd
    simp [attachmentDescription, hd]
  · intro hd
    simp [attachmentDescription, hd]

/-- Claim C27, evaluated: `eS8Uint` is a depth/stencil format (it has a stencil
component and no colour), the lambda of `create` does not list it, and for a
stencil-only attachment that is cleared and stored `create` builds a description
whose stencil load and store ops are "don't care", not the attachment's own
ops; the other fields are copied. -/
theorem stencil_only_format_gets_dont_care :
    Format.hasDepthOrStencil .eS8Uint = true ∧
    isDepthStencilFormat .eS8Uint = false ∧
    (∀ f : Format, isDepthStencilFormat f = true → f.hasDepthOrStencil = true) ∧
    RenderPassFactory.attachmentDescriptions [stencilOnlyAttachment] =
      [{ format := .eS8Uint
         samples := 1
         loadOp := .eClear
         storeOp := .eStore
         stencilLoadOp := .eDontCare
         stencilStoreOp := .eDontCare
         initialLayout := .eUndefined
         finalLayout := .eDepthStencilAttachmentOptimal }] := by
  refine ⟨rfl, rfl, ?_, rfl⟩
  intro f h
  cases f <;> first | rfl | cases h

/-- A call keeps the sizes and the two indices inside the vectors, and reads inside
the vectors, when the index its acquisition stores is below the number of
images. -/
theorem call_indicesWithin (f n : Nat) (s : CommandManager) (c : FrameCall)
    (inv : s.indicesWithin f n) (hc : c.acquiresBelow n = true) :
    (s.call c).1.indicesWithin f n ∧
    ∀ e ∈ (s.call c).2, e.withinBounds (CommandManager.create f n) = true := by
  obtain ⟨h1, h2, h3, h4, h5, h6⟩ := inv
  cases c with
  | beginFrame env =>
    have hk : env.acquiredIndex.getD s.m_currentImageIndex < n := by
      cases ha : env.acquiredIndex with
      | none => simpa using h6
      | some k =>
        simp only [FrameCall.acquiresBelow, ha, decide_eq_true_eq] at hc
        simpa using hc
    simp only [CommandManager.call, CommandManager.beginFrame]
    split_ifs <;>
      simp [CommandManager.indicesWithin, Event.withinBounds, Semaphore.withinBounds,
        CommandManager.create, h1, h2, h3, h4, h5, h6, hk]
  | endFrame cb env =>
    have hf : 0 < f := by omega
    have hm : (s.m_currentFrameIndex + 1) % 4294967296 % f < f := Nat.mod_lt _ hf
    simp only [CommandManager.call, CommandManager.endFrame]
    split_ifs <;>
      simp [CommandManager.indicesWithin, Event.withinBounds, Semaphore.withinBounds,
        CommandManager.create, h1, h2, h3, h4, h5, h6, hm]

/-- A sequence of calls keeps the sizes and the two indices inside the vectors, and
reads inside the vectors. -/
theorem run_indicesWithin (f n : Nat) (calls : List FrameCall) (s : CommandManager)
    (inv : s.indicesWithin f n) (hc : acquiredBelow n calls = true) :
    (s.run calls).1.indicesWithin f n ∧
    ∀ e ∈ (s.run calls).2, e.withinBounds (CommandManager.create f n) = true := by
  induction calls generalizing s with
  | nil =>
    refine ⟨inv, ?_⟩
    intro e he
    cases he
  | cons c cs ih =>
    simp only [acquiredBelow, List.all_cons, Bool.and_eq_true] at hc
    obtain ⟨i1, e1⟩ := call_indicesWithin f n s c inv hc.1
    obtain ⟨i2, e2⟩ := ih (s.call c).1 i1 hc.2
    refine ⟨i2, ?_⟩
    intro e he
    simp only [CommandManager.run, List.mem_append] at he
    rcases he with he | he
    · exact e1 e he
    · exact e2 e he

/-- Claim C29, as stated, fails: on a `CommandManager` of two frames in flight and no
swapchain image, a sequence of one `endFrame` acquires nothing, yet its
submission names position 0 of the empty vector of render-finished semaphores. -/
theorem index_safety_fails_without_images :
    acquiredBelow 0 [.endFrame 0 ⟨.eSuccess, .eSuccess⟩] = true ∧
    ((CommandManager.create 2 0).run [.endFrame 0 ⟨.eSuccess, .eSuccess⟩]).2 =
      [ .queueSubmit (.imageAvailable 0) .eColorAttachmentOutput 0 (.renderFinished 0) 0
          .eSuccess
      , .queuePresent (.renderFinished 0) 0 .eSuccess ] ∧
    (CommandManager.create 2 0).renderFinishedSemaphoresSize = 0 ∧
    indexSafe 2 0 [.endFrame 0 ⟨.eSuccess, .eSuccess⟩] = false := by
  decide

/-- Claim C29, amended: for a `CommandManager` constructed with at least one frame in
flight and at least one swapchain image, and every sequence of `beginFrame` and
`endFrame` calls in which each acquired image index is below the number of
images, every read of the per-frame data, of the image-available semaphores
and of the render-finished semaphores is inside its vector, and so is the read
of `getCurrentCommandBuffer` after the sequence. -/
theorem index_safety_with_images (f n : Nat) (calls : List FrameCall)
    (hf : 1 ≤ f) (hn : 1 ≤ n) (hc : acquiredBelow n calls = true) :
    indexSafe f n calls = true := by
  have inv : (CommandManager.create f n).indicesWithin f n :=
    ⟨rfl, rfl, rfl, rfl, hf, hn⟩
  obtain ⟨i, e⟩ := run_indicesWithin f n calls _ inv hc
  simp only [indexSafe, Bool.and_eq_true, List.all_eq_true, decide_eq_true_eq]
  refine ⟨e, ?_⟩
  obtain ⟨_, h2, _, _, h5, _⟩ := i
  rw [h2]
  exact h5

/-- The sequence `mixedCalls` on two frames in flight and three images. -/
theorem index_safety_with_images_witness : indexSafe 2 3 mixedCalls = true :=
  index_safety_with_images 2 3 mixedCalls (by decide) (by decide) (by decide)

/-! ## Renderer: the counts the frame loop relies on -/

/-- What the steps 3 to 10 of the constructor leave: the swapchain they were
given, one framebuffer per image view, a `CommandManager` for the image count,
and a clear resize flag. -/
theorem assemble_fields (swapchain : SwapchainManagerState) :
    (Renderer.assemble swapchain).m_swapchain = swapchain ∧
    (Renderer.assemble swapchain).m_swapchainFramebuffers =
      swapchain.m_swapchainImageViews.length ∧
    (Renderer.assemble swapchain).m_commandManager =
      some (CommandManager.create MAX_FRAMES_IN_FLIGHT
        (swapchain.m_swapchainImages.length % 4294967296)) ∧
    (Renderer.assemble swapchain).m_framebufferResized = false := by
  unfold Renderer.assemble
  dsimp only
  refine ⟨?_, ?_, ?_, ?_⟩
  · rw [createObjectUBOs_keeps (fun x => x.m_swapchain) _ _ _ (fun _ _ _ => rfl),
      createFrameUBOs_keeps (fun x => x.m_swapchain) _ _ (fun _ _ _ => rfl)]
    rfl
  · rw [createObjectUBOs_keeps (fun x => x.m_swapchainFramebuffers) _ _ _ (fun _ _ _ => rfl),
      createFrameUBOs_keeps (fun x => x.m_swapchainFramebuffers) _ _ (fun _ _ _ => rfl)]
    rfl
  · rw [createObjectUBOs_keeps (fun x => x.m_swapchain) _ _ _ (fun _ _ _ => rfl),
      createFrameUBOs_keeps (fun x => x.m_swapchain) _ _ (fun _ _ _ => rfl)]
    rfl
  · rw [createObjectUBOs_keeps (fun x => x.m_framebufferResized) _ _ _ (fun _ _ _ => rfl),
      createFrameUBOs_keeps (fun x => x.m_framebufferResized) _ _ (fun _ _ _ => rfl)]
    rfl

/-- A renderer the constructor returns was assembled on the swapchain the
`SwapchainManager` constructor returned. -/
theorem create_of_returned (contextFailure : Option Exception) (env : SwapchainEnv)
    (laterFailure : Option Exception) (r : Renderer)
    (h : Renderer.create contextFailure env laterFailure = .returned r) :
    (SwapchainManagerState.create env).result = .returned () ∧
    r = Renderer.assemble (SwapchainManagerState.create env).state := by
  unfold Renderer.create at h
  cases contextFailure with
  | some e => simp at h
  | none =>
    cases hs : (SwapchainManagerState.create env).result with
    | undefinedBehaviour => simp [hs] at h
    | thrown e => simp [hs] at h
    | returned u =>
      cases laterFailure with
      | some e => simp [hs] at h
      | none =>
        simp only [hs, Completion.returned.injEq] at h
        exact ⟨rfl, h.symm⟩

/-- The constructor returns when no step throws: the renderer is the one assembled
on the swapchain of the `SwapchainManager` constructor. -/
theorem create_returns (env : SwapchainEnv)
    (h : (SwapchainManagerState.create env).result = .returned ()) :
    Renderer.create none env none =
      .returned (Renderer.assemble (SwapchainManagerState.create env).state) := by
  simp [Renderer.create, h]

/-- A renderer with the resize flag written into itself is the same renderer. -/
theorem with_flag_self (x : Renderer) (b : Bool) (h : x.m_framebufferResized = b) :
    { x with m_framebufferResized := b } = x := by
  subst h
  rfl

/-- The constructor, run on a driver that creates chain 7 with three images and
with no step throwing, returns the renderer `Renderer.fresh false 3`. -/
theorem create_returns_fresh :
    Renderer.create none (chainEnv 7 3) none = .returned (Renderer.fresh false 3) := by
  rw [create_returns (chainEnv 7 3) (by decide)]
  unfold Renderer.fresh
  rw [with_flag_self _ false (assemble_fields _).2.2.2]

/-- A renderer the constructor returns has equal counts. -/
theorem create_countsAgree (contextFailure : Option Exception) (env : SwapchainEnv)
    (laterFailure : Option Exception) (r : Renderer)
    (h : Renderer.create contextFailure env laterFailure = .returned r)
    (hn : env.newImages.length < 4294967296) :
    r.countsAgree ∧ r.m_swapchainFramebuffers = env.newImages.length := by
  obtain ⟨hs, rfl⟩ := create_of_returned contextFailure env laterFailure r h
  have hc := (swapchain_counts SwapchainManagerState.initial env).1 hs
  have ha := assemble_fields (SwapchainManagerState.create env).state
  refine ⟨⟨?_, ?_, _, ha.2.2.1, ?_⟩, ?_⟩
  · rw [ha.2.1, ha.1]
  · rw [ha.1, hc.1, hc.2]
  · rw [ha.1, hc.2, Nat.mod_eq_of_lt hn]
    rfl
  · rw [ha.2.1, hc.1]

/-- A recreation that returns leaves the counts equal. -/
theorem recreate_countsAgree (r : Renderer) (env : RecreateEnv)
    (h : (r.recreateSwapchainAndDependencies env).result = .returned ())
    (hn : env.swapchain.newImages.length < 4294967296) :
    (r.recreateSwapchainAndDependencies env).state.countsAgree ∧
    (r.recreateSwapchainAndDependencies env).state.m_swapchainFramebuffers =
      env.swapchain.newImages.length := by
  have hst := recreate_of_returned r env h
  have hc := (swapchain_counts r.m_swapchain env.swapchain).2 hst.2.1
  refine ⟨⟨?_, ?_, _, hst.2.2.2.2.1, ?_⟩, ?_⟩
  · rw [hst.2.2.2.1, hst.2.2.1]
  · rw [hst.2.2.1, hc.1, hc.2]
  · rw [hst.2.2.1, hc.2, Nat.mod_eq_of_lt hn]
    rfl
  · rw [hst.2.2.2.1, hc.1]

/-- An event that is not a draw or a submission names no render-finished
semaphore. -/
theorem renderFinishedIndex_of_not_submit (e : Event) (h : e.isDrawOrSubmit = false) :
    e.renderFinishedIndex = none := by
  cases e <;> first | rfl | cases h

/-- When `beginFrame` returns an index, it is the sentinel or the image index the
`CommandManager` holds afterwards. -/
theorem beginFrame_returned_index (s : CommandManager) (env : BeginFrameEnv) (k : Nat)
    (h : (s.beginFrame env).result = .returned k) :
    k = UINT32_MAX ∨ k = (s.beginFrame env).state.m_currentImageIndex := by
  simp only [CommandManager.beginFrame] at h ⊢
  split_ifs at h ⊢ <;> simp_all

/-- The calls of `beginFrame` name no render-finished semaphore. -/
theorem beginFrame_no_renderFinished (s : CommandManager) (env : BeginFrameEnv) :
    ∀ e ∈ (s.beginFrame env).events, e.renderFinishedIndex = none :=
  fun e he => renderFinishedIndex_of_not_submit e (beginFrame_no_draw s env e he)

/-- The calls of the recreation name no render-finished semaphore. -/
theorem recreate_no_renderFinished (r : Renderer) (env : RecreateEnv) :
    ∀ e ∈ (r.recreateSwapchainAndDependencies env).events, e.renderFinishedIndex = none :=
  fun e he => renderFinishedIndex_of_not_submit e (recreate_no_draw r env e he)

/-- The render-finished semaphore the calls of `endFrame` name is that of the image
index the `CommandManager` holds. -/
theorem endFrame_renderFinished (s : CommandManager) (cb : Nat) (env : EndFrameEnv) :
    ∀ e ∈ (s.endFrame cb env).events, ∀ k, e.renderFinishedIndex = some k →
      k = s.m_currentImageIndex := by
  intro e he k hk
  rw [endFrame_events] at he
  by_cases h : env.submitResult = .eSuccess
  · simp only [h, if_true, List.mem_cons, List.mem_singleton, List.not_mem_nil,
      or_false] at he
    rcases he with he | he <;> subst he <;>
      simp only [Event.renderFinishedIndex, Option.some.injEq] at hk <;> exact hk.symm
  · simp only [h, if_false, List.mem_cons, List.not_mem_nil, or_false] at he
    subst he
    simp only [Event.renderFinishedIndex, Option.some.injEq] at hk
    exact hk.symm

/-- In a `render` call on a renderer whose framebuffers are no more than the
render-finished semaphores of its `CommandManager` (and fewer than 2^32), every
render-finished semaphore a submission or a presentation request names lies
inside the vector: an image index passes the bounds check of `render` only when
it is below the number of framebuffers. -/
theorem render_renderFinished_within (r : Renderer) (cm : CommandManager)
    (scene : Scene) (env : RenderEnv)
    (hcm : r.m_commandManager = some cm)
    (hfb : r.m_swapchainFramebuffers ≤ cm.renderFinishedSemaphoresSize)
    (hmax : r.m_swapchainFramebuffers ≤ UINT32_MAX) :
    ∀ e ∈ (r.render scene env).events, ∀ k, e.renderFinishedIndex = some k →
      k < cm.renderFinishedSemaphoresSize := by
  have none_absurd : ∀ (e : Event) (k : Nat), e.renderFinishedIndex = none →
      e.renderFinishedIndex = some k → k < cm.renderFinishedSemaphoresSize := by
    intro e k h1 h2
    rw [h1] at h2
    cases h2
  intro e he k hk
  by_cases hflag : r.m_framebufferResized = true
  · rw [render_of_resized r scene env hflag] at he
    exact none_absurd e k (recreate_no_renderFinished r _ e he) hk
  · simp only [Bool.not_eq_true] at hflag
    obtain ⟨rest, hev, hrest⟩ := render_events_split r cm scene env hflag hcm
    rw [hev, List.mem_append] at he
    rcases he with he | he
    · exact none_absurd e k (beginFrame_no_renderFinished cm env.beginFrame e he) hk
    · rcases hrest e he with h1 | ⟨_, rfl | rfl | rfl | rfl⟩ | ⟨⟨k0, hk0, hlt⟩, h3⟩
      · exact none_absurd e k (recreate_no_renderFinished r _ e h1) hk
      · cases hk
      · cases hk
      · cases hk
      · cases hk
      · have hidx : (cm.beginFrame env.beginFrame).state.m_currentImageIndex = k0 := by
          rcases beginFrame_returned_index cm env.beginFrame k0 hk0 with h | h
          · omega
          · exact h.symm
        rcases h3 with h3 | h3 | ⟨j, rfl⟩ | rfl | rfl | rfl | rfl
        · exact none_absurd e k (drawRenderables_spec r _ _ _ e h3).2 hk
        · have := endFrame_renderFinished _ _ _ e h3 k hk
          omega
        all_goals cases hk

/-- The calls `beginFrame` and `endFrame` keep the number of render-finished
semaphores. -/
theorem frame_calls_keep_renderFinished_size (s : CommandManager) (benv : BeginFrameEnv)
    (cb : Nat) (eenv : EndFrameEnv) :
    (s.beginFrame benv).state.renderFinishedSemaphoresSize = s.renderFinishedSemaphoresSize ∧
    (s.endFrame cb eenv).state.renderFinishedSemaphoresSize =
      s.renderFinishedSemaphoresSize := by
  constructor
  · simp only [CommandManager.beginFrame]
    split_ifs <;> rfl
  · simp only [CommandManager.endFrame]
    split_ifs <;> rfl

/-- A `render` call that returns keeps the counts equal, whether it drew a frame or
recreated the chain. -/
theorem render_countsAgree (r : Renderer) (scene : Scene) (env : RenderEnv)
    (inv : r.countsAgree) (hn : env.recreate.swapchain.newImages.length < 4294967296)
    (h : (r.render scene env).result = .returned ()) :
    (r.render scene env).state.countsAgree := by
  obtain ⟨i1, i2, cm, hcm, i3⟩ := inv
  by_cases hflag : r.m_framebufferResized = true
  · rw [render_of_resized r scene env hflag] at h ⊢
    exact (recreate_countsAgree r env.recreate h hn).1
  · simp only [Bool.not_eq_true] at hflag
    rcases render_outcome_cases r cm scene env hflag hcm with
      ⟨before, c, hr⟩ | hne | ⟨k, hk, hlt, hst⟩
    · rw [hr] at h ⊢
      exact (recreate_countsAgree _ env.recreate h hn).1
    · exact absurd h hne
    · rw [hst]
      refine ⟨i1, i2, _, rfl, ?_⟩
      rw [(frame_calls_keep_renderFinished_size (cm.beginFrame env.beginFrame).state
          env.beginFrame (cm.beginFrame env.beginFrame).state.getCurrentCommandBuffer
          env.endFrame).2,
        (frame_calls_keep_renderFinished_size cm env.beginFrame 0 env.endFrame).1]
      exact i3

/-- Claim C30: the renderer the constructor returns, the renderer a recreation
that returns leaves, and the renderer a `render` call that returns leaves when
it started from equal counts, have as many framebuffers as swapchain image
views, as many image views as swapchain images, and a `CommandManager` with as
many render-finished semaphores (the image count is below 2^32, as the driver
reports it in a `uint32_t`); the constructor of `SwapchainManager` and its
`recreate` leave as many image views as images; hence on a renderer with equal
counts every image index below the number of framebuffers is a position inside
the render-finished semaphores, and every render-finished semaphore the
submission and the presentation request of a `render` call name lies inside the
vector. -/
theorem framebuffer_view_semaphore_counts_agree (r : Renderer) (cm : CommandManager)
    (scene : Scene) (env : RenderEnv) (contextFailure laterFailure : Option Exception)
    (sc : SwapchainManagerState) (senv : SwapchainEnv) :
    (∀ r0, Renderer.create contextFailure senv laterFailure = .returned r0 →
      senv.newImages.length < 4294967296 → r0.countsAgree) ∧
    ((r.recreateSwapchainAndDependencies env.recreate).result = .returned () →
      env.recreate.swapchain.newImages.length < 4294967296 →
      (r.recreateSwapchainAndDependencies env.recreate).state.countsAgree) ∧
    (r.countsAgree → env.recreate.swapchain.newImages.length < 4294967296 →
      (r.render scene env).result = .returned () → (r.render scene env).state.countsAgree) ∧
    ((SwapchainManagerState.create senv).result = .returned () →
      (SwapchainManagerState.create senv).state.m_swapchainImageViews.length =
        (SwapchainManagerState.create senv).state.m_swapchainImages.length) ∧
    ((sc.recreate senv).result = .returned () →
      (sc.recreate senv).state.m_swapchainImageViews.length =
        (sc.recreate senv).state.m_swapchainImages.length) ∧
    (r.countsAgree → r.m_commandManager = some cm →
      (∀ k, k < r.m_swapchainFramebuffers → k < cm.renderFinishedSemaphoresSize) ∧
      (r.m_swapchainFramebuffers ≤ UINT32_MAX →
        ∀ e ∈ (r.render scene env).events, ∀ k, e.renderFinishedIndex = some k →
          k < cm.renderFinishedSemaphoresSize)) := by
  refine ⟨fun r0 h hn => (create_countsAgree contextFailure senv laterFailure r0 h hn).1,
    fun h hn => (recreate_countsAgree r env.recreate h hn).1,
    fun inv hn h => render_countsAgree r scene env inv hn h, ?_, ?_, ?_⟩
  · intro h
    rw [((swapchain_counts sc senv).1 h).1, ((swapchain_counts sc senv).1 h).2]
  · intro h
    rw [((swapchain_counts sc senv).2 h).1, ((swapchain_counts sc senv).2 h).2]
  · rintro ⟨i1, i2, cm', hcm', i3⟩ hcm
    rw [hcm] at hcm'
    cases hcm'
    have hle : r.m_swapchainFramebuffers ≤ cm.renderFinishedSemaphoresSize := by omega
    refine ⟨fun k hk => by omega, fun hmax => ?_⟩
    exact render_renderFinished_within r cm scene env hcm hle hmax

/-- The renderer the constructor returns for a chain of three images, in a `render`
call in which every driver call succeeds and image 1 is acquired, and the
`recreate` of a valid swapchain on the same driver. -/
theorem framebuffer_view_semaphore_counts_agree_witness :
    (Renderer.fresh false 3).countsAgree ∧
    ((Renderer.fresh false 3).render twoRenderables successEnv).state.countsAgree ∧
    (validSwapchain.recreate (chainEnv 7 3)).state.m_swapchainImageViews.length =
      (validSwapchain.recreate (chainEnv 7 3)).state.m_swapchainImages.length ∧
    ∀ e ∈ ((Renderer.fresh false 3).render twoRenderables successEnv).events,
      ∀ k, e.renderFinishedIndex = some k → k < 3 :=
  have h := framebuffer_view_semaphore_counts_agree (Renderer.fresh false 3)
    (CommandManager.create MAX_FRAMES_IN_FLIGHT 3) twoRenderables successEnv none none
    validSwapchain (chainEnv 7 3)
  have h0 : (Renderer.fresh false 3).countsAgree :=
    h.1 (Renderer.fresh false 3) create_returns_fresh (by decide)
  ⟨h0, h.2.2.1 h0 (by decide) (by decide), h.2.2.2.2.1 (by decide),
   (h.2.2.2.2.2 h0 (by decide)).2 (by decide)⟩

end Vortex
